import Mathlib

/-!
# JOB-BAZAR: the job controller, its listing queries and application workflow

Shallow embedding of `backend/src/Utils/validation.js` and of the handlers of
`backend/src/controllers/jobController.js`.

Modelling conventions.

* A query-string or path parameter is absent or a string (`Option String`);
  repeated or nested parameters are outside the model.
* The argument of the built-in `parseInt` is either such a string or one of the
  numeric defaults of the destructuring patterns (`page = 1`, `limit = 10`).
* JavaScript numbers that arise here are `NaN`, an infinity or doubles with an
  integer value; they are modelled by `Num`, whose arithmetic rounds every
  exact result to the nearest double as IEEE 754 does.
* A listing handler is split at its `try` block: the part before it (validation
  and the construction of the query arguments) is a pure function returning
  either the early HTTP response or the arguments handed to the persistence
  layer.
* The persistence layer (the Prisma client and its schema) is not among the
  sources. It is modelled from the specification: a `Store` of job, user and
  application records, calls that return a result or throw an error message,
  and an `Env` for what the layer leaves open (failures of its own, string
  matching, ordering, cascading deletes, the clock).
* A handler is a function from the environment, the store and the request to
  an `Outcome`: the response, the store it leaves, and the calls it issued.
  The handler works on a database client `Db` that records every call it is
  asked to make, so the calls of an outcome are the calls made.
* Both calls of a `Promise.all` are issued; when one fails, the error caught is
  its error; when both fail, it is the error of the one whose rejection arrives
  first, which the environment decides (`Env.race`).
-/

namespace JobBazar

/-! ## JavaScript values and `parseInt` -/

/-- JavaScript number as it arises here: `NaN`, an infinity, or a double whose
value is an integer. -/
inductive Num
  | NaN
  | int (n : Int)
  | inf (positive : Bool)
  deriving DecidableEq, Repr

/-- How many low bits of `n` do not fit the 53-bit significand of a double:
the number of halvings that bring `n` below `2 ^ 53`. -/
def excessBits : Nat → Nat → Nat
  | 0, _ => 0
  | fuel + 1, n => if n < 9007199254740992 then 0 else excessBits fuel (n / 2) + 1

/-- The power `2 ^ e`, by repeated doubling. -/
def pow2 : Nat → Nat
  | 0 => 1
  | e + 1 => 2 * pow2 e

/-- The natural number of the form `q * 2 ^ e` with `q` of at most 53 bits that
is nearest to `n`, ties going to the even `q` (IEEE 754 round to nearest, ties
to even). Below `2 ^ 53` it is `n` itself. -/
def roundNat (n : Nat) : Nat :=
  let e := excessBits n n
  let q := n / pow2 e
  let r := n % pow2 e
  let half := pow2 (e - 1)
  let q2 := if r < half then q else if half < r then q + 1 else if q % 2 = 0 then q else q + 1
  q2 * pow2 e

/-- The bound `2 ^ 1024`: a value that rounds to it or beyond is an infinity. -/
def doubleLimit : Nat :=
  let a := 2 ^ 256
  a * a * a * a

namespace Num

/-- The double nearest to the integer `n`: the Number value of a mathematical
integer. -/
def ofInt (n : Int) : Num :=
  let m := roundNat n.natAbs
  if doubleLimit ≤ m then inf (decide (0 < n)) else int (Int.sign n * (m : Int))

/-- The built-in `Number.isInteger`. -/
def isInteger : Num → Bool
  | int _ => true
  | _ => false

/-- JavaScript `a < b`; any comparison with `NaN` is false. -/
def lt : Num → Num → Bool
  | int a, int b => decide (a < b)
  | inf false, int _ => true
  | int _, inf true => true
  | inf false, inf true => true
  | _, _ => false

/-- JavaScript `a > b`; any comparison with `NaN` is false. -/
def gt : Num → Num → Bool
  | int a, int b => decide (a > b)
  | int _, inf false => true
  | inf true, int _ => true
  | inf true, inf false => true
  | _, _ => false

/-- JavaScript `a - b`: the exact difference rounded to a double. -/
def sub : Num → Num → Num
  | int a, int b => ofInt (a - b)
  | inf s, int _ => inf s
  | int _, inf s => inf (!s)
  | inf s, inf t => if s = t then NaN else inf s
  | _, _ => NaN

/-- JavaScript `a * b`: the exact product rounded to a double. -/
def mul : Num → Num → Num
  | int a, int b => ofInt (a * b)
  | inf s, int b => if b = 0 then NaN else inf (s == decide (0 < b))
  | int a, inf s => if a = 0 then NaN else inf (s == decide (0 < a))
  | inf s, inf t => inf (s == t)
  | _, _ => NaN

end Num

/-- Value handed to `parseInt`: a string, or a numeric default literal. -/
inductive JSVal
  | str (s : String)
  | num (n : Int)
  deriving DecidableEq, Repr

/-- The abstract operation `ToString` on the values of `JSVal`. -/
def JSVal.toStr : JSVal → List Char
  | .str s => s.data
  | .num n => (toString n).data

/-- The characters `parseInt` skips at the start of its input
(ECMA-262 `StrWhiteSpaceChar`: white space and line terminators). -/
def isStrWhiteSpaceChar (c : Char) : Bool :=
  let n := c.toNat
  n == 0x09 || n == 0x0A || n == 0x0B || n == 0x0C || n == 0x0D || n == 0x20 ||
  n == 0xA0 || n == 0x1680 || (0x2000 ≤ n && n ≤ 0x200A) || n == 0x2028 ||
  n == 0x2029 || n == 0x202F || n == 0x205F || n == 0x3000 || n == 0xFEFF

/-- Value of `c` as a digit in radix `R`, if it is one. -/
def digitValue (R : Nat) (c : Char) : Option Nat :=
  let n := c.toNat
  let v : Option Nat :=
    if 48 ≤ n && n ≤ 57 then some (n - 48)
    else if 97 ≤ n && n ≤ 122 then some (n - 87)
    else if 65 ≤ n && n ≤ 90 then some (n - 55)
    else none
  match v with
  | some d => if d < R then some d else none
  | none => none

/-- Reads the longest run of radix-`R` digits at the start of the input and
returns its value; `acc` is `none` until a first digit has been read. -/
def readDigits (R : Nat) (acc : Option Nat) : List Char → Option Nat
  | [] => acc
  | c :: cs =>
    match digitValue R c with
    | some d => readDigits R (some (acc.getD 0 * R + d)) cs
    | none => acc

/-- Sign step of `parseInt`: a leading `-` or `+` is consumed and gives the
sign. -/
def readSign (s : List Char) : Int × List Char :=
  match s with
  | c :: r => if c = '-' then (-1, r) else if c = '+' then (1, r) else (1, s)
  | [] => (1, s)

/-- Radix step of `parseInt` when no radix is passed: a leading `0x` or `0X`
is consumed and selects radix 16, otherwise the radix is 10. -/
def readRadix (s : List Char) : Nat × List Char :=
  match s with
  | c :: d :: r => if c = '0' ∧ (d = 'x' ∨ d = 'X') then (16, r) else (10, s)
  | r => (10, r)

/-- The built-in `parseInt(string)` without a radix argument (ECMA-262):
leading white space is skipped, an optional sign is read, a leading `0x` or
`0X` selects radix 16, and the longest run of digits is converted to the
nearest double; the result is `NaN` when that run is empty. -/
def parseIntChars (input : List Char) : Num :=
  let s := input.dropWhile isStrWhiteSpaceChar
  let signed := readSign s
  let radixed := readRadix signed.2
  match readDigits radixed.1 none radixed.2 with
  | none => .NaN
  | some m => Num.ofInt (signed.1 * (m : Int))

/-- The built-in `parseInt(v)`: `ToString` followed by the numeral scan. -/
def parseInt (v : JSVal) : Num :=
  parseIntChars v.toStr

/-! ## `validatePagination` -/

/-- Result object of `validatePagination`: `{ error }` or
`{ pageNum, limitNum, skip }`. -/
inductive PaginationResult
  | error (msg : String)
  | ok (pageNum limitNum skip : Num)
  deriving DecidableEq, Repr

/-- The function `validatePagination` of `jobController.js` (lines 3-15). -/
def validatePagination (page limit : JSVal) : PaginationResult :=
  let pageNum := parseInt page
  let limitNum := parseInt limit
  if !Num.isInteger pageNum || Num.lt pageNum (.int 1) then
    .error "Invalid page number"
  else if !Num.isInteger limitNum || Num.lt limitNum (.int 1) || Num.gt limitNum (.int 100) then
    .error "Invalid limit (1-100)"
  else
    .ok pageNum limitNum (Num.mul (Num.sub pageNum (.int 1)) limitNum)

namespace Utils

/-- The function `validatePagination` of `Utils/validation.js` (lines 1-13),
a textual copy of the one in the controller. -/
def validatePagination (page limit : JSVal) : PaginationResult :=
  let pageNum := parseInt page
  let limitNum := parseInt limit
  if !Num.isInteger pageNum || Num.lt pageNum (.int 1) then
    .error "Invalid page number"
  else if !Num.isInteger limitNum || Num.lt limitNum (.int 1) || Num.gt limitNum (.int 100) then
    .error "Invalid limit (1-100)"
  else
    .ok pageNum limitNum (Num.mul (Num.sub pageNum (.int 1)) limitNum)

end Utils

/-! ## Requests, early responses and query arguments -/

/-- Value of a field of the parsed JSON body `req.body`. -/
inductive BodyVal
  | undefined
  | null
  | bool (b : Bool)
  | num (n : Int)
  | str (s : String)
  | object
  deriving DecidableEq, Repr

/-- The parts of an Express request that the handlers read: the path
parameters `req.params`, the query string `req.query` and the JSON body
`req.body`. -/
structure Req where
  params : String → Option String
  query : String → Option String
  body : String → BodyVal

/-- Early response `res.status(status).json({ message })`. -/
structure Response where
  status : Nat
  message : String
  deriving DecidableEq, Repr

/-- A parameter as an argument of `parseInt`; an absent one is `undefined`,
whose `ToString` is the text `undefined`. -/
def ofParam : Option String → JSVal
  | some s => .str s
  | none => .str "undefined"

/-- Destructuring with a numeric default, as in `page = 1`. -/
def withDefault (v : Option String) (d : Int) : JSVal :=
  match v with
  | some s => .str s
  | none => .num d

/-- JavaScript truthiness of a query parameter: present and not the empty
string. -/
def truthy : Option String → Bool
  | some s => s != ""
  | none => false

/-- Prisma string filter `{ contains, equals, mode }`; a key that the source
does not write is `none`. -/
structure StringFilter where
  contains : Option String
  equals : Option String
  mode : Option String
  deriving DecidableEq, Repr

/-- Condition on one field, `{ field: filter }`. -/
structure FieldCondition where
  field : String
  filter : StringFilter
  deriving DecidableEq, Repr

/-- Element of the `conditions` array of `getJobs`: a condition on one field or
a disjunction `{ OR: [...] }` of such conditions. -/
inductive Condition
  | single (c : FieldCondition)
  | OR (alts : List FieldCondition)
  deriving DecidableEq, Repr

/-- The `where` object of a job query: `{}`, `{ AND: conditions }` or
`{ hrId }`. -/
structure JobWhere where
  AND : Option (List Condition)
  hrId : Option Num
  deriving DecidableEq, Repr

/-- The `where` object of an application query: `{ candidateId }` or
`{ jobId }`, with an optional `status`. -/
structure ApplicationWhere where
  candidateId : Option Num
  jobId : Option Num
  status : Option String
  deriving DecidableEq, Repr

/-- The local variables of a listing handler on entry to its `try` block. -/
structure Listing (W : Type) where
  whereClause : W
  sortField : String
  sortDirection : String
  pageNum : Num
  limitNum : Num
  skip : Num
  deriving DecidableEq, Repr

/-! ## The listing handlers up to their `try` block -/

/-- Handler `getJobs`, lines 61-120: destructuring of the query, pagination
check, filter conditions and sort options. -/
def getJobsQuery (req : Req) : Except Response (Listing JobWhere) :=
  let search := req.query "search"
  let location := req.query "location"
  let skills := req.query "skills"
  let company := req.query "company"
  let type := req.query "type"
  let salaryMin := req.query "salaryMin"
  let salaryMax := req.query "salaryMax"
  let sortBy := (req.query "sortBy").getD "createdAt"
  let sortOrder := (req.query "sortOrder").getD "desc"
  let page := withDefault (req.query "page") 1
  let limit := withDefault (req.query "limit") 10
  match validatePagination page limit with
  | .error msg => .error { status := 400, message := msg }
  | .ok pageNum limitNum skip =>
    let conditions : List Condition := []
    let conditions :=
      if truthy search then
        conditions ++ [.OR [
          { field := "title",
            filter := { contains := search, equals := none, mode := some "insensitive" } },
          { field := "description",
            filter := { contains := search, equals := none, mode := some "insensitive" } },
          { field := "requirements",
            filter := { contains := search, equals := none, mode := some "insensitive" } }]]
      else conditions
    let conditions :=
      if truthy location then
        conditions ++ [.single
          { field := "location",
            filter := { contains := location, equals := none, mode := some "insensitive" } }]
      else conditions
    let conditions :=
      if truthy company then
        conditions ++ [.single
          { field := "company",
            filter := { contains := company, equals := none, mode := some "insensitive" } }]
      else conditions
    let conditions :=
      if truthy type then
        conditions ++ [.single
          { field := "type",
            filter := { contains := none, equals := type, mode := none } }]
      else conditions
    let conditions :=
      if truthy skills then
        conditions ++ [.single
          { field := "requirements",
            filter := { contains := skills, equals := none, mode := some "insensitive" } }]
      else conditions
    let conditions :=
      if truthy salaryMin || truthy salaryMax then
        let salaryConditions : List FieldCondition := []
        let salaryConditions :=
          if truthy salaryMin then
            salaryConditions ++ [
              { field := "salary",
                filter := { contains := salaryMin, equals := none, mode := none } }]
          else salaryConditions
        let salaryConditions :=
          if truthy salaryMax then
            salaryConditions ++ [
              { field := "salary",
                filter := { contains := salaryMax, equals := none, mode := none } }]
          else salaryConditions
        if salaryConditions.length > 0 then conditions ++ [.OR salaryConditions]
        else conditions
      else conditions
    let whereClause : JobWhere :=
      if conditions.length > 0 then { AND := some conditions, hrId := none }
      else { AND := none, hrId := none }
    let validSortFields := ["createdAt", "title", "company", "location", "type"]
    let sortField := if validSortFields.contains sortBy then sortBy else "createdAt"
    let sortDirection := if sortOrder == "asc" then "asc" else "desc"
    .ok { whereClause := whereClause, sortField := sortField, sortDirection := sortDirection,
          pageNum := pageNum, limitNum := limitNum, skip := skip }

/-- Handler `getApplications`, lines 275-299. -/
def getApplicationsQuery (req : Req) : Except Response (Listing ApplicationWhere) :=
  let candidateId := req.params "candidateId"
  let page := withDefault (req.query "page") 1
  let limit := withDefault (req.query "limit") 10
  let status := req.query "status"
  let sortBy := (req.query "sortBy").getD "createdAt"
  let sortOrder := (req.query "sortOrder").getD "desc"
  let candidateIdNum := parseInt (ofParam candidateId)
  if !Num.isInteger candidateIdNum || Num.lt candidateIdNum (.int 1) then
    .error { status := 400, message := "Invalid candidate ID" }
  else
    match validatePagination page limit with
    | .error msg => .error { status := 400, message := msg }
    | .ok pageNum limitNum skip =>
      let whereClause : ApplicationWhere :=
        { candidateId := some candidateIdNum, jobId := none, status := none }
      let whereClause :=
        if truthy status && ["pending", "accepted", "rejected"].contains (status.getD "") then
          { whereClause with status := status }
        else whereClause
      let validSortFields := ["createdAt", "status"]
      let sortField := if validSortFields.contains sortBy then sortBy else "createdAt"
      let sortDirection := if sortOrder == "asc" then "asc" else "desc"
      .ok { whereClause := whereClause, sortField := sortField,
            sortDirection := sortDirection,
            pageNum := pageNum, limitNum := limitNum, skip := skip }

/-- Handler `getJobsByHR`, lines 328-346. -/
def getJobsByHRQuery (req : Req) : Except Response (Listing JobWhere) :=
  let hrId := req.params "hrId"
  let page := withDefault (req.query "page") 1
  let limit := withDefault (req.query "limit") 10
  let sortBy := (req.query "sortBy").getD "createdAt"
  let sortOrder := (req.query "sortOrder").getD "desc"
  let hrIdNum := parseInt (ofParam hrId)
  if !Num.isInteger hrIdNum || Num.lt hrIdNum (.int 1) then
    .error { status := 400, message := "Invalid HR ID" }
  else
    match validatePagination page limit with
    | .error msg => .error { status := 400, message := msg }
    | .ok pageNum limitNum skip =>
      let validSortFields := ["createdAt", "title", "company", "location", "type"]
      let sortField := if validSortFields.contains sortBy then sortBy else "createdAt"
      let sortDirection := if sortOrder == "asc" then "asc" else "desc"
      .ok { whereClause := { AND := none, hrId := some hrIdNum }, sortField := sortField,
            sortDirection := sortDirection,
            pageNum := pageNum, limitNum := limitNum, skip := skip }

/-- Handler `getApplicationsByJob`, lines 380-404. -/
def getApplicationsByJobQuery (req : Req) : Except Response (Listing ApplicationWhere) :=
  let jobId := req.params "jobId"
  let page := withDefault (req.query "page") 1
  let limit := withDefault (req.query "limit") 10
  let status := req.query "status"
  let sortBy := (req.query "sortBy").getD "createdAt"
  let sortOrder := (req.query "sortOrder").getD "desc"
  let jobIdNum := parseInt (ofParam jobId)
  if !Num.isInteger jobIdNum || Num.lt jobIdNum (.int 1) then
    .error { status := 400, message := "Invalid job ID" }
  else
    match validatePagination page limit with
    | .error msg => .error { status := 400, message := msg }
    | .ok pageNum limitNum skip =>
      let whereClause : ApplicationWhere :=
        { candidateId := none, jobId := some jobIdNum, status := none }
      let whereClause :=
        if truthy status && ["pending", "accepted", "rejected"].contains (status.getD "") then
          { whereClause with status := status }
        else whereClause
      let validSortFields := ["createdAt", "status"]
      let sortField := if validSortFields.contains sortBy then sortBy else "createdAt"
      let sortDirection := if sortOrder == "asc" then "asc" else "desc"
      .ok { whereClause := whereClause, sortField := sortField,
            sortDirection := sortDirection,
            pageNum := pageNum, limitNum := limitNum, skip := skip }

/-- Request with the given path parameters and query string, and an empty
body. -/
def Req.ofLists (params query : List (String × String)) : Req :=
  { params := fun k => params.lookup k, query := fun k => query.lookup k,
    body := fun _ => .undefined }

/-! ## Reference definitions following the specification -/

/-- ASCII decimal digit. -/
def isDecimalDigit (c : Char) : Bool :=
  48 ≤ c.toNat && c.toNat ≤ 57

/-- Value of a non-empty string of decimal digits; `none` for anything else. -/
def decimalValue (cs : List Char) : Option Nat :=
  if cs ≠ [] ∧ cs.all isDecimalDigit = true then
    some (cs.foldl (fun acc c => acc * 10 + (c.toNat - 48)) 0)
  else none

/-- The specification's reading of "the input is an integer": the whole text is
a decimal integer numeral, an optional minus sign followed by digits. Text such
as `1.5`, `2abc` or `abc` is not an integer. -/
def specInteger (s : String) : Option Int :=
  match s.data with
  | c :: ds =>
    if c = '-' then
      match decimalValue ds with
      | some n => some (-(n : Int))
      | none => none
    else
      match decimalValue (c :: ds) with
      | some n => some (n : Int)
      | none => none
  | [] => none

/-- The specification's condition for `InvalidPage`: the page is less than 1 or
is not an integer. -/
def specInvalidPage (s : String) : Bool :=
  match specInteger s with
  | some n => decide (n < 1)
  | none => true

/-- The specification's condition for `InvalidLimit`: the limit lies outside
`[1,100]` or is not an integer. -/
def specInvalidLimit (s : String) : Bool :=
  match specInteger s with
  | some n => decide (n < 1 ∨ 100 < n)
  | none => true

/-- Sort Resolver of the specification (section 4.3):
`resolve(sortByRaw, sortOrderRaw, whitelist, default)`. An absent raw value is
`none`. -/
def specResolve (sortByRaw sortOrderRaw : Option String) (whitelist : List String)
    (dflt : String) : String × String :=
  (match sortByRaw with
   | some f => if f ∈ whitelist then f else dflt
   | none => dflt,
   if sortOrderRaw = some "asc" then "asc" else "desc")

/-! ## Vocabulary for stating the filter and sort claims -/

/-- The specification's "present and non-empty" for an optional query
parameter. -/
def present (v : Option String) : Bool :=
  v.isSome && decide (v ≠ some "")

/-- Case-insensitive substring-match clause of the specification's data model
on one field. -/
def containsInsensitive (field : String) (v : Option String) : FieldCondition :=
  { field := field, filter := { contains := v, equals := none, mode := some "insensitive" } }

/-- Substring-match clause on one field with no matching mode given, which
Prisma evaluates in its default mode. -/
def containsDefault (field : String) (v : Option String) : FieldCondition :=
  { field := field, filter := { contains := v, equals := none, mode := none } }

/-- Exact-match clause of the specification's data model on one field. -/
def equalsExact (field : String) (v : Option String) : FieldCondition :=
  { field := field, filter := { contains := none, equals := v, mode := none } }

/-- The query parameter a clause of the job filter stands for, read off its
shape: the disjunction over title, description and requirements is the search
clause, a disjunction over salary only is the salary clause, and a condition on
location, company, type or requirements is the location, company, type or
skills clause. -/
def clauseParam : Condition → Option String
  | .OR alts =>
    if alts.map (fun a => a.field) = ["title", "description", "requirements"] then some "search"
    else if alts ≠ [] ∧ alts.all (fun a => a.field == "salary") = true then some "salary"
    else none
  | .single c =>
    if c.field = "location" then some "location"
    else if c.field = "company" then some "company"
    else if c.field = "type" then some "type"
    else if c.field = "requirements" then some "skills"
    else none

/-- All conditions on a single field that occur in a list of clauses, those
inside disjunctions included. -/
def fieldConditions : List Condition → List FieldCondition
  | [] => []
  | .single c :: rest => c :: fieldConditions rest
  | .OR alts :: rest => alts ++ fieldConditions rest

/-- A clause that constrains the salary field. -/
def mentionsSalary (c : Condition) : Bool :=
  (fieldConditions [c]).any (fun a => a.field == "salary")

/-- The `conditions` array behind a `where` object; `{}` has none. -/
def JobWhere.conditions (w : JobWhere) : List Condition :=
  w.AND.getD []

/-- Request that differs from `req` in one query parameter only. -/
def Req.setQuery (req : Req) (key : String) (v : Option String) : Req :=
  { params := req.params, query := fun k => if k = key then v else req.query k,
    body := req.body }

/-! ## Request bodies, records and the store -/

/-- Truthiness and `typeof` of a JSON body value are what the handlers look at;
`object` stands for any object or array. -/
def BodyVal.truthy : BodyVal → Bool
  | .undefined => false
  | .null => false
  | .bool b => b
  | .num n => n != 0
  | .str s => s != ""
  | .object => true

/-- The built-in `String.prototype.trim`: white space and line terminators are
removed from both ends. -/
def jsTrim (s : String) : String :=
  String.mk ((s.data.dropWhile isStrWhiteSpaceChar).reverse.dropWhile isStrWhiteSpaceChar).reverse

/-- Modelled from the spec: the job record of the persistence layer (the Prisma
schema is not among the sources), with the fields the controller writes and
filters on. -/
structure Job where
  id : Int
  title : String
  company : String
  location : String
  description : String
  requirements : String
  salary : Option String
  type : String
  hrId : Int
  createdAt : Nat
  deriving DecidableEq, Repr

/-- Modelled from the spec: the user record of the persistence layer (the
Prisma schema is not among the sources), with the fields the controller
selects. -/
structure User where
  id : Int
  name : String
  email : String
  phoneNumber : Option String
  deriving DecidableEq, Repr

/-- Modelled from the spec: the application record of the persistence layer
(the Prisma schema is not among the sources), with the fields the controller
writes and filters on. -/
structure Application where
  id : Int
  jobId : Int
  candidateId : Int
  status : String
  response : Option String
  createdAt : Nat
  updatedAt : Nat
  deriving DecidableEq, Repr

/-- Modelled from the spec: the contents of the persistence layer, with the
counters from which it numbers new records. -/
structure Store where
  jobs : List Job
  users : List User
  applications : List Application
  nextJobId : Int
  nextApplicationId : Int
  deriving DecidableEq, Repr

/-- The `data` object of `prisma.job.create` in `createJob`. -/
structure JobData where
  title : String
  company : String
  location : String
  description : String
  requirements : String
  salary : Option String
  type : String
  hrId : Num
  deriving DecidableEq, Repr

/-- The `data` object of `prisma.job.update` in `updateJob`: the body values as
destructured. -/
structure JobUpdate where
  title : BodyVal
  company : BodyVal
  location : BodyVal
  description : BodyVal
  requirements : BodyVal
  salary : BodyVal
  type : BodyVal
  deriving DecidableEq, Repr

/-- The calls that the controller issues against the persistence layer, with
their arguments. -/
inductive Call
  | jobCreate (data : JobData)
  | jobFindMany (w : JobWhere) (sortField sortDirection : String) (skip take : Num)
  | jobCount (w : JobWhere)
  | jobFindUnique (id : Num) (includeHr : Bool)
  | jobUpdate (id : Num) (data : JobUpdate)
  | jobDelete (id : Num)
  | usersFindUnique (id : Num)
  | applicationFindUniquePair (jobId candidateId : Num)
  | applicationFindUnique (id : Num)
  | applicationCreate (jobId candidateId : Num) (status : String)
  | applicationFindMany (w : ApplicationWhere) (sortField sortDirection : String)
      (skip take : Num)
  | applicationCount (w : ApplicationWhere)
  | applicationUpdate (id : Num) (status : BodyVal) (response : BodyVal)
  | applicationDelete (id : Num)
  deriving DecidableEq, Repr

/-- Modelled from the spec: what the persistence layer leaves open. `fault`
says whether a call fails for a reason of the layer's own (connection loss,
constraint of the schema, ...) and with which error message; `matchesFilter` is
its evaluation of a string filter on a field value; `jobLe` and `applicationLe`
are its ascending order of records on a sort field; `cascade` says whether
deleting a job deletes its applications; `now` is the clock; `race` says, of
two calls issued together that both fail, whether the rejection of the first
arrives before that of the second, given the store and the calls issued. -/
structure Env where
  fault : Store → Call → Option String
  race : Store → List Call → Bool
  matchesFilter : StringFilter → Option String → Bool
  jobLe : String → Job → Job → Bool
  applicationLe : String → Application → Application → Bool
  cascade : Bool
  now : Nat

/-- A job with the related user that `include: { hr }` adds. -/
structure JobItem where
  job : Job
  hr : Option User
  deriving DecidableEq, Repr

/-- An application with the related records that `include` adds. -/
structure ApplicationItem where
  application : Application
  job : Option JobItem
  candidate : Option User
  deriving DecidableEq, Repr

/-- The `pagination` object of a listing response. -/
structure Pagination where
  page : Num
  limit : Num
  total : Nat
  pages : Num
  deriving DecidableEq, Repr

/-- The `filters` object that `getJobs` echoes. -/
structure Filters where
  search : Option String
  location : Option String
  company : Option String
  type : Option String
  skills : Option String
  salaryMin : Option String
  salaryMax : Option String
  sortBy : String
  sortOrder : String
  deriving DecidableEq, Repr

/-- JSON body of a response of the controller. -/
inductive Body
  | message (m : String)
  | jobs (jobs : List JobItem) (pagination : Pagination) (filters : Option Filters)
  | applications (applications : List ApplicationItem) (pagination : Pagination)
  | job (j : JobItem)
  | messageJob (m : String) (j : Job)
  | messageApplication (m : String) (a : Application)
  deriving DecidableEq, Repr

/-- Response `res.status(status).json(body)`. -/
structure Reply where
  status : Nat
  body : Body
  deriving DecidableEq, Repr

/-- What one run of a handler does: its response, the store it leaves, and the
calls it issued against the persistence layer, in order. -/
structure Outcome where
  reply : Reply
  store : Store
  calls : List Call
  deriving DecidableEq, Repr

/-! ## The persistence layer -/

/-- Modelled from the spec: the text of a job that a filter on `field` is
evaluated on (the persistence layer is not among the sources). -/
def jobField (j : Job) (field : String) : Option String :=
  if field = "title" then some j.title
  else if field = "description" then some j.description
  else if field = "requirements" then some j.requirements
  else if field = "location" then some j.location
  else if field = "company" then some j.company
  else if field = "type" then some j.type
  else if field = "salary" then j.salary
  else none

/-- Modelled from the spec: whether a job satisfies one clause of a filter
predicate; a disjunction holds when one of its alternatives does. -/
def matchesCondition (env : Env) (j : Job) : Condition → Bool
  | .single c => env.matchesFilter c.filter (jobField j c.field)
  | .OR alts => alts.any (fun c => env.matchesFilter c.filter (jobField j c.field))

/-- Modelled from the spec: whether a job satisfies a `where` object, the
conjunction of its clauses; the empty object matches every job. -/
def matchesJob (env : Env) (w : JobWhere) (j : Job) : Bool :=
  (match w.AND with
   | some cs => cs.all (matchesCondition env j)
   | none => true) &&
  (match w.hrId with
   | some n => n == .int j.hrId
   | none => true)

/-- Modelled from the spec: whether an application satisfies a `where` object
of exact-match clauses. -/
def matchesApplication (w : ApplicationWhere) (a : Application) : Bool :=
  (match w.candidateId with
   | some n => n == .int a.candidateId
   | none => true) &&
  (match w.jobId with
   | some n => n == .int a.jobId
   | none => true) &&
  (match w.status with
   | some s => a.status == s
   | none => true)

/-- Insertion of `x` before the first element that it precedes. -/
def orderedInsert {α : Type} (le : α → α → Bool) (x : α) : List α → List α
  | [] => [x]
  | y :: ys => if le x y then x :: y :: ys else y :: orderedInsert le x ys

/-- Modelled from the spec: the ordered sequence of records that a fetch
returns, here by insertion sort on the order `le`. -/
def sortWith {α : Type} (le : α → α → Bool) (xs : List α) : List α :=
  xs.foldr (orderedInsert le) []

/-- Modelled from the spec: the order for a sort direction; `desc` reverses
the ascending order. -/
def withDirection {α : Type} (le : α → α → Bool) (direction : String) : α → α → Bool :=
  if direction = "asc" then le else fun a b => le b a

/-- Modelled from the spec: the offset-limited part of a fetch, `skip` records
dropped and at most `take` kept; an infinite `skip` passes over every record;
other arguments that are not non-negative integers are rejected. -/
def paginate {α : Type} (skip take : Num) (xs : List α) : Except String (List α) :=
  match skip, take with
  | .int s, .int t =>
    if s < 0 ∨ t < 0 then .error "Invalid value provided"
    else .ok ((xs.drop s.toNat).take t.toNat)
  | .inf true, .int t =>
    if t < 0 then .error "Invalid value provided"
    else .ok []
  | _, _ => .error "Invalid value provided"

/-- The relation `hr` of a job: the user its `hrId` refers to. -/
def includeHr (store : Store) (j : Job) : JobItem :=
  { job := j, hr := store.users.find? (fun u => u.id == j.hrId) }

namespace prisma

/-- Modelled from the spec: `prisma.job.findMany`, the bounded, sorted,
offset-limited fetch of the jobs matching a predicate. -/
def jobFindMany (env : Env) (store : Store) (w : JobWhere) (sortField sortDirection : String)
    (skip take : Num) : Except String (List JobItem) :=
  match env.fault store (.jobFindMany w sortField sortDirection skip take) with
  | some e => .error e
  | none =>
    match paginate skip take
        (sortWith (withDirection (env.jobLe sortField) sortDirection)
          (store.jobs.filter (matchesJob env w))) with
    | .ok js => .ok (js.map (includeHr store))
    | .error e => .error e

/-- Modelled from the spec: `prisma.job.count`, the number of all jobs matching
a predicate, ignoring pagination. -/
def jobCount (env : Env) (store : Store) (w : JobWhere) : Except String Nat :=
  match env.fault store (.jobCount w) with
  | some e => .error e
  | none => .ok (store.jobs.filter (matchesJob env w)).length

/-- Modelled from the spec: `prisma.job.findUnique` by id; `null` (here `none`)
when no job has the id. -/
def jobFindUnique (env : Env) (store : Store) (id : Num) (withHr : Bool) :
    Except String (Option Job) :=
  match env.fault store (.jobFindUnique id withHr) with
  | some e => .error e
  | none =>
    match id with
    | .int n => .ok (store.jobs.find? (fun j => j.id == n))
    | _ => .error "Invalid value provided"

/-- Modelled from the spec: `prisma.job.create`; the new job gets the next id
and the current time. -/
def jobCreate (env : Env) (store : Store) (data : JobData) : Except String (Job × Store) :=
  match env.fault store (.jobCreate data) with
  | some e => .error e
  | none =>
    match data.hrId with
    | .int h =>
      let job : Job :=
        { id := store.nextJobId, title := data.title, company := data.company,
          location := data.location, description := data.description,
          requirements := data.requirements, salary := data.salary, type := data.type,
          hrId := h, createdAt := env.now }
      .ok (job, { store with jobs := store.jobs ++ [job], nextJobId := store.nextJobId + 1 })
    | _ => .error "Invalid value provided"

/-- Modelled from the spec: the new value of a required text field under an
update: `undefined` leaves it, a string replaces it, anything else is
rejected. -/
def setRequired (old : String) : BodyVal → Except String String
  | .undefined => .ok old
  | .str s => .ok s
  | _ => .error "Invalid value provided"

/-- Modelled from the spec: the new value of an optional text field under an
update: `undefined` leaves it, `null` clears it, a string replaces it, anything
else is rejected. -/
def setOptional (old : Option String) : BodyVal → Except String (Option String)
  | .undefined => .ok old
  | .null => .ok none
  | .str s => .ok (some s)
  | _ => .error "Invalid value provided"

/-- Modelled from the spec: the job `j` with the fields of `data` applied. -/
def applyJobUpdate (j : Job) (data : JobUpdate) : Except String Job :=
  match setRequired j.title data.title, setRequired j.company data.company,
    setRequired j.location data.location, setRequired j.description data.description,
    setRequired j.requirements data.requirements, setOptional j.salary data.salary,
    setRequired j.type data.type with
  | .ok title, .ok company, .ok location, .ok description, .ok requirements, .ok salary,
    .ok type =>
    .ok { j with title := title, company := company, location := location,
                 description := description, requirements := requirements,
                 salary := salary, type := type }
  | _, _, _, _, _, _, _ => .error "Invalid value provided"

/-- Modelled from the spec: `prisma.job.update` by id; it fails when no job has
the id. -/
def jobUpdate (env : Env) (store : Store) (id : Num) (data : JobUpdate) :
    Except String (Job × Store) :=
  match env.fault store (.jobUpdate id data) with
  | some e => .error e
  | none =>
    match id with
    | .int n =>
      match store.jobs.find? (fun j => j.id == n) with
      | none => .error "Record to update not found."
      | some j =>
        match applyJobUpdate j data with
        | .ok j2 =>
          .ok (j2, { store with jobs := store.jobs.map (fun x => if x.id == n then j2 else x) })
        | .error e => .error e
    | _ => .error "Invalid value provided"

/-- Modelled from the spec: `prisma.job.delete` by id; it fails when no job has
the id; with `cascade` the applications for the job go with it. -/
def jobDelete (env : Env) (store : Store) (id : Num) : Except String Store :=
  match env.fault store (.jobDelete id) with
  | some e => .error e
  | none =>
    match id with
    | .int n =>
      match store.jobs.find? (fun j => j.id == n) with
      | none => .error "Record to delete does not exist."
      | some _ =>
        .ok { store with
              jobs := store.jobs.filter (fun j => j.id != n),
              applications :=
                if env.cascade then store.applications.filter (fun a => a.jobId != n)
                else store.applications }
    | _ => .error "Invalid value provided"

/-- Modelled from the spec: `prisma.users.findUnique` by id. -/
def usersFindUnique (env : Env) (store : Store) (id : Num) : Except String (Option User) :=
  match env.fault store (.usersFindUnique id) with
  | some e => .error e
  | none =>
    match id with
    | .int n => .ok (store.users.find? (fun u => u.id == n))
    | _ => .error "Invalid value provided"

/-- Modelled from the spec: `prisma.application.findUnique` by the unique pair
`jobId_candidateId`. -/
def applicationFindUniquePair (env : Env) (store : Store) (jobId candidateId : Num) :
    Except String (Option Application) :=
  match env.fault store (.applicationFindUniquePair jobId candidateId) with
  | some e => .error e
  | none =>
    match jobId, candidateId with
    | .int j, .int c =>
      .ok (store.applications.find? (fun a => a.jobId == j && a.candidateId == c))
    | _, _ => .error "Invalid value provided"

/-- Modelled from the spec: `prisma.application.findUnique` by id. -/
def applicationFindUnique (env : Env) (store : Store) (id : Num) :
    Except String (Option Application) :=
  match env.fault store (.applicationFindUnique id) with
  | some e => .error e
  | none =>
    match id with
    | .int n => .ok (store.applications.find? (fun a => a.id == n))
    | _ => .error "Invalid value provided"

/-- Modelled from the spec: `prisma.application.create`; the uniqueness
constraint on the pair (jobId, candidateId) rejects a second application for
the same pair; the new application gets the next id and the current time. -/
def applicationCreate (env : Env) (store : Store) (jobId candidateId : Num) (status : String) :
    Except String (Application × Store) :=
  match env.fault store (.applicationCreate jobId candidateId status) with
  | some e => .error e
  | none =>
    match jobId, candidateId with
    | .int j, .int c =>
      if store.applications.any (fun a => a.jobId == j && a.candidateId == c) then
        .error "Unique constraint failed on the fields: (jobId,candidateId)"
      else
        let application : Application :=
          { id := store.nextApplicationId, jobId := j, candidateId := c, status := status,
            response := none, createdAt := env.now, updatedAt := env.now }
        .ok (application,
             { store with applications := store.applications ++ [application],
                          nextApplicationId := store.nextApplicationId + 1 })
    | _, _ => .error "Invalid value provided"

/-- The relations of an application that `include` adds. -/
def includeRelations (store : Store) (withHr withCandidate : Bool) (a : Application) :
    ApplicationItem :=
  { application := a,
    job := (store.jobs.find? (fun j => j.id == a.jobId)).map
      (fun j => if withHr then includeHr store j else { job := j, hr := none }),
    candidate :=
      if withCandidate then store.users.find? (fun u => u.id == a.candidateId) else none }

/-- Modelled from the spec: `prisma.application.findMany`, the bounded, sorted,
offset-limited fetch of the applications matching a predicate. -/
def applicationFindMany (env : Env) (store : Store) (w : ApplicationWhere)
    (sortField sortDirection : String) (skip take : Num) (withHr withCandidate : Bool) :
    Except String (List ApplicationItem) :=
  match env.fault store (.applicationFindMany w sortField sortDirection skip take) with
  | some e => .error e
  | none =>
    match paginate skip take
        (sortWith (withDirection (env.applicationLe sortField) sortDirection)
          (store.applications.filter (matchesApplication w))) with
    | .ok xs => .ok (xs.map (includeRelations store withHr withCandidate))
    | .error e => .error e

/-- Modelled from the spec: `prisma.application.count`, the number of all
applications matching a predicate, ignoring pagination. -/
def applicationCount (env : Env) (store : Store) (w : ApplicationWhere) : Except String Nat :=
  match env.fault store (.applicationCount w) with
  | some e => .error e
  | none => .ok (store.applications.filter (matchesApplication w)).length

/-- Modelled from the spec: `prisma.application.update` by id with the data
`{ status, response, updatedAt }`; it fails when no application has the id or
when a value is not of the field's type. -/
def applicationUpdate (env : Env) (store : Store) (id : Num) (status response : BodyVal) :
    Except String (Application × Store) :=
  match env.fault store (.applicationUpdate id status response) with
  | some e => .error e
  | none =>
    match id, status, setOptional none response with
    | .int n, .str st, .ok resp =>
      match store.applications.find? (fun a => a.id == n) with
      | none => .error "Record to update not found."
      | some a =>
        let a2 : Application := { a with status := st, response := resp, updatedAt := env.now }
        .ok (a2, { store with
                   applications := store.applications.map (fun x => if x.id == n then a2 else x) })
    | _, _, _ => .error "Invalid value provided"

/-- Modelled from the spec: `prisma.application.delete` by id; it fails when no
application has the id. -/
def applicationDelete (env : Env) (store : Store) (id : Num) : Except String Store :=
  match env.fault store (.applicationDelete id) with
  | some e => .error e
  | none =>
    match id with
    | .int n =>
      match store.applications.find? (fun a => a.id == n) with
      | none => .error "Record to delete does not exist."
      | some _ =>
        .ok { store with applications := store.applications.filter (fun a => a.id != n) }
    | _ => .error "Invalid value provided"

end prisma

/-! ## The database client -/

/-- The database client `prisma` during one run of a handler: the store, and the
calls issued so far, in order. -/
structure Db where
  store : Store
  calls : List Call
  deriving DecidableEq, Repr

/-- A call that reads: it is recorded, and the store stays as it is. -/
def Db.read {α : Type} (db : Db) (call : Call) (result : Except String α) :
    Except String α × Db :=
  (result, { db with calls := db.calls ++ [call] })

/-- A call that writes and returns a record: it is recorded, and when it
succeeds the store is the new one. -/
def Db.write {α : Type} (db : Db) (call : Call) (result : Except String (α × Store)) :
    Except String α × Db :=
  match result with
  | .ok (a, store2) => (.ok a, { store := store2, calls := db.calls ++ [call] })
  | .error e => (.error e, { db with calls := db.calls ++ [call] })

/-- A call that removes a record: it is recorded, and when it succeeds the store
is the new one. -/
def Db.remove (db : Db) (call : Call) (result : Except String Store) :
    Except String Unit × Db :=
  match result with
  | .ok store2 => (.ok (), { store := store2, calls := db.calls ++ [call] })
  | .error e => (.error e, { db with calls := db.calls ++ [call] })

namespace prisma.job

/-- The call `prisma.job.findMany({ where, include, orderBy, skip, take })`. -/
def findMany (env : Env) (db : Db) (w : JobWhere) (sortField sortDirection : String)
    (skip take : Num) : Except String (List JobItem) × Db :=
  db.read (.jobFindMany w sortField sortDirection skip take)
    (prisma.jobFindMany env db.store w sortField sortDirection skip take)

/-- The call `prisma.job.count({ where })`. -/
def count (env : Env) (db : Db) (w : JobWhere) : Except String Nat × Db :=
  db.read (.jobCount w) (prisma.jobCount env db.store w)

/-- The call `prisma.job.findUnique({ where: { id } })`, with or without
`include: { hr }`. -/
def findUnique (env : Env) (db : Db) (id : Num) (withHr : Bool) :
    Except String (Option Job) × Db :=
  db.read (.jobFindUnique id withHr) (prisma.jobFindUnique env db.store id withHr)

/-- The call `prisma.job.create({ data })`. -/
def create (env : Env) (db : Db) (data : JobData) : Except String Job × Db :=
  db.write (.jobCreate data) (prisma.jobCreate env db.store data)

/-- The call `prisma.job.update({ where: { id }, data })`. -/
def update (env : Env) (db : Db) (id : Num) (data : JobUpdate) : Except String Job × Db :=
  db.write (.jobUpdate id data) (prisma.jobUpdate env db.store id data)

/-- The call `prisma.job.delete({ where: { id } })`. -/
def delete (env : Env) (db : Db) (id : Num) : Except String Unit × Db :=
  db.remove (.jobDelete id) (prisma.jobDelete env db.store id)

end prisma.job

namespace prisma.users

/-- The call `prisma.users.findUnique({ where: { id } })`. -/
def findUnique (env : Env) (db : Db) (id : Num) : Except String (Option User) × Db :=
  db.read (.usersFindUnique id) (prisma.usersFindUnique env db.store id)

end prisma.users

namespace prisma.application

/-- The call `prisma.application.findUnique({ where: { jobId_candidateId } })`. -/
def findUniquePair (env : Env) (db : Db) (jobId candidateId : Num) :
    Except String (Option Application) × Db :=
  db.read (.applicationFindUniquePair jobId candidateId)
    (prisma.applicationFindUniquePair env db.store jobId candidateId)

/-- The call `prisma.application.findUnique({ where: { id } })`. -/
def findUnique (env : Env) (db : Db) (id : Num) : Except String (Option Application) × Db :=
  db.read (.applicationFindUnique id) (prisma.applicationFindUnique env db.store id)

/-- The call `prisma.application.create({ data })`. -/
def create (env : Env) (db : Db) (jobId candidateId : Num) (status : String) :
    Except String Application × Db :=
  db.write (.applicationCreate jobId candidateId status)
    (prisma.applicationCreate env db.store jobId candidateId status)

/-- The call `prisma.application.findMany({ where, include, orderBy, skip, take })`. -/
def findMany (env : Env) (db : Db) (w : ApplicationWhere) (sortField sortDirection : String)
    (skip take : Num) (withHr withCandidate : Bool) : Except String (List ApplicationItem) × Db :=
  db.read (.applicationFindMany w sortField sortDirection skip take)
    (prisma.applicationFindMany env db.store w sortField sortDirection skip take withHr
      withCandidate)

/-- The call `prisma.application.count({ where })`. -/
def count (env : Env) (db : Db) (w : ApplicationWhere) : Except String Nat × Db :=
  db.read (.applicationCount w) (prisma.applicationCount env db.store w)

/-- The call `prisma.application.update({ where: { id }, data })`. -/
def update (env : Env) (db : Db) (id : Num) (status response : BodyVal) :
    Except String Application × Db :=
  db.write (.applicationUpdate id status response)
    (prisma.applicationUpdate env db.store id status response)

/-- The call `prisma.application.delete({ where: { id } })`. -/
def delete (env : Env) (db : Db) (id : Num) : Except String Unit × Db :=
  db.remove (.applicationDelete id) (prisma.applicationDelete env db.store id)

end prisma.application

/-- The expression `await Promise.all([a, b])`: the two calls are issued in
order; when both fulfil, the value is the pair of their results; otherwise the
`await` throws the rejection that arrives first, which is the only one when one
call fails and the one that `env.race` names when both fail. -/
def promiseAll {α β : Type} (env : Env) (db : Db) (a : Db → Except String α × Db)
    (b : Db → Except String β × Db) : Except String (α × β) × Db :=
  let ra := a db
  let rb := b ra.2
  (match ra.1, rb.1 with
   | .ok x, .ok y => .ok (x, y)
   | .error e, .ok _ => .error e
   | .ok _, .error e => .error e
   | .error e1, .error e2 => .error (if env.race rb.2.store rb.2.calls then e1 else e2),
   rb.2)

/-! ## The handlers of `jobController.js` -/

/-- The expression `Math.ceil(a / b)` on `NaN` and integers, with the exact
quotient: the ceiling of `a / b` is minus the floor of `-a / b`; a zero divisor,
which gives an infinity or `NaN` in JavaScript, is `NaN` here. -/
def Num.ceilDiv : Num → Num → Num
  | .int a, .int b => if b = 0 then .NaN else .int (-(Int.fdiv (-a) b))
  | _, _ => .NaN

/-- The expression `v || null`. -/
def orNull (v : BodyVal) : BodyVal :=
  if v.truthy then v else .null

/-- The expression `typeof v === 'string' ? v.trim() : ''`. -/
def trimOrEmpty : BodyVal → String
  | .str s => jsTrim s
  | _ => ""

/-- The object `sanitizedData` of `createJob`. -/
structure SanitizedData where
  title : String
  company : String
  location : String
  description : String
  requirements : String
  salary : Option String
  type : String
  deriving DecidableEq, Repr

/-- The outcome of a run that ends with `res.status(status).json(body)`, the
store and the issued calls given. -/
def respond (status : Nat) (body : Body) (store : Store) (calls : List Call) : Outcome :=
  { reply := { status := status, body := body }, store := store, calls := calls }

/-- The client at the start of a handler: no call issued yet. -/
def Db.start (store : Store) : Db :=
  { store := store, calls := [] }

/-- A handler's `return res.status(status).json(body)` at the state `db` of the
client. -/
def Db.send (db : Db) (status : Nat) (body : Body) : Outcome :=
  respond status body db.store db.calls

/-- Handler `createJob`, lines 17-59. -/
def createJob (env : Env) (store : Store) (req : Req) : Outcome :=
  let db := Db.start store
  let title := req.body "title"
  let company := req.body "company"
  let location := req.body "location"
  let description := req.body "description"
  let requirements := req.body "requirements"
  let salary := req.body "salary"
  let type := req.body "type"
  let hrId := req.params "hrId"
  if !title.truthy || !company.truthy || !location.truthy || !description.truthy ||
      !requirements.truthy then
    db.send 400 (.message "All required fields must be filled")
  else
    let sanitizedData : SanitizedData :=
      { title := trimOrEmpty title,
        company := trimOrEmpty company,
        location := trimOrEmpty location,
        description := trimOrEmpty description,
        requirements := trimOrEmpty requirements,
        salary := match salary with
          | .str s => if salary.truthy then some (jsTrim s) else none
          | _ => none,
        type := match type with
          | .str s => if type.truthy then jsTrim s else "full-time"
          | _ => "full-time" }
    let hrIdNum := parseInt (ofParam hrId)
    if !Num.isInteger hrIdNum || Num.lt hrIdNum (.int 1) then
      db.send 400 (.message "Invalid HR ID")
    else
      let created := prisma.job.create env db
        { title := sanitizedData.title,
          company := sanitizedData.company,
          location := sanitizedData.location,
          description := sanitizedData.description,
          requirements := sanitizedData.requirements,
          salary := sanitizedData.salary,
          type := sanitizedData.type,
          hrId := hrIdNum }
      match created.1 with
      | .ok job => created.2.send 201 (.messageJob "Job created successfully" job)
      | .error e => created.2.send 500 (.message ("Server Error: " ++ e))

/-- Handler `getJobs`, lines 61-158; the part before the `try` block is
`getJobsQuery`. -/
def getJobs (env : Env) (store : Store) (req : Req) : Outcome :=
  let db := Db.start store
  match getJobsQuery req with
  | .error r => db.send r.status (.message r.message)
  | .ok l =>
    let reads := promiseAll env db
      (fun db => prisma.job.findMany env db l.whereClause l.sortField l.sortDirection l.skip
        l.limitNum)
      (fun db => prisma.job.count env db l.whereClause)
    match reads.1 with
    | .ok (jobs, total) =>
      reads.2.send 200
        (.jobs jobs
          { page := l.pageNum, limit := l.limitNum, total := total,
            pages := Num.ceilDiv (.int total) l.limitNum }
          (some { search := req.query "search", location := req.query "location",
                  company := req.query "company", type := req.query "type",
                  skills := req.query "skills", salaryMin := req.query "salaryMin",
                  salaryMax := req.query "salaryMax", sortBy := l.sortField,
                  sortOrder := l.sortDirection }))
    | .error _ => reads.2.send 500 (.message "Server Error")

/-- Handler `getJobById`, lines 160-183. -/
def getJobById (env : Env) (store : Store) (req : Req) : Outcome :=
  let db := Db.start store
  let id := req.params "id"
  let jobId := parseInt (ofParam id)
  if !Num.isInteger jobId || Num.lt jobId (.int 1) then
    db.send 400 (.message "Invalid job ID")
  else
    let found := prisma.job.findUnique env db jobId true
    match found.1 with
    | .ok none => found.2.send 404 (.message "Job not found")
    | .ok (some job) => found.2.send 200 (.job (includeHr found.2.store job))
    | .error _ => found.2.send 500 (.message "Server Error")

/-- Handler `updateJob`, lines 185-204. -/
def updateJob (env : Env) (store : Store) (req : Req) : Outcome :=
  let db := Db.start store
  let id := req.params "id"
  let data : JobUpdate :=
    { title := req.body "title", company := req.body "company",
      location := req.body "location", description := req.body "description",
      requirements := req.body "requirements", salary := req.body "salary",
      type := req.body "type" }
  let jobId := parseInt (ofParam id)
  if !Num.isInteger jobId || Num.lt jobId (.int 1) then
    db.send 400 (.message "Invalid job ID")
  else
    let updated := prisma.job.update env db jobId data
    match updated.1 with
    | .ok job => updated.2.send 200 (.messageJob "Job updated successfully" job)
    | .error _ => updated.2.send 500 (.message "Server Error")

/-- Handler `deleteJob`, lines 206-226. -/
def deleteJob (env : Env) (store : Store) (req : Req) : Outcome :=
  let db := Db.start store
  let id := req.params "id"
  let jobId := parseInt (ofParam id)
  if !Num.isInteger jobId || Num.lt jobId (.int 1) then
    db.send 400 (.message "Invalid job ID")
  else
    let found := prisma.job.findUnique env db jobId false
    match found.1 with
    | .error _ => found.2.send 500 (.message "Server Error")
    | .ok none => found.2.send 404 (.message "Job not found")
    | .ok (some _) =>
      let deleted := prisma.job.delete env found.2 jobId
      match deleted.1 with
      | .ok _ => deleted.2.send 200 (.message "Job deleted successfully")
      | .error _ => deleted.2.send 500 (.message "Server Error")

/-- Handler `applyForJob`, lines 228-273. -/
def applyForJob (env : Env) (store : Store) (req : Req) : Outcome :=
  let db := Db.start store
  let jobId := req.params "jobId"
  let candidateId := req.params "candidateId"
  let jobIdNum := parseInt (ofParam jobId)
  let candidateIdNum := parseInt (ofParam candidateId)
  if !Num.isInteger jobIdNum || Num.lt jobIdNum (.int 1) then
    db.send 400 (.message "Invalid job ID")
  else if !Num.isInteger candidateIdNum || Num.lt candidateIdNum (.int 1) then
    db.send 400 (.message "Invalid candidate ID")
  else
    let found := promiseAll env db
      (fun db => prisma.job.findUnique env db jobIdNum false)
      (fun db => prisma.users.findUnique env db candidateIdNum)
    match found.1 with
    | .error e => found.2.send 500 (.message ("Server Error: " ++ e))
    | .ok (none, _) => found.2.send 404 (.message "Job not found")
    | .ok (some _, none) => found.2.send 404 (.message "Candidate not found")
    | .ok (some _, some _) =>
      let existing := prisma.application.findUniquePair env found.2 jobIdNum candidateIdNum
      match existing.1 with
      | .error e => existing.2.send 500 (.message ("Server Error: " ++ e))
      | .ok (some _) => existing.2.send 400 (.message "Already applied for this job")
      | .ok none =>
        let created := prisma.application.create env existing.2 jobIdNum candidateIdNum "pending"
        match created.1 with
        | .ok application =>
          created.2.send 201
            (.messageApplication "Application submitted successfully" application)
        | .error e => created.2.send 500 (.message ("Server Error: " ++ e))

/-- Handler `getApplications`, lines 275-326; the part before the `try` block
is `getApplicationsQuery`. -/
def getApplications (env : Env) (store : Store) (req : Req) : Outcome :=
  let db := Db.start store
  match getApplicationsQuery req with
  | .error r => db.send r.status (.message r.message)
  | .ok l =>
    let reads := promiseAll env db
      (fun db => prisma.application.findMany env db l.whereClause l.sortField l.sortDirection
        l.skip l.limitNum true false)
      (fun db => prisma.application.count env db l.whereClause)
    match reads.1 with
    | .ok (applications, total) =>
      reads.2.send 200
        (.applications applications
          { page := l.pageNum, limit := l.limitNum, total := total,
            pages := Num.ceilDiv (.int total) l.limitNum })
    | .error _ => reads.2.send 500 (.message "Server Error")

/-- Handler `getJobsByHR`, lines 328-378; the part before the `try` block is
`getJobsByHRQuery`. -/
def getJobsByHR (env : Env) (store : Store) (req : Req) : Outcome :=
  let db := Db.start store
  match getJobsByHRQuery req with
  | .error r => db.send r.status (.message r.message)
  | .ok l =>
    let reads := promiseAll env db
      (fun db => prisma.job.findMany env db l.whereClause l.sortField l.sortDirection l.skip
        l.limitNum)
      (fun db => prisma.job.count env db l.whereClause)
    match reads.1 with
    | .ok (jobs, total) =>
      reads.2.send 200
        (.jobs jobs
          { page := l.pageNum, limit := l.limitNum, total := total,
            pages := Num.ceilDiv (.int total) l.limitNum }
          none)
    | .error e => reads.2.send 500 (.message ("Database connection error: " ++ e))

/-- Handler `getApplicationsByJob`, lines 380-434; the part before the `try`
block is `getApplicationsByJobQuery`. -/
def getApplicationsByJob (env : Env) (store : Store) (req : Req) : Outcome :=
  let db := Db.start store
  match getApplicationsByJobQuery req with
  | .error r => db.send r.status (.message r.message)
  | .ok l =>
    let reads := promiseAll env db
      (fun db => prisma.application.findMany env db l.whereClause l.sortField l.sortDirection
        l.skip l.limitNum false true)
      (fun db => prisma.application.count env db l.whereClause)
    match reads.1 with
    | .ok (applications, total) =>
      reads.2.send 200
        (.applications applications
          { page := l.pageNum, limit := l.limitNum, total := total,
            pages := Num.ceilDiv (.int total) l.limitNum })
    | .error _ => reads.2.send 500 (.message "Server Error")

/-- The test `['pending', 'accepted', 'rejected'].includes(status)` on a body
value. -/
def statusIncluded : BodyVal → Bool
  | .str s => ["pending", "accepted", "rejected"].contains s
  | _ => false

/-- Handler `updateApplicationStatus`, lines 436-460. -/
def updateApplicationStatus (env : Env) (store : Store) (req : Req) : Outcome :=
  let db := Db.start store
  let applicationId := req.params "applicationId"
  let status := req.body "status"
  let response := req.body "response"
  let appId := parseInt (ofParam applicationId)
  if !Num.isInteger appId || Num.lt appId (.int 1) then
    db.send 400 (.message "Invalid application ID")
  else if !statusIncluded status then
    db.send 400 (.message "Invalid status")
  else
    let updated := prisma.application.update env db appId status (orNull response)
    match updated.1 with
    | .ok application =>
      updated.2.send 200
        (.messageApplication "Application status updated successfully" application)
    | .error e => updated.2.send 500 (.message ("Server Error: " ++ e))

/-- Handler `deleteApplication`, lines 462-497. -/
def deleteApplication (env : Env) (store : Store) (req : Req) : Outcome :=
  let db := Db.start store
  let applicationId := req.params "applicationId"
  let candidateId := req.params "candidateId"
  let applicationIdNum := parseInt (ofParam applicationId)
  let candidateIdNum := parseInt (ofParam candidateId)
  if !Num.isInteger applicationIdNum || Num.lt applicationIdNum (.int 1) then
    db.send 400 (.message "Invalid application ID")
  else if !Num.isInteger candidateIdNum || Num.lt candidateIdNum (.int 1) then
    db.send 400 (.message "Invalid candidate ID")
  else
    let found := prisma.application.findUnique env db applicationIdNum
    match found.1 with
    | .error _ => found.2.send 500 (.message "Server Error")
    | .ok none => found.2.send 404 (.message "Application not found")
    | .ok (some application) =>
      if Num.int application.candidateId != candidateIdNum then
        found.2.send 403 (.message "Unauthorized to delete this application")
      else
        let deleted := prisma.application.delete env found.2 applicationIdNum
        match deleted.1 with
        | .ok _ => deleted.2.send 200 (.message "Application deleted successfully")
        | .error _ => deleted.2.send 500 (.message "Server Error")

/-! ## Concrete environments and requests for evaluation -/

/-- Whether the characters `p` start the characters `s`. -/
def startsWith : List Char → List Char → Bool
  | [], _ => true
  | _ :: _, [] => false
  | a :: p, b :: s => a == b && startsWith p s

/-- Whether the characters `p` occur consecutively in `s`. -/
def hasInfix (p : List Char) : List Char → Bool
  | [] => p.isEmpty
  | c :: s => startsWith p (c :: s) || hasInfix p s

/-- Modelled from the spec: evaluation of a string filter: `contains` is a
substring match, case-insensitive in the insensitive mode, `equals` is
case-sensitive equality; a `null` field value matches no filter. -/
def referenceMatches (f : StringFilter) (value : Option String) : Bool :=
  match value with
  | none => false
  | some v =>
    (match f.contains with
     | some p =>
       if f.mode = some "insensitive" then
         hasInfix (p.data.map Char.toLower) (v.data.map Char.toLower)
       else hasInfix p.data v.data
     | none => true) &&
    (match f.equals with
     | some e => v == e
     | none => true)

/-- Modelled from the spec: a persistence layer that never fails of its own,
evaluates filters by `referenceMatches`, orders records by id, cascades the
deletion of a job, and whose clock reads 0. -/
def Env.reference : Env :=
  { fault := fun _ _ => none,
    race := fun _ _ => true,
    matchesFilter := referenceMatches,
    jobLe := fun _ a b => decide (a.id ≤ b.id),
    applicationLe := fun _ a b => decide (a.id ≤ b.id),
    cascade := true,
    now := 0 }

/-- The environment `env` with a persistence layer in which every call fails
with the error message `e`. -/
def Env.failing (env : Env) (e : String) : Env :=
  { env with fault := fun _ _ => some e }

/-- The store with no records. -/
def Store.empty : Store :=
  { jobs := [], users := [], applications := [], nextJobId := 1, nextApplicationId := 1 }

/-- A small store: two jobs posted by user 7, the candidate 9, and one accepted
application of candidate 9 for job 2. -/
def Store.sample : Store :=
  { jobs :=
      [{ id := 1, title := "Engineer", company := "Acme", location := "Pune",
         description := "Builds things", requirements := "lean", salary := some "50k",
         type := "full-time", hrId := 7, createdAt := 1 },
       { id := 2, title := "Designer", company := "Acme", location := "Delhi",
         description := "Draws things", requirements := "figma", salary := none,
         type := "part-time", hrId := 7, createdAt := 2 }],
    users :=
      [{ id := 7, name := "Hari", email := "hari@acme.test", phoneNumber := none },
       { id := 9, name := "Cara", email := "cara@mail.test", phoneNumber := some "555" }],
    applications :=
      [{ id := 1, jobId := 2, candidateId := 9, status := "accepted", response := none,
         createdAt := 3, updatedAt := 4 }],
    nextJobId := 3,
    nextApplicationId := 2 }

/-- Request with the given path parameters, query string and body. -/
def Req.ofParts (params query : List (String × String)) (body : List (String × BodyVal)) :
    Req :=
  { params := fun k => params.lookup k, query := fun k => query.lookup k,
    body := fun k => (body.lookup k).getD .undefined }

/-! ## Vocabulary for stating the handler claims -/

/-- The specification's "parses as a positive integer" for a path-bound
identifier. -/
def parsesPositive (v : Option String) : Bool :=
  match parseInt (ofParam v) with
  | .int c => decide (1 ≤ c)
  | _ => false

/-- A response that is a JSON object with only a `message` string, under the
given HTTP status. -/
def Outcome.isMessage (o : Outcome) (status : Nat) : Prop :=
  o.reply.status = status ∧ ∃ m, o.reply.body = .message m

/-- The ids of the jobs that a listing response carries, in order. -/
def Reply.jobIds (r : Reply) : List Int :=
  match r.body with
  | .jobs jobs _ _ => jobs.map (fun j => j.job.id)
  | _ => []

/-- A run that issued no call against the persistence layer and left the store
as it was. -/
def Outcome.untouched (o : Outcome) (store : Store) : Prop :=
  o.calls = [] ∧ o.store = store

/-- The specification's page count for `total` records under the validated
limit: `pages` is `ceil(total / limit)`, the least integer `p` with
`p * limit >= total`, which is 0 when `total = 0`. -/
def IsPageCount (total : Nat) (limit pages : Num) : Prop :=
  ∃ L p : Int, limit = .int L ∧ pages = .int p ∧ 1 ≤ L ∧ L ≤ 100 ∧
    p = ⌈((total : Int) : ℚ) / (L : ℚ)⌉ ∧
    (total : Int) ≤ p * L ∧ (∀ q : Int, (total : Int) ≤ q * L → p ≤ q) ∧
    (total = 0 → p = 0)

/-- The status invariant: every application in the store has a status among
pending, accepted, rejected. -/
def ValidStatuses (store : Store) : Prop :=
  ∀ a ∈ store.applications, a.status ∈ ["pending", "accepted", "rejected"]

/-- No two applications in the store are for the same (jobId, candidateId)
pair. -/
def UniquePairs (store : Store) : Prop :=
  (store.applications.map (fun a => (a.jobId, a.candidateId))).Nodup

/-! ## Rounding to a double: auxiliary facts -/

theorem excessBits_small (fuel n : Nat) (h : n < 9007199254740992) :
    excessBits fuel n = 0 := by
  cases fuel with
  | zero => rfl
  | succ f => simp [excessBits, h]

theorem pow2_eq (e : Nat) : pow2 e = 2 ^ e := by
  induction e with
  | zero => rfl
  | succ k ih => rw [pow2, ih, pow_succ, Nat.mul_comm]

theorem roundNat_small (n : Nat) (h : n < 9007199254740992) : roundNat n = n := by
  simp [roundNat, pow2_eq, excessBits_small n n h, Nat.mod_one]

theorem excessBits_quotient (fuel n : Nat) (hf : n ≤ fuel) (h : 9007199254740992 ≤ n) :
    4503599627370496 ≤ n / 2 ^ excessBits fuel n := by
  induction fuel generalizing n with
  | zero => omega
  | succ f ih =>
    have hlt : ¬ n < 9007199254740992 := by omega
    simp only [excessBits, hlt, if_false]
    have hdiv : n / 2 ^ (excessBits f (n / 2) + 1) = n / 2 / 2 ^ excessBits f (n / 2) := by
      rw [pow_succ, Nat.mul_comm, Nat.div_div_eq_div_mul]
    rw [hdiv]
    by_cases h2 : 9007199254740992 ≤ n / 2
    · exact ih (n / 2) (by omega) h2
    · rw [excessBits_small f (n / 2) (by omega)]
      simp only [pow_zero, Nat.div_one]
      omega

theorem roundNat_large (n : Nat) (h : 9007199254740992 ≤ n) :
    4503599627370496 ≤ roundNat n := by
  have hq := excessBits_quotient n n (le_refl n) h
  have hpow : 1 ≤ 2 ^ excessBits n n := Nat.one_le_two_pow
  simp only [roundNat, pow2_eq]
  have hq2 : n / 2 ^ excessBits n n ≤
      (if n % 2 ^ excessBits n n < 2 ^ (excessBits n n - 1) then n / 2 ^ excessBits n n
        else if 2 ^ (excessBits n n - 1) < n % 2 ^ excessBits n n then
          n / 2 ^ excessBits n n + 1
        else if n / 2 ^ excessBits n n % 2 = 0 then n / 2 ^ excessBits n n
        else n / 2 ^ excessBits n n + 1) := by
    split
    · exact le_refl _
    · split
      · omega
      · split <;> omega
  calc 4503599627370496 ≤ n / 2 ^ excessBits n n := hq
    _ ≤ _ := hq2
    _ = _ * 1 := (Nat.mul_one _).symm
    _ ≤ _ := Nat.mul_le_mul_left _ hpow

theorem doubleLimit_large : 9007199254740992 < doubleLimit := by
  decide

theorem ofInt_small (n : Int) (h : n.natAbs < 9007199254740992) : Num.ofInt n = .int n := by
  have hlim : ¬ doubleLimit ≤ n.natAbs := by
    have := doubleLimit_large
    omega
  simp only [Num.ofInt, roundNat_small _ h, hlim, if_false, Int.sign_mul_natAbs]

theorem ofInt_nonneg (n : Int) (h : 0 ≤ n) :
    (∃ m : Int, Num.ofInt n = .int m ∧ 0 ≤ m) ∨ Num.ofInt n = .inf true := by
  by_cases hz : n = 0
  · subst hz
    left
    exact ⟨0, by decide, le_refl 0⟩
  · have hpos : 0 < n := by omega
    unfold Num.ofInt
    simp only []
    split
    · right
      simp [hpos]
    · left
      refine ⟨_, rfl, ?_⟩
      rw [Int.sign_eq_one_of_pos hpos, one_mul]
      exact Int.ofNat_nonneg _

theorem ofInt_nonpos (n : Int) (h : n ≤ 0) :
    (∃ m : Int, Num.ofInt n = .int m ∧ m ≤ 0) ∨ Num.ofInt n = .inf false := by
  by_cases hz : n = 0
  · subst hz
    left
    exact ⟨0, by decide, le_refl 0⟩
  · have hneg : n < 0 := by omega
    have hpos : ¬ 0 < n := by omega
    unfold Num.ofInt
    simp only []
    split
    · right
      simp [hpos]
    · left
      refine ⟨_, rfl, ?_⟩
      rw [Int.sign_eq_neg_one_of_neg hneg]
      have := Int.ofNat_nonneg (roundNat n.natAbs)
      omega

theorem ofInt_large (n : Int) (h : 9007199254740992 ≤ n) :
    (∃ m : Int, Num.ofInt n = .int m ∧ 4503599627370496 ≤ m) ∨ Num.ofInt n = .inf true := by
  unfold Num.ofInt
  simp only []
  have hpos : 0 < n := by omega
  split
  · right
    simp [hpos]
  · left
    refine ⟨_, rfl, ?_⟩
    have hr := roundNat_large n.natAbs (by omega)
    rw [Int.sign_eq_one_of_pos hpos, one_mul]
    exact_mod_cast hr

set_option maxRecDepth 100000 in
theorem parseInt_beyond_doubles :
    parseInt (.str "9007199254740993") = .int 9007199254740992 ∧
    parseInt (.str "-9007199254740995") = .int (-9007199254740996) ∧
    parseInt (.str (String.mk (List.replicate 401 '9'))) = .inf true ∧
    Num.isInteger (parseInt (.str (String.mk (List.replicate 401 '9')))) = false ∧
    validatePagination (.str (String.mk (List.replicate 401 '9'))) (.str "10") =
      .error "Invalid page number" := by
  decide

/-! ## Pagination validator: auxiliary facts -/

theorem utils_validatePagination_eq (page limit : JSVal) :
    Utils.validatePagination page limit = validatePagination page limit := rfl

theorem pageCheck_false_iff (n : Num) :
    (!Num.isInteger n || Num.lt n (.int 1)) = false ↔ ∃ c : Int, n = .int c ∧ 1 ≤ c := by
  cases n with
  | NaN => simp [Num.isInteger]
  | int c => simp [Num.isInteger, Num.lt]
  | inf s => simp [Num.isInteger]

theorem limitCheck_false_iff (n : Num) :
    (!Num.isInteger n || Num.lt n (.int 1) || Num.gt n (.int 100)) = false ↔
      ∃ c : Int, n = .int c ∧ 1 ≤ c ∧ c ≤ 100 := by
  cases n with
  | NaN => simp [Num.isInteger]
  | int c => simp [Num.isInteger, Num.lt, Num.gt]
  | inf s => simp [Num.isInteger]

theorem validatePagination_ok_iff (page limit : JSVal) (pn ln sk : Num) :
    validatePagination page limit = .ok pn ln sk ↔
      ∃ p l : Int, parseInt page = .int p ∧ parseInt limit = .int l ∧
        1 ≤ p ∧ 1 ≤ l ∧ l ≤ 100 ∧ pn = .int p ∧ ln = .int l ∧
        sk = Num.mul (Num.sub (.int p) (.int 1)) (.int l) := by
  unfold validatePagination
  simp only []
  by_cases hp : (!Num.isInteger (parseInt page) || Num.lt (parseInt page) (.int 1)) = true
  · rw [if_pos hp]
    constructor
    · intro h; cases h
    · rintro ⟨p, l, hpp, _, h1, _⟩
      have := (pageCheck_false_iff (parseInt page)).2 ⟨p, hpp, h1⟩
      rw [this] at hp
      exact Bool.noConfusion hp
  · rw [if_neg hp]
    simp only [Bool.not_eq_true] at hp
    obtain ⟨p, hpp, hp1⟩ := (pageCheck_false_iff _).1 hp
    by_cases hl : (!Num.isInteger (parseInt limit) || Num.lt (parseInt limit) (.int 1) ||
        Num.gt (parseInt limit) (.int 100)) = true
    · rw [if_pos hl]
      constructor
      · intro h; cases h
      · rintro ⟨_, l, _, hll, _, h1, h100, _⟩
        have := (limitCheck_false_iff (parseInt limit)).2 ⟨l, hll, h1, h100⟩
        rw [this] at hl
        exact Bool.noConfusion hl
    · rw [if_neg hl]
      simp only [Bool.not_eq_true] at hl
      obtain ⟨l, hll, hl1, hl100⟩ := (limitCheck_false_iff _).1 hl
      rw [hpp, hll]
      constructor
      · intro h
        simp only [PaginationResult.ok.injEq] at h
        obtain ⟨rfl, rfl, rfl⟩ := h
        exact ⟨p, l, rfl, rfl, hp1, hl1, hl100, rfl, rfl, rfl⟩
      · rintro ⟨p2, l2, hp2, hl2, _, _, _, rfl, rfl, rfl⟩
        cases hp2
        cases hl2
        rfl

theorem validatePagination_page_error_iff (page limit : JSVal) :
    validatePagination page limit = .error "Invalid page number" ↔
      ¬ ∃ n : Int, parseInt page = .int n ∧ 1 ≤ n := by
  have hne : ("Invalid limit (1-100)" : String) ≠ "Invalid page number" := by decide
  rw [← pageCheck_false_iff]
  unfold validatePagination
  simp only []
  by_cases hp : (!Num.isInteger (parseInt page) || Num.lt (parseInt page) (.int 1)) = true
  · rw [if_pos hp]
    simp [hp]
  · rw [if_neg hp]
    simp only [Bool.not_eq_true] at hp
    simp only [hp, not_true_eq_false, iff_false]
    intro h
    split at h
    · exact hne (PaginationResult.error.inj h)
    · cases h

theorem validatePagination_limit_error_iff (page limit : JSVal) :
    validatePagination page limit = .error "Invalid limit (1-100)" ↔
      (∃ p : Int, parseInt page = .int p ∧ 1 ≤ p) ∧
      ¬ ∃ n : Int, parseInt limit = .int n ∧ 1 ≤ n ∧ n ≤ 100 := by
  have hne : ("Invalid page number" : String) ≠ "Invalid limit (1-100)" := by decide
  rw [← pageCheck_false_iff, ← limitCheck_false_iff]
  unfold validatePagination
  simp only []
  by_cases hp : (!Num.isInteger (parseInt page) || Num.lt (parseInt page) (.int 1)) = true
  · rw [if_pos hp]
    simp [hp, hne]
  · rw [if_neg hp]
    simp only [Bool.not_eq_true] at hp
    by_cases hl : (!Num.isInteger (parseInt limit) || Num.lt (parseInt limit) (.int 1) ||
        Num.gt (parseInt limit) (.int 100)) = true
    · rw [if_pos hl]
      simp [hp, hl]
    · rw [if_neg hl]
      simp only [Bool.not_eq_true] at hl
      simp [hp, hl]

/-! ## `parseInt` on decimal integer numerals -/

theorem digitValue_of_digit (c : Char) (h : isDecimalDigit c = true) :
    digitValue 10 c = some (c.toNat - 48) := by
  simp only [isDecimalDigit, Bool.and_eq_true, decide_eq_true_eq] at h
  have h57 : c.toNat - 48 < 10 := by omega
  simp [digitValue, h.1, h.2, h57]

theorem readDigits_some_digits (cs : List Char) (a : Nat)
    (h : cs.all isDecimalDigit = true) :
    readDigits 10 (some a) cs =
      some (cs.foldl (fun acc c => acc * 10 + (c.toNat - 48)) a) := by
  induction cs generalizing a with
  | nil => rfl
  | cons c cs ih =>
    simp only [List.all_cons, Bool.and_eq_true] at h
    simp only [readDigits, digitValue_of_digit c h.1, List.foldl_cons, Option.getD_some]
    exact ih _ h.2

theorem readDigits_none_digits (cs : List Char) (hne : cs ≠ [])
    (h : cs.all isDecimalDigit = true) :
    readDigits 10 none cs =
      some (cs.foldl (fun acc c => acc * 10 + (c.toNat - 48)) 0) := by
  cases cs with
  | nil => exact absurd rfl hne
  | cons c cs =>
    simp only [List.all_cons, Bool.and_eq_true] at h
    simp only [readDigits, digitValue_of_digit c h.1, List.foldl_cons, Option.getD_none]
    exact readDigits_some_digits cs _ h.2

theorem digit_not_space (c : Char) (h : isDecimalDigit c = true) :
    isStrWhiteSpaceChar c = false := by
  simp only [isDecimalDigit, Bool.and_eq_true, decide_eq_true_eq] at h
  simp only [isStrWhiteSpaceChar, Bool.or_eq_false_iff, beq_eq_false_iff_ne, ne_eq,
    Bool.and_eq_false_iff, decide_eq_false_iff_not]
  omega

theorem digit_ne_of_toNat (c d : Char) (h : isDecimalDigit c = true)
    (hd : isDecimalDigit d = false) : c ≠ d := by
  intro hcd
  rw [hcd, hd] at h
  exact Bool.noConfusion h

theorem decimalValue_scan (ds : List Char) (n : Nat) (h : decimalValue ds = some n) :
    (∃ c cs, ds = c :: cs ∧ isDecimalDigit c = true) ∧
    readRadix ds = (10, ds) ∧
    readDigits 10 none ds = some n := by
  unfold decimalValue at h
  split at h
  · rename_i hc
    obtain ⟨hne, hall⟩ := hc
    simp only [Option.some.injEq] at h
    refine ⟨?_, ?_, ?_⟩
    · cases ds with
      | nil => exact absurd rfl hne
      | cons c cs =>
        simp only [List.all_cons, Bool.and_eq_true] at hall
        exact ⟨c, cs, rfl, hall.1⟩
    · cases ds with
      | nil => rfl
      | cons c cs =>
        cases cs with
        | nil => rfl
        | cons d r =>
          have hd : isDecimalDigit d = true := by
            simp only [List.all_cons, Bool.and_eq_true] at hall
            exact hall.2.1
          have hx : d ≠ 'x' := digit_ne_of_toNat d 'x' hd (by decide)
          have hX : d ≠ 'X' := digit_ne_of_toNat d 'X' hd (by decide)
          simp [readRadix, hx, hX]
    · rw [readDigits_none_digits ds hne hall, h]
  · cases h

theorem parseIntChars_digits (ds : List Char) (n : Nat)
    (h : decimalValue ds = some n) : parseIntChars ds = Num.ofInt (n : Int) := by
  obtain ⟨⟨c, cs, rfl, hc⟩, hradix, hread⟩ := decimalValue_scan ds n h
  have hminus : c ≠ '-' := digit_ne_of_toNat c '-' hc (by decide)
  have hplus : c ≠ '+' := digit_ne_of_toNat c '+' hc (by decide)
  have hdrop : (c :: cs).dropWhile isStrWhiteSpaceChar = c :: cs := by
    simp [List.dropWhile, digit_not_space c hc]
  simp only [parseIntChars, hdrop, readSign, hminus, hplus, if_false, hradix, hread]
  simp

theorem parseIntChars_minus_digits (ds : List Char) (n : Nat)
    (h : decimalValue ds = some n) : parseIntChars ('-' :: ds) = Num.ofInt (-(n : Int)) := by
  obtain ⟨_, hradix, hread⟩ := decimalValue_scan ds n h
  have hsp : isStrWhiteSpaceChar '-' = false := by decide
  have hdrop : ('-' :: ds).dropWhile isStrWhiteSpaceChar = '-' :: ds := by
    simp [List.dropWhile, hsp]
  simp only [parseIntChars, hdrop, readSign, if_true, hradix, hread]
  simp

theorem parseInt_of_specInteger (s : String) (n : Int) (h : specInteger s = some n) :
    parseInt (.str s) = Num.ofInt n := by
  unfold specInteger at h
  simp only [parseInt, JSVal.toStr]
  split at h
  · rename_i c ds hs
    rw [hs]
    split at h
    · rename_i hc
      subst hc
      cases hd : decimalValue ds with
      | none => simp [hd] at h
      | some m =>
        simp only [hd, Option.some.injEq] at h
        rw [← h]
        exact parseIntChars_minus_digits ds m hd
    · cases hd : decimalValue (c :: ds) with
      | none => simp [hd] at h
      | some m =>
        simp only [hd, Option.some.injEq] at h
        rw [← h]
        exact parseIntChars_digits (c :: ds) m hd
  · cases h

theorem product_nonneg (p l : Int) (hp : 1 ≤ p) (hl : 1 ≤ l) :
    (∃ s : Int, Num.mul (Num.sub (.int p) (.int 1)) (.int l) = .int s ∧ 0 ≤ s) ∨
    Num.mul (Num.sub (.int p) (.int 1)) (.int l) = .inf true := by
  have hl0 : l ≠ 0 := by omega
  have hlpos : 0 < l := by omega
  simp only [Num.sub]
  rcases ofInt_nonneg (p - 1) (by omega) with ⟨m, hm, hm0⟩ | hinf
  · rw [hm]
    simp only [Num.mul]
    exact ofInt_nonneg (m * l) (Int.mul_nonneg hm0 (by omega))
  · rw [hinf]
    right
    simp [Num.mul, hl0, hlpos]

theorem product_rounds_exactly (p l : Int) (hp : 1 ≤ p) (hl : 1 ≤ l)
    (h : (p - 1) * l < 9007199254740992) :
    Num.mul (Num.sub (.int p) (.int 1)) (.int l) = .int ((p - 1) * l) := by
  have hprod : 0 ≤ (p - 1) * l := Int.mul_nonneg (by omega) (by omega)
  have hle : p - 1 ≤ (p - 1) * l := by
    have := Int.mul_le_mul_of_nonneg_left hl (by omega : (0 : Int) ≤ p - 1)
    simpa using this
  simp only [Num.sub]
  rw [ofInt_small (p - 1) (by omega)]
  simp only [Num.mul]
  rw [ofInt_small ((p - 1) * l) (by omega)]

/-! ## Pagination validator: the claims -/

/-- C1, as stated, fails: for the page `3002399751580332` and the limit `3`
both copies of `validatePagination` return the skip 9007199254740992, while
`(pageNum - 1) * limitNum` is 9007199254740993, which is not a double. -/
theorem validatePagination_skip_rounded :
    validatePagination (.str "3002399751580332") (.str "3") =
      .ok (.int 3002399751580332) (.int 3) (.int 9007199254740992) ∧
    Utils.validatePagination (.str "3002399751580332") (.str "3") =
      .ok (.int 3002399751580332) (.int 3) (.int 9007199254740992) ∧
    ((3002399751580332 : Int) - 1) * 3 = 9007199254740993 ∧
    (9007199254740992 : Int) ≠ ((3002399751580332 : Int) - 1) * 3 := by
  decide

/-- C1 (amended): whenever `validatePagination` succeeds, `pageNum` and
`limitNum` are the integers that `parseInt` reads from `page` and `limit`, and
`skip` is the double-precision value of `(pageNum - 1) * limitNum`; it is
exactly that product whenever the product is below `2 ^ 53`. The copy in
`Utils/validation.js` returns the same object; `validatePagination("2", "10")`
is `{ pageNum: 2, limitNum: 10, skip: 10 }`. -/
theorem validatePagination_skip_exact (page limit : JSVal) (pageNum limitNum skip : Num)
    (h : validatePagination page limit = .ok pageNum limitNum skip) :
    (∃ p l : Int, parseInt page = .int p ∧ parseInt limit = .int l ∧
      pageNum = .int p ∧ limitNum = .int l ∧
      skip = Num.mul (Num.sub (.int p) (.int 1)) (.int l) ∧
      ((p - 1) * l < 9007199254740992 → skip = .int ((p - 1) * l))) ∧
    Utils.validatePagination page limit = .ok pageNum limitNum skip ∧
    validatePagination (.str "2") (.str "10") = .ok (.int 2) (.int 10) (.int 10) ∧
    Utils.validatePagination (.str "2") (.str "10") = .ok (.int 2) (.int 10) (.int 10) := by
  refine ⟨?_, ?_, by decide, by decide⟩
  · obtain ⟨p, l, hp, hl, hp1, hl1, _, hpn, hln, hsk⟩ :=
      (validatePagination_ok_iff page limit pageNum limitNum skip).1 h
    refine ⟨p, l, hp, hl, hpn, hln, hsk, ?_⟩
    intro hb
    rw [hsk]
    exact product_rounds_exactly p l hp1 hl1 hb
  · rw [utils_validatePagination_eq]; exact h

/-- Witness of C1 (amended) at `validatePagination("3", "25")`. -/
theorem validatePagination_skip_exact_witness :
    validatePagination (.str "3") (.str "25") = .ok (.int 3) (.int 25) (.int 50) ∧
    ((∃ p l : Int, parseInt (.str "3") = .int p ∧ parseInt (.str "25") = .int l ∧
      Num.int 3 = .int p ∧ Num.int 25 = .int l ∧
      Num.int 50 = Num.mul (Num.sub (.int p) (.int 1)) (.int l) ∧
      ((p - 1) * l < 9007199254740992 → Num.int 50 = .int ((p - 1) * l))) ∧
    Utils.validatePagination (.str "3") (.str "25") = .ok (.int 3) (.int 25) (.int 50) ∧
    validatePagination (.str "2") (.str "10") = .ok (.int 2) (.int 10) (.int 10) ∧
    Utils.validatePagination (.str "2") (.str "10") = .ok (.int 2) (.int 10) (.int 10)) :=
  ⟨by decide,
   validatePagination_skip_exact (.str "3") (.str "25") (.int 3) (.int 25) (.int 50) (by decide)⟩

/-- C2, as stated, fails: the page `1.5` is not an integer, so the claim
requires the error `Invalid page number`, but both copies of
`validatePagination` accept it as page 1. -/
theorem validatePagination_accepts_fractional_page :
    specInvalidPage "1.5" = true ∧
    validatePagination (.str "1.5") (.str "10") = .ok (.int 1) (.int 10) (.int 0) ∧
    Utils.validatePagination (.str "1.5") (.str "10") = .ok (.int 1) (.int 10) (.int 0) ∧
    validatePagination (.str "1.5") (.str "10") ≠ .error "Invalid page number" := by
  decide

/-- C2 (amended): for every page input on which `parseInt` yields `NaN` or an
integer below 1, in particular every page that is a whole decimal numeral
below 1, and for every limit input, both copies of `validatePagination` return
the error `Invalid page number`; `validatePagination("0", "10")` is that error. -/
theorem validatePagination_invalid_page (page limit : JSVal)
    (h : parseInt page = .NaN ∨ (∃ n : Int, parseInt page = .int n ∧ n < 1) ∨
      (∃ (s : String) (n : Int), page = .str s ∧ specInteger s = some n ∧ n < 1)) :
    validatePagination page limit = .error "Invalid page number" ∧
    Utils.validatePagination page limit = .error "Invalid page number" ∧
    validatePagination (.str "0") (.str "10") = .error "Invalid page number" := by
  have key : validatePagination page limit = .error "Invalid page number" := by
    rw [validatePagination_page_error_iff]
    rintro ⟨k, hk, hk1⟩
    rcases h with h | ⟨n, hn, hn1⟩ | ⟨s, n, rfl, hs, hn⟩
    · rw [h] at hk; cases hk
    · rw [hn] at hk
      cases hk
      omega
    · rw [parseInt_of_specInteger s n hs] at hk
      rcases ofInt_nonpos n (by omega) with ⟨m, hm, hm0⟩ | hinf
      · rw [hm] at hk
        cases hk
        omega
      · rw [hinf] at hk; cases hk
  exact ⟨key, by rw [utils_validatePagination_eq]; exact key, by decide⟩

/-- Witness of C2 (amended) at the page `-3` with the limit `10`. -/
theorem validatePagination_invalid_page_witness :
    specInteger "-3" = some (-3) ∧
    (validatePagination (.str "-3") (.str "10") = .error "Invalid page number" ∧
     Utils.validatePagination (.str "-3") (.str "10") = .error "Invalid page number" ∧
     validatePagination (.str "0") (.str "10") = .error "Invalid page number") :=
  ⟨by decide,
   validatePagination_invalid_page (.str "-3") (.str "10")
     (Or.inr (Or.inr ⟨"-3", -3, rfl, by decide, by decide⟩))⟩

/-- C3, as stated, fails: with the valid page `1`, the limit `10.5` is not an
integer, so the claim requires the error `Invalid limit (1-100)`, but both
copies of `validatePagination` accept it as limit 10. -/
theorem validatePagination_accepts_fractional_limit :
    specInvalidPage "1" = false ∧ specInvalidLimit "10.5" = true ∧
    validatePagination (.str "1") (.str "10.5") = .ok (.int 1) (.int 10) (.int 0) ∧
    Utils.validatePagination (.str "1") (.str "10.5") = .ok (.int 1) (.int 10) (.int 0) ∧
    validatePagination (.str "1") (.str "10.5") ≠ .error "Invalid limit (1-100)" := by
  decide

/-- C3 (amended): for every page input on which `parseInt` yields an integer
of at least 1, and every limit input on which `parseInt` yields `NaN` or an
integer outside `[1,100]`, in particular every limit that is a whole decimal
numeral outside `[1,100]`, both copies of `validatePagination` return the error
`Invalid limit (1-100)`. -/
theorem validatePagination_invalid_limit (page limit : JSVal)
    (hp : ∃ p : Int, parseInt page = .int p ∧ 1 ≤ p)
    (h : parseInt limit = .NaN ∨ (∃ n : Int, parseInt limit = .int n ∧ (n < 1 ∨ 100 < n)) ∨
      (∃ (s : String) (n : Int), limit = .str s ∧ specInteger s = some n ∧ (n < 1 ∨ 100 < n))) :
    validatePagination page limit = .error "Invalid limit (1-100)" ∧
    Utils.validatePagination page limit = .error "Invalid limit (1-100)" := by
  have key : validatePagination page limit = .error "Invalid limit (1-100)" := by
    rw [validatePagination_limit_error_iff]
    refine ⟨hp, ?_⟩
    rintro ⟨k, hk, hk1, hk100⟩
    rcases h with h | ⟨n, hn, hn1⟩ | ⟨s, n, rfl, hs, hn⟩
    · rw [h] at hk; cases hk
    · rw [hn] at hk
      cases hk
      omega
    · rw [parseInt_of_specInteger s n hs] at hk
      rcases hn with hn | hn
      · rcases ofInt_nonpos n (by omega) with ⟨m, hm, hm0⟩ | hinf
        · rw [hm] at hk
          cases hk
          omega
        · rw [hinf] at hk; cases hk
      · by_cases hsmall : n < 9007199254740992
        · rw [ofInt_small n (by omega)] at hk
          cases hk
          omega
        · rcases ofInt_large n (by omega) with ⟨m, hm, hmbig⟩ | hinf
          · rw [hm] at hk
            cases hk
            omega
          · rw [hinf] at hk; cases hk
  exact ⟨key, by rw [utils_validatePagination_eq]; exact key⟩

/-- Witness of C3 (amended) at the page `2` with the limit `101`. -/
theorem validatePagination_invalid_limit_witness :
    parseInt (.str "2") = .int 2 ∧ specInteger "101" = some 101 ∧
    (validatePagination (.str "2") (.str "101") = .error "Invalid limit (1-100)" ∧
     Utils.validatePagination (.str "2") (.str "101") = .error "Invalid limit (1-100)") :=
  ⟨by decide, by decide,
   validatePagination_invalid_limit (.str "2") (.str "101") ⟨2, by decide, by decide⟩
     (Or.inr (Or.inr ⟨"101", 101, rfl, by decide, by decide⟩))⟩

/-- C4: every successful result of `validatePagination` (of either copy)
satisfies the page request invariant: `pageNum` and `limitNum` are integers,
`pageNum >= 1`, `1 <= limitNum <= 100`, and `skip >= 0`: `skip` is a
non-negative integer or, when the product overflows a double, positive
infinity; it is never negative and never `NaN`. -/
theorem validatePagination_invariant (page limit : JSVal) (pageNum limitNum skip : Num)
    (h : validatePagination page limit = .ok pageNum limitNum skip ∨
      Utils.validatePagination page limit = .ok pageNum limitNum skip) :
    ∃ p l : Int, pageNum = .int p ∧ limitNum = .int l ∧
      1 ≤ p ∧ 1 ≤ l ∧ l ≤ 100 ∧
      ((∃ s : Int, skip = .int s ∧ 0 ≤ s) ∨ skip = .inf true) ∧
      Num.lt skip (.int 0) = false ∧ skip ≠ .NaN := by
  have h2 : validatePagination page limit = .ok pageNum limitNum skip := by
    rcases h with h | h
    · exact h
    · rw [← utils_validatePagination_eq]; exact h
  obtain ⟨p, l, _, _, h1, hl1, hl100, hpn, hln, hsk⟩ :=
    (validatePagination_ok_iff page limit pageNum limitNum skip).1 h2
  have hnn := product_nonneg p l h1 hl1
  rw [← hsk] at hnn
  refine ⟨p, l, hpn, hln, h1, hl1, hl100, hnn, ?_, ?_⟩
  · rcases hnn with ⟨s, hs, hs0⟩ | hinf
    · rw [hs]
      have : ¬ s < 0 := by omega
      simp [Num.lt, this]
    · rw [hinf]; rfl
  · rcases hnn with ⟨s, hs, _⟩ | hinf
    · rw [hs]; exact Num.noConfusion
    · rw [hinf]; exact Num.noConfusion

/-- Witness of C4 at `validatePagination("7", "100")`. -/
theorem validatePagination_invariant_witness :
    validatePagination (.str "7") (.str "100") = .ok (.int 7) (.int 100) (.int 600) ∧
    ∃ p l : Int, Num.int 7 = .int p ∧ Num.int 100 = .int l ∧
      1 ≤ p ∧ 1 ≤ l ∧ l ≤ 100 ∧
      ((∃ s : Int, Num.int 600 = .int s ∧ 0 ≤ s) ∨ Num.int 600 = .inf true) ∧
      Num.lt (.int 600) (.int 0) = false ∧ Num.int 600 ≠ .NaN :=
  ⟨by decide,
   validatePagination_invariant (.str "7") (.str "100") (.int 7) (.int 100) (.int 600)
     (Or.inl (by decide))⟩

/-! ## Listing handlers: auxiliary facts -/

theorem truthy_eq_present (v : Option String) : truthy v = present v := by
  cases v with
  | none => rfl
  | some s => by_cases h : s = "" <;> simp [truthy, present, h]

theorem getJobsQuery_ok (req : Req) (l : Listing JobWhere) (h : getJobsQuery req = .ok l) :
    ∃ pn ln sk,
      validatePagination (withDefault (req.query "page") 1)
        (withDefault (req.query "limit") 10) = .ok pn ln sk ∧
      l.pageNum = pn ∧ l.limitNum = ln ∧ l.skip = sk ∧
      l.sortField = (if ["createdAt", "title", "company", "location", "type"].contains
          ((req.query "sortBy").getD "createdAt") = true
        then (req.query "sortBy").getD "createdAt" else "createdAt") ∧
      l.sortDirection = (if ((req.query "sortOrder").getD "desc" == "asc") = true
        then "asc" else "desc") ∧
      l.whereClause.hrId = none ∧
      l.whereClause.AND = (if l.whereClause.conditions = [] then none
        else some l.whereClause.conditions) ∧
      l.whereClause.conditions =
        (if present (req.query "search") = true then
          [.OR [containsInsensitive "title" (req.query "search"),
                containsInsensitive "description" (req.query "search"),
                containsInsensitive "requirements" (req.query "search")]] else []) ++
        ((if present (req.query "location") = true then
          [.single (containsInsensitive "location" (req.query "location"))] else []) ++
        ((if present (req.query "company") = true then
          [.single (containsInsensitive "company" (req.query "company"))] else []) ++
        ((if present (req.query "type") = true then
          [.single (equalsExact "type" (req.query "type"))] else []) ++
        ((if present (req.query "skills") = true then
          [.single (containsInsensitive "requirements" (req.query "skills"))] else []) ++
        (if (present (req.query "salaryMin") || present (req.query "salaryMax")) = true then
          [.OR ((if present (req.query "salaryMin") = true then
                  [containsDefault "salary" (req.query "salaryMin")] else []) ++
                (if present (req.query "salaryMax") = true then
                  [containsDefault "salary" (req.query "salaryMax")] else []))]
          else []))))) := by
  unfold getJobsQuery at h
  simp only [] at h
  cases hv : validatePagination (withDefault (req.query "page") 1)
      (withDefault (req.query "limit") 10) with
  | error msg => simp [hv] at h
  | ok pn ln sk =>
    rw [hv] at h
    simp only [Except.ok.injEq] at h
    subst h
    refine ⟨pn, ln, sk, rfl, rfl, rfl, rfl, rfl, rfl, ?_, ?_⟩ <;>
    · simp only [truthy_eq_present, JobWhere.conditions]
      cases present (req.query "search") <;> cases present (req.query "location") <;>
      cases present (req.query "company") <;> cases present (req.query "type") <;>
      cases present (req.query "skills") <;> cases present (req.query "salaryMin") <;>
      cases present (req.query "salaryMax") <;>
      simp [containsInsensitive, containsDefault, equalsExact]

theorem getJobsQuery_error (req : Req) (r : Response) :
    getJobsQuery req = .error r ↔
      ∃ msg, validatePagination (withDefault (req.query "page") 1)
        (withDefault (req.query "limit") 10) = .error msg ∧
        r = { status := 400, message := msg } := by
  unfold getJobsQuery
  simp only []
  cases hv : validatePagination (withDefault (req.query "page") 1)
      (withDefault (req.query "limit") 10) with
  | error msg =>
    simp only [Except.error.injEq, PaginationResult.error.injEq, exists_eq_left']
    exact eq_comm
  | ok pn ln sk => simp

theorem idCheck_false_iff (n : Num) :
    (!Num.isInteger n || Num.lt n (.int 1)) = false ↔ ∃ c : Int, n = .int c ∧ 1 ≤ c :=
  pageCheck_false_iff n

theorem sortField_mem (wl : List String) (sortBy : String) (h : "createdAt" ∈ wl) :
    (if wl.contains sortBy = true then sortBy else "createdAt") ∈ wl := by
  by_cases hc : wl.contains sortBy = true
  · rw [if_pos hc]
    simpa using hc
  · rw [if_neg hc]
    exact h

theorem sortDirection_cases (sortOrder : String) :
    (if (sortOrder == "asc") = true then "asc" else "desc") = "asc" ∨
    (if (sortOrder == "asc") = true then "asc" else "desc") = "desc" := by
  by_cases hc : (sortOrder == "asc") = true
  · rw [if_pos hc]; exact Or.inl rfl
  · rw [if_neg hc]; exact Or.inr rfl

theorem getApplicationsQuery_ok (req : Req) (l : Listing ApplicationWhere)
    (h : getApplicationsQuery req = .ok l) :
    ∃ (c : Int) (pn ln sk : Num),
      parseInt (ofParam (req.params "candidateId")) = .int c ∧ 1 ≤ c ∧
      validatePagination (withDefault (req.query "page") 1)
        (withDefault (req.query "limit") 10) = .ok pn ln sk ∧
      l.pageNum = pn ∧ l.limitNum = ln ∧ l.skip = sk ∧
      l.sortField = (if ["createdAt", "status"].contains
          ((req.query "sortBy").getD "createdAt") = true
        then (req.query "sortBy").getD "createdAt" else "createdAt") ∧
      l.sortDirection = (if ((req.query "sortOrder").getD "desc" == "asc") = true
        then "asc" else "desc") ∧
      l.whereClause =
        { candidateId := some (.int c), jobId := none,
          status := if (truthy (req.query "status") &&
              ["pending", "accepted", "rejected"].contains ((req.query "status").getD "")) = true
            then req.query "status" else none } := by
  unfold getApplicationsQuery at h
  simp only [] at h
  split at h
  · cases h
  · rename_i hid
    simp only [Bool.not_eq_true] at hid
    obtain ⟨c, hc, hc1⟩ := (idCheck_false_iff _).1 hid
    cases hv : validatePagination (withDefault (req.query "page") 1)
        (withDefault (req.query "limit") 10) with
    | error msg => simp [hv] at h
    | ok pn ln sk =>
      rw [hv] at h
      simp only [Except.ok.injEq] at h
      subst h
      refine ⟨c, pn, ln, sk, hc, hc1, rfl, rfl, rfl, rfl, rfl, rfl, ?_⟩
      simp only [hc]
      split <;> rfl

theorem getApplicationsQuery_error (req : Req) (r : Response) :
    getApplicationsQuery req = .error r ↔
      ((¬ ∃ c : Int, parseInt (ofParam (req.params "candidateId")) = .int c ∧ 1 ≤ c) ∧
        r = { status := 400, message := "Invalid candidate ID" }) ∨
      ((∃ c : Int, parseInt (ofParam (req.params "candidateId")) = .int c ∧ 1 ≤ c) ∧
        ∃ msg, validatePagination (withDefault (req.query "page") 1)
          (withDefault (req.query "limit") 10) = .error msg ∧
          r = { status := 400, message := msg }) := by
  unfold getApplicationsQuery
  simp only []
  split
  · rename_i hid
    have hno : ¬ ∃ c : Int, parseInt (ofParam (req.params "candidateId")) = .int c ∧ 1 ≤ c := by
      rw [← idCheck_false_iff]
      simp only [hid]
      exact Bool.noConfusion
    simp only [hno, not_false_eq_true, true_and, false_and, or_false, Except.error.injEq]
    exact eq_comm
  · rename_i hid
    simp only [Bool.not_eq_true] at hid
    have hyes := (idCheck_false_iff _).1 hid
    simp only [hyes, not_true_eq_false, false_and, true_and, false_or]
    cases hv : validatePagination (withDefault (req.query "page") 1)
        (withDefault (req.query "limit") 10) with
    | error msg =>
      simp only [Except.error.injEq, PaginationResult.error.injEq, exists_eq_left']
      exact eq_comm
    | ok pn ln sk => simp

theorem getApplicationsByJobQuery_ok (req : Req) (l : Listing ApplicationWhere)
    (h : getApplicationsByJobQuery req = .ok l) :
    ∃ (c : Int) (pn ln sk : Num),
      parseInt (ofParam (req.params "jobId")) = .int c ∧ 1 ≤ c ∧
      validatePagination (withDefault (req.query "page") 1)
        (withDefault (req.query "limit") 10) = .ok pn ln sk ∧
      l.pageNum = pn ∧ l.limitNum = ln ∧ l.skip = sk ∧
      l.sortField = (if ["createdAt", "status"].contains
          ((req.query "sortBy").getD "createdAt") = true
        then (req.query "sortBy").getD "createdAt" else "createdAt") ∧
      l.sortDirection = (if ((req.query "sortOrder").getD "desc" == "asc") = true
        then "asc" else "desc") ∧
      l.whereClause =
        { candidateId := none, jobId := some (.int c),
          status := if (truthy (req.query "status") &&
              ["pending", "accepted", "rejected"].contains ((req.query "status").getD "")) = true
            then req.query "status" else none } := by
  unfold getApplicationsByJobQuery at h
  simp only [] at h
  split at h
  · cases h
  · rename_i hid
    simp only [Bool.not_eq_true] at hid
    obtain ⟨c, hc, hc1⟩ := (idCheck_false_iff _).1 hid
    cases hv : validatePagination (withDefault (req.query "page") 1)
        (withDefault (req.query "limit") 10) with
    | error msg => simp [hv] at h
    | ok pn ln sk =>
      rw [hv] at h
      simp only [Except.ok.injEq] at h
      subst h
      refine ⟨c, pn, ln, sk, hc, hc1, rfl, rfl, rfl, rfl, rfl, rfl, ?_⟩
      simp only [hc]
      split <;> rfl

theorem getApplicationsByJobQuery_error (req : Req) (r : Response) :
    getApplicationsByJobQuery req = .error r ↔
      ((¬ ∃ c : Int, parseInt (ofParam (req.params "jobId")) = .int c ∧ 1 ≤ c) ∧
        r = { status := 400, message := "Invalid job ID" }) ∨
      ((∃ c : Int, parseInt (ofParam (req.params "jobId")) = .int c ∧ 1 ≤ c) ∧
        ∃ msg, validatePagination (withDefault (req.query "page") 1)
          (withDefault (req.query "limit") 10) = .error msg ∧
          r = { status := 400, message := msg }) := by
  unfold getApplicationsByJobQuery
  simp only []
  split
  · rename_i hid
    have hno : ¬ ∃ c : Int, parseInt (ofParam (req.params "jobId")) = .int c ∧ 1 ≤ c := by
      rw [← idCheck_false_iff]
      simp only [hid]
      exact Bool.noConfusion
    simp only [hno, not_false_eq_true, true_and, false_and, or_false, Except.error.injEq]
    exact eq_comm
  · rename_i hid
    simp only [Bool.not_eq_true] at hid
    have hyes := (idCheck_false_iff _).1 hid
    simp only [hyes, not_true_eq_false, false_and, true_and, false_or]
    cases hv : validatePagination (withDefault (req.query "page") 1)
        (withDefault (req.query "limit") 10) with
    | error msg =>
      simp only [Except.error.injEq, PaginationResult.error.injEq, exists_eq_left']
      exact eq_comm
    | ok pn ln sk => simp

theorem getJobsByHRQuery_ok (req : Req) (l : Listing JobWhere)
    (h : getJobsByHRQuery req = .ok l) :
    ∃ (c : Int) (pn ln sk : Num),
      parseInt (ofParam (req.params "hrId")) = .int c ∧ 1 ≤ c ∧
      validatePagination (withDefault (req.query "page") 1)
        (withDefault (req.query "limit") 10) = .ok pn ln sk ∧
      l.pageNum = pn ∧ l.limitNum = ln ∧ l.skip = sk ∧
      l.sortField = (if ["createdAt", "title", "company", "location", "type"].contains
          ((req.query "sortBy").getD "createdAt") = true
        then (req.query "sortBy").getD "createdAt" else "createdAt") ∧
      l.sortDirection = (if ((req.query "sortOrder").getD "desc" == "asc") = true
        then "asc" else "desc") ∧
      l.whereClause = { AND := none, hrId := some (.int c) } := by
  unfold getJobsByHRQuery at h
  simp only [] at h
  split at h
  · cases h
  · rename_i hid
    simp only [Bool.not_eq_true] at hid
    obtain ⟨c, hc, hc1⟩ := (idCheck_false_iff _).1 hid
    cases hv : validatePagination (withDefault (req.query "page") 1)
        (withDefault (req.query "limit") 10) with
    | error msg => simp [hv] at h
    | ok pn ln sk =>
      rw [hv] at h
      simp only [Except.ok.injEq] at h
      subst h
      refine ⟨c, pn, ln, sk, hc, hc1, rfl, rfl, rfl, rfl, rfl, rfl, ?_⟩
      simp only [hc]

theorem getJobsByHRQuery_error (req : Req) (r : Response) :
    getJobsByHRQuery req = .error r ↔
      ((¬ ∃ c : Int, parseInt (ofParam (req.params "hrId")) = .int c ∧ 1 ≤ c) ∧
        r = { status := 400, message := "Invalid HR ID" }) ∨
      ((∃ c : Int, parseInt (ofParam (req.params "hrId")) = .int c ∧ 1 ≤ c) ∧
        ∃ msg, validatePagination (withDefault (req.query "page") 1)
          (withDefault (req.query "limit") 10) = .error msg ∧
          r = { status := 400, message := msg }) := by
  unfold getJobsByHRQuery
  simp only []
  split
  · rename_i hid
    have hno : ¬ ∃ c : Int, parseInt (ofParam (req.params "hrId")) = .int c ∧ 1 ≤ c := by
      rw [← idCheck_false_iff]
      simp only [hid]
      exact Bool.noConfusion
    simp only [hno, not_false_eq_true, true_and, false_and, or_false, Except.error.injEq]
    exact eq_comm
  · rename_i hid
    simp only [Bool.not_eq_true] at hid
    have hyes := (idCheck_false_iff _).1 hid
    simp only [hyes, not_true_eq_false, false_and, true_and, false_or]
    cases hv : validatePagination (withDefault (req.query "page") 1)
        (withDefault (req.query "limit") 10) with
    | error msg =>
      simp only [Except.error.injEq, PaginationResult.error.injEq, exists_eq_left']
      exact eq_comm
    | ok pn ln sk => simp

theorem fieldConditions_append (a b : List Condition) :
    fieldConditions (a ++ b) = fieldConditions a ++ fieldConditions b := by
  induction a with
  | nil => rfl
  | cons c rest ih =>
    cases c with
    | single x => simp [fieldConditions, ih]
    | OR alts => simp [fieldConditions, ih]

theorem statusFilter_eq (status : Option String) :
    (if (truthy status &&
        ["pending", "accepted", "rejected"].contains (status.getD "")) = true
      then status else none) =
    (match status with
     | some s => if s ∈ ["pending", "accepted", "rejected"] then some s else none
     | none => none) := by
  cases status with
  | none => rfl
  | some s =>
    by_cases hm : s ∈ ["pending", "accepted", "rejected"]
    · have hne : s ≠ "" := by
        intro hs
        rw [hs] at hm
        exact absurd hm (by decide)
      have hc : ["pending", "accepted", "rejected"].contains s = true := by simpa using hm
      simp [truthy, hne, hm, hc]
    · have hc : ["pending", "accepted", "rejected"].contains s = false := by simpa using hm
      simp [hm, hc]

/-! ## Sort resolver: the claims -/

/-- C5: for every request that `getJobs` does not reject, the resolved sort is
the reference resolution of the raw `sortBy` and `sortOrder` against the
whitelist createdAt, title, company, location, type with default createdAt: the
field is `sortBy` when it is in the whitelist and createdAt otherwise (absence
included), the direction is asc when `sortOrder` is exactly the string asc and
desc for every other value or absence; (bogusField, asc) resolves to
(createdAt, asc). -/
theorem getJobs_sort_resolution (req : Req) (l : Listing JobWhere)
    (h : getJobsQuery req = .ok l) :
    (l.sortField, l.sortDirection) =
      specResolve (req.query "sortBy") (req.query "sortOrder")
        ["createdAt", "title", "company", "location", "type"] "createdAt" ∧
    (∀ f, req.query "sortBy" = some f →
      f ∈ ["createdAt", "title", "company", "location", "type"] → l.sortField = f) ∧
    (∀ f, req.query "sortBy" = some f →
      f ∉ ["createdAt", "title", "company", "location", "type"] → l.sortField = "createdAt") ∧
    (req.query "sortBy" = none → l.sortField = "createdAt") ∧
    (req.query "sortOrder" = some "asc" → l.sortDirection = "asc") ∧
    (req.query "sortOrder" ≠ some "asc" → l.sortDirection = "desc") ∧
    (getJobsQuery (Req.ofLists [] [("sortBy", "bogusField"), ("sortOrder", "asc")])).toOption.map
      (fun l => (l.sortField, l.sortDirection)) = some ("createdAt", "asc") := by
  obtain ⟨pn, ln, sk, _, _, _, _, hf, hd, _⟩ := getJobsQuery_ok req l h
  have hfield : l.sortField = (specResolve (req.query "sortBy") (req.query "sortOrder")
      ["createdAt", "title", "company", "location", "type"] "createdAt").1 := by
    rw [hf]
    cases hs : req.query "sortBy" with
    | none => simp [specResolve]
    | some f => simp [specResolve]
  have hdir : l.sortDirection = (specResolve (req.query "sortBy") (req.query "sortOrder")
      ["createdAt", "title", "company", "location", "type"] "createdAt").2 := by
    rw [hd]
    cases hs : req.query "sortOrder" with
    | none => simp [specResolve]
    | some o => simp [specResolve]
  refine ⟨Prod.ext hfield hdir, ?_, ?_, ?_, ?_, ?_, by decide⟩
  · intro f hs hm
    rw [hfield, hs]
    simp only [specResolve, hm, if_true]
  · intro f hs hm
    rw [hfield, hs]
    simp only [specResolve, hm, if_false]
  · intro hs
    rw [hfield, hs]
    rfl
  · intro hs
    rw [hdir, hs]
    rfl
  · intro hs
    rw [hdir]
    simp only [specResolve, hs, if_false]

/-- Witness of C5 at the request `?sortBy=title&sortOrder=ASC`. -/
theorem getJobs_sort_resolution_witness :
    (getJobsQuery (Req.ofLists [] [("sortBy", "title"), ("sortOrder", "ASC")])).toOption.map
      (fun l => (l.sortField, l.sortDirection)) = some ("title", "desc") ∧
    specResolve (some "title") (some "ASC")
      ["createdAt", "title", "company", "location", "type"] "createdAt" = ("title", "desc") :=
  ⟨by decide,
   ((getJobs_sort_resolution (Req.ofLists [] [("sortBy", "title"), ("sortOrder", "ASC")])
      { whereClause := { AND := none, hrId := none }, sortField := "title",
        sortDirection := "desc", pageNum := .int 1, limitNum := .int 10, skip := .int 0 }
      rfl).1).symm⟩

/-- C6: the sort resolution never fails on any listing endpoint. Whenever a
listing handler gets past its identifier and pagination checks, the resolved
field is in the endpoint's own whitelist (createdAt, title, company, location,
type for `getJobs` and `getJobsByHR`; createdAt, status for `getApplications`
and `getApplicationsByJob`) and the direction is asc or desc; and whether and
how a request is rejected does not depend on `sortBy` and `sortOrder`: replacing
them by any values leaves every early response unchanged. -/
theorem sort_resolver_total (req : Req) :
    (∀ l, getJobsQuery req = .ok l →
      l.sortField ∈ ["createdAt", "title", "company", "location", "type"] ∧
      (l.sortDirection = "asc" ∨ l.sortDirection = "desc")) ∧
    (∀ l, getJobsByHRQuery req = .ok l →
      l.sortField ∈ ["createdAt", "title", "company", "location", "type"] ∧
      (l.sortDirection = "asc" ∨ l.sortDirection = "desc")) ∧
    (∀ l, getApplicationsQuery req = .ok l →
      l.sortField ∈ ["createdAt", "status"] ∧
      (l.sortDirection = "asc" ∨ l.sortDirection = "desc")) ∧
    (∀ l, getApplicationsByJobQuery req = .ok l →
      l.sortField ∈ ["createdAt", "status"] ∧
      (l.sortDirection = "asc" ∨ l.sortDirection = "desc")) ∧
    (∀ (sortBy sortOrder : Option String) (r : Response),
      (getJobsQuery ((req.setQuery "sortBy" sortBy).setQuery "sortOrder" sortOrder) = .error r ↔
        getJobsQuery req = .error r) ∧
      (getJobsByHRQuery ((req.setQuery "sortBy" sortBy).setQuery "sortOrder" sortOrder) = .error r ↔
        getJobsByHRQuery req = .error r) ∧
      (getApplicationsQuery ((req.setQuery "sortBy" sortBy).setQuery "sortOrder" sortOrder)
          = .error r ↔ getApplicationsQuery req = .error r) ∧
      (getApplicationsByJobQuery ((req.setQuery "sortBy" sortBy).setQuery "sortOrder" sortOrder)
          = .error r ↔ getApplicationsByJobQuery req = .error r)) := by
  refine ⟨?_, ?_, ?_, ?_, ?_⟩
  · intro l h
    obtain ⟨pn, ln, sk, _, _, _, _, hf, hd, _⟩ := getJobsQuery_ok req l h
    rw [hf, hd]
    exact ⟨sortField_mem _ _ (by decide), sortDirection_cases _⟩
  · intro l h
    obtain ⟨c, pn, ln, sk, _, _, _, _, _, _, hf, hd, _⟩ := getJobsByHRQuery_ok req l h
    rw [hf, hd]
    exact ⟨sortField_mem _ _ (by decide), sortDirection_cases _⟩
  · intro l h
    obtain ⟨c, pn, ln, sk, _, _, _, _, _, _, hf, hd, _⟩ := getApplicationsQuery_ok req l h
    rw [hf, hd]
    exact ⟨sortField_mem _ _ (by decide), sortDirection_cases _⟩
  · intro l h
    obtain ⟨c, pn, ln, sk, _, _, _, _, _, _, hf, hd, _⟩ := getApplicationsByJobQuery_ok req l h
    rw [hf, hd]
    exact ⟨sortField_mem _ _ (by decide), sortDirection_cases _⟩
  · intro sortBy sortOrder r
    have hp : ((req.setQuery "sortBy" sortBy).setQuery "sortOrder" sortOrder).query "page"
        = req.query "page" := by simp [Req.setQuery]
    have hl : ((req.setQuery "sortBy" sortBy).setQuery "sortOrder" sortOrder).query "limit"
        = req.query "limit" := by simp [Req.setQuery]
    have hparams : ((req.setQuery "sortBy" sortBy).setQuery "sortOrder" sortOrder).params
        = req.params := rfl
    refine ⟨?_, ?_, ?_, ?_⟩
    · rw [getJobsQuery_error, getJobsQuery_error, hp, hl]
    · rw [getJobsByHRQuery_error, getJobsByHRQuery_error, hp, hl, hparams]
    · rw [getApplicationsQuery_error, getApplicationsQuery_error, hp, hl, hparams]
    · rw [getApplicationsByJobQuery_error, getApplicationsByJobQuery_error, hp, hl, hparams]

/-- Witness of C6 at `getApplications` for candidate 5 with
`?sortBy=salary&sortOrder=up`: the request is served with the default sort. -/
theorem sort_resolver_total_witness :
    getApplicationsQuery
        (Req.ofLists [("candidateId", "5")] [("sortBy", "salary"), ("sortOrder", "up")]) =
      .ok { whereClause := { candidateId := some (.int 5), jobId := none, status := none },
            sortField := "createdAt", sortDirection := "desc",
            pageNum := .int 1, limitNum := .int 10, skip := .int 0 } ∧
    ("createdAt" ∈ ["createdAt", "status"] ∧ (("desc" : String) = "asc" ∨ ("desc" : String) = "desc")) :=
  ⟨rfl,
   (sort_resolver_total
      (Req.ofLists [("candidateId", "5")] [("sortBy", "salary"), ("sortOrder", "up")])).2.2.1
      { whereClause := { candidateId := some (.int 5), jobId := none, status := none },
        sortField := "createdAt", sortDirection := "desc",
        pageNum := .int 1, limitNum := .int 10, skip := .int 0 } rfl⟩

/-! ## Filter builder: the claims -/

/-- C7: for every request that `getJobs` does not reject, the `conditions`
array holds, in this order, one clause for each of search, location, company,
type and skills that is present and non-empty, then one salary clause when
`salaryMin` or `salaryMax` is present and non-empty, and nothing else; the
`AND` key is set only when the array is non-empty, and when no parameter is
present the `where` object is the empty object `{}`. -/
theorem getJobs_filter_clauses (req : Req) (l : Listing JobWhere)
    (h : getJobsQuery req = .ok l) :
    l.whereClause.conditions.map clauseParam =
      (["search", "location", "company", "type", "skills"].filter
        (fun p => present (req.query p))).map some ++
      (if (present (req.query "salaryMin") || present (req.query "salaryMax")) = true
        then [some "salary"] else []) ∧
    l.whereClause.AND =
      (if l.whereClause.conditions = [] then none else some l.whereClause.conditions) ∧
    l.whereClause.hrId = none ∧
    ((∀ p ∈ ["search", "location", "company", "type", "skills", "salaryMin", "salaryMax"],
        present (req.query p) = false) →
      l.whereClause = { AND := none, hrId := none }) := by
  obtain ⟨pn, ln, sk, _, _, _, _, _, _, hhr, hand, hconds⟩ := getJobsQuery_ok req l h
  refine ⟨?_, hand, hhr, ?_⟩
  · rw [hconds]
    simp only [List.filter]
    cases present (req.query "search") <;> cases present (req.query "location") <;>
    cases present (req.query "company") <;> cases present (req.query "type") <;>
    cases present (req.query "skills") <;> cases present (req.query "salaryMin") <;>
    cases present (req.query "salaryMax") <;>
    simp [clauseParam, containsInsensitive, containsDefault, equalsExact]
  · intro hall
    have hc : l.whereClause.conditions = [] := by
      rw [hconds]
      simp [hall]
    rw [hc] at hand
    simp only [if_true] at hand
    cases hw : l.whereClause with
    | mk a b =>
      rw [hw] at hand hhr
      simp only at hand hhr
      rw [hand, hhr]

/-- Witness of C7 at `?search=engineer&type=&salaryMax=90000`: a search clause
and a salary clause, none for the empty `type`. -/
theorem getJobs_filter_clauses_witness :
    (getJobsQuery (Req.ofLists []
        [("search", "engineer"), ("type", ""), ("salaryMax", "90000")])).toOption.map
      (fun l => l.whereClause.conditions.map clauseParam) =
      some [some "search", some "salary"] ∧
    [some "search", some "salary"] =
      (["search", "location", "company", "type", "skills"].filter
        (fun p => present ((Req.ofLists []
          [("search", "engineer"), ("type", ""), ("salaryMax", "90000")]).query p))).map some ++
      (if (present ((Req.ofLists []
            [("search", "engineer"), ("type", ""), ("salaryMax", "90000")]).query "salaryMin") ||
          present ((Req.ofLists []
            [("search", "engineer"), ("type", ""), ("salaryMax", "90000")]).query "salaryMax"))
          = true
        then [some "salary"] else []) :=
  ⟨by decide,
   (getJobs_filter_clauses
      (Req.ofLists [] [("search", "engineer"), ("type", ""), ("salaryMax", "90000")])
      { whereClause :=
          { AND := some
              [.OR [containsInsensitive "title" (some "engineer"),
                    containsInsensitive "description" (some "engineer"),
                    containsInsensitive "requirements" (some "engineer")],
               .OR [containsDefault "salary" (some "90000")]],
            hrId := none },
        sortField := "createdAt", sortDirection := "desc",
        pageNum := .int 1, limitNum := .int 10, skip := .int 0 }
      rfl).1⟩

/-- C8: for every request that `getJobs` does not reject, the clauses that
constrain the salary field are: exactly one disjunction when `salaryMin` or
`salaryMax` is present and non-empty, whose alternatives are a substring match
of salary against `salaryMin` (if supplied) followed by one against `salaryMax`
(if supplied); and none when neither bound is supplied. -/
theorem getJobs_salary_clause (req : Req) (l : Listing JobWhere)
    (h : getJobsQuery req = .ok l) :
    l.whereClause.conditions.filter mentionsSalary =
      (if (present (req.query "salaryMin") || present (req.query "salaryMax")) = true then
        [.OR ((if present (req.query "salaryMin") = true then
                [{ field := "salary",
                   filter := { contains := req.query "salaryMin", equals := none, mode := none } }]
                else []) ++
              (if present (req.query "salaryMax") = true then
                [{ field := "salary",
                   filter := { contains := req.query "salaryMax", equals := none, mode := none } }]
                else []))]
        else []) := by
  obtain ⟨pn, ln, sk, _, _, _, _, _, _, _, _, hconds⟩ := getJobsQuery_ok req l h
  rw [hconds]
  cases present (req.query "search") <;> cases present (req.query "location") <;>
  cases present (req.query "company") <;> cases present (req.query "type") <;>
  cases present (req.query "skills") <;> cases present (req.query "salaryMin") <;>
  cases present (req.query "salaryMax") <;>
  simp [List.filter, mentionsSalary, fieldConditions, containsInsensitive, containsDefault,
    equalsExact]

/-- Witness of C8 at `?skills=lean&salaryMin=50000&salaryMax=90000`. -/
theorem getJobs_salary_clause_witness :
    (getJobsQuery (Req.ofLists []
        [("skills", "lean"), ("salaryMin", "50000"), ("salaryMax", "90000")])).toOption.map
      (fun l => l.whereClause.conditions.filter mentionsSalary) =
      some [.OR [{ field := "salary",
                   filter := { contains := some "50000", equals := none, mode := none } },
                 { field := "salary",
                   filter := { contains := some "90000", equals := none, mode := none } }]] ∧
    List.filter mentionsSalary
      [.single (containsInsensitive "requirements" (some "lean")),
       .OR [containsDefault "salary" (some "50000"), containsDefault "salary" (some "90000")]] =
      [.OR [{ field := "salary",
              filter := { contains := some "50000", equals := none, mode := none } },
            { field := "salary",
              filter := { contains := some "90000", equals := none, mode := none } }]] :=
  ⟨by decide,
   getJobs_salary_clause
     (Req.ofLists [] [("skills", "lean"), ("salaryMin", "50000"), ("salaryMax", "90000")])
     { whereClause :=
         { AND := some
             [.single (containsInsensitive "requirements" (some "lean")),
              .OR [containsDefault "salary" (some "50000"),
                   containsDefault "salary" (some "90000")]],
           hrId := none },
       sortField := "createdAt", sortDirection := "desc",
       pageNum := .int 1, limitNum := .int 10, skip := .int 0 }
     rfl⟩

/-- C9, as stated, fails: for `?salaryMin=50K` the only clause emitted is the
salary alternative `{ salary: { contains: "50K" } }`, a substring match without
the `mode: 'insensitive'` that the sibling clauses carry. On the sample store,
whose job 1 has the salary `50k`, a persistence layer that matches in its
default, case-sensitive mode lists no job for `?salaryMin=50K` and job 1 for
`?salaryMin=50k`, while the sibling clause of `?location=PUNE` lists job 1, of
location `Pune`. -/
theorem getJobs_salary_match_not_insensitive :
    (getJobsQuery (Req.ofLists [] [("salaryMin", "50K")])).toOption.map
      (fun l => fieldConditions l.whereClause.conditions) =
      some [{ field := "salary",
              filter := { contains := some "50K", equals := none, mode := none } }] ∧
    ¬ (∀ fc ∈ [({ field := "salary",
                  filter := { contains := some "50K", equals := none, mode := none } } :
                FieldCondition)],
        fc.filter.contains ≠ none → fc.filter.mode = some "insensitive") ∧
    (getJobs Env.reference Store.sample (Req.ofLists [] [("salaryMin", "50K")])).reply.status =
      200 ∧
    (getJobs Env.reference Store.sample (Req.ofLists [] [("salaryMin", "50K")])).reply.jobIds =
      [] ∧
    (getJobs Env.reference Store.sample (Req.ofLists [] [("salaryMin", "50k")])).reply.jobIds =
      [1] ∧
    (getJobs Env.reference Store.sample (Req.ofLists [] [("location", "PUNE")])).reply.jobIds =
      [1] := by
  decide

/-- C9 (what the code does): for every request that `getJobs` does not reject,
every single-field condition it emits is one of: a substring match in insensitive mode
of title, description or requirements against `search`, of location against
`location`, of company against `company`, of requirements against `skills`; an
equality match of type against `type`; or a substring match of salary against
`salaryMin` or `salaryMax` with no mode given. So each substring match outside
the salary clause is case-insensitive, the salary alternatives carry no mode,
and the type clause is an exact equality. -/
theorem getJobs_clause_modes (req : Req) (l : Listing JobWhere)
    (h : getJobsQuery req = .ok l) :
    ∀ fc ∈ fieldConditions l.whereClause.conditions,
      (fc ∈ [containsInsensitive "title" (req.query "search"),
             containsInsensitive "description" (req.query "search"),
             containsInsensitive "requirements" (req.query "search"),
             containsInsensitive "location" (req.query "location"),
             containsInsensitive "company" (req.query "company"),
             containsInsensitive "requirements" (req.query "skills"),
             equalsExact "type" (req.query "type"),
             containsDefault "salary" (req.query "salaryMin"),
             containsDefault "salary" (req.query "salaryMax")]) ∧
      (fc.field ≠ "salary" → fc.field ≠ "type" →
        fc.filter.contains ≠ none ∧ fc.filter.equals = none ∧
        fc.filter.mode = some "insensitive") ∧
      (fc.field = "salary" →
        fc.filter.contains ≠ none ∧ fc.filter.equals = none ∧ fc.filter.mode = none) ∧
      (fc.field = "type" →
        fc.filter.contains = none ∧ fc.filter.equals = req.query "type" ∧
        fc.filter.mode = none) := by
  obtain ⟨pn, ln, sk, _, _, _, _, _, _, _, _, hconds⟩ := getJobsQuery_ok req l h
  intro fc hfc
  rw [hconds] at hfc
  have hsome : ∀ v : Option String, present v = true → v ≠ none := by
    intro v hv hn
    rw [hn] at hv
    exact Bool.noConfusion hv
  simp only [fieldConditions_append, apply_ite fieldConditions, fieldConditions,
    List.append_nil, List.mem_append, List.mem_ite_nil_right, List.mem_cons,
    List.mem_singleton, List.not_mem_nil, or_false, Bool.or_eq_true] at hfc
  rcases hfc with ⟨hp, rfl | rfl | rfl⟩ | ⟨hp, rfl⟩ | ⟨hp, rfl⟩ | ⟨hp, rfl⟩ | ⟨hp, rfl⟩ |
    ⟨_, ⟨hp, rfl⟩ | ⟨hp, rfl⟩⟩ <;>
  simp [containsInsensitive, containsDefault, equalsExact, hsome _ hp]

/-- Witness of C9 at `?search=dev&type=full-time&salaryMin=50k`, for the salary
alternative. -/
theorem getJobs_clause_modes_witness :
    (getJobsQuery (Req.ofLists []
        [("search", "dev"), ("type", "full-time"), ("salaryMin", "50k")])).toOption.map
      (fun l => fieldConditions l.whereClause.conditions) =
      some [containsInsensitive "title" (some "dev"),
            containsInsensitive "description" (some "dev"),
            containsInsensitive "requirements" (some "dev"),
            equalsExact "type" (some "full-time"),
            containsDefault "salary" (some "50k")] ∧
    ((containsDefault "salary" (some "50k")).filter.contains ≠ none ∧
     (containsDefault "salary" (some "50k")).filter.equals = none ∧
     (containsDefault "salary" (some "50k")).filter.mode = none) :=
  ⟨by decide,
   (getJobs_clause_modes
      (Req.ofLists [] [("search", "dev"), ("type", "full-time"), ("salaryMin", "50k")])
      { whereClause :=
          { AND := some
              [.OR [containsInsensitive "title" (some "dev"),
                    containsInsensitive "description" (some "dev"),
                    containsInsensitive "requirements" (some "dev")],
               .single (equalsExact "type" (some "full-time")),
               .OR [containsDefault "salary" (some "50k")]],
            hrId := none },
        sortField := "createdAt", sortDirection := "desc",
        pageNum := .int 1, limitNum := .int 10, skip := .int 0 }
      rfl (containsDefault "salary" (some "50k")) (by decide)).2.2.1 rfl⟩

/-- C10: in `getApplications` and `getApplicationsByJob`, for every request that
passes the identifier and pagination checks, the `where` object is the owner
clause (`candidateId`, respectively `jobId`) together with `status` equal to the
query value when that value is one of pending, accepted, rejected, and with no
`status` key for any other value or none; and the status value never causes a
rejection: replacing it by any value leaves every early response unchanged. -/
theorem status_filter (req : Req) :
    (∀ l, getApplicationsQuery req = .ok l →
      l.whereClause =
        { candidateId := some (parseInt (ofParam (req.params "candidateId"))), jobId := none,
          status := match req.query "status" with
            | some s => if s ∈ ["pending", "accepted", "rejected"] then some s else none
            | none => none }) ∧
    (∀ l, getApplicationsByJobQuery req = .ok l →
      l.whereClause =
        { candidateId := none, jobId := some (parseInt (ofParam (req.params "jobId"))),
          status := match req.query "status" with
            | some s => if s ∈ ["pending", "accepted", "rejected"] then some s else none
            | none => none }) ∧
    (∀ (status : Option String) (r : Response),
      (getApplicationsQuery (req.setQuery "status" status) = .error r ↔
        getApplicationsQuery req = .error r) ∧
      (getApplicationsByJobQuery (req.setQuery "status" status) = .error r ↔
        getApplicationsByJobQuery req = .error r)) := by
  refine ⟨?_, ?_, ?_⟩
  · intro l h
    obtain ⟨c, pn, ln, sk, hc, _, _, _, _, _, _, _, hw⟩ := getApplicationsQuery_ok req l h
    rw [hw, hc, statusFilter_eq]
  · intro l h
    obtain ⟨c, pn, ln, sk, hc, _, _, _, _, _, _, _, hw⟩ := getApplicationsByJobQuery_ok req l h
    rw [hw, hc, statusFilter_eq]
  · intro status r
    have hp : (req.setQuery "status" status).query "page" = req.query "page" := by
      simp [Req.setQuery]
    have hl : (req.setQuery "status" status).query "limit" = req.query "limit" := by
      simp [Req.setQuery]
    have hparams : (req.setQuery "status" status).params = req.params := rfl
    refine ⟨?_, ?_⟩
    · rw [getApplicationsQuery_error, getApplicationsQuery_error, hp, hl, hparams]
    · rw [getApplicationsByJobQuery_error, getApplicationsByJobQuery_error, hp, hl, hparams]

/-- Witness of C10 at `getApplicationsByJob` for job 4 with `?status=archived`:
the request is served and the `where` object is the owner clause alone. -/
theorem status_filter_witness :
    getApplicationsByJobQuery (Req.ofLists [("jobId", "4")] [("status", "archived")]) =
      .ok { whereClause := { candidateId := none, jobId := some (.int 4), status := none },
            sortField := "createdAt", sortDirection := "desc",
            pageNum := .int 1, limitNum := .int 10, skip := .int 0 } ∧
    ({ candidateId := none, jobId := some (.int 4), status := none } : ApplicationWhere) =
      { candidateId := none,
        jobId := some (parseInt (ofParam
          ((Req.ofLists [("jobId", "4")] [("status", "archived")]).params "jobId"))),
        status := match (Req.ofLists [("jobId", "4")] [("status", "archived")]).query "status" with
          | some s => if s ∈ ["pending", "accepted", "rejected"] then some s else none
          | none => none } :=
  ⟨rfl,
   (status_filter (Req.ofLists [("jobId", "4")] [("status", "archived")])).2.1
     { whereClause := { candidateId := none, jobId := some (.int 4), status := none },
       sortField := "createdAt", sortDirection := "desc",
       pageNum := .int 1, limitNum := .int 10, skip := .int 0 } rfl⟩

/-! ## Handlers: unfolded form

Each handler, with the calls of the database client unfolded: the response, the
store and the calls it issued, by cases on the results of the persistence
layer. -/

theorem createJob_eq (env : Env) (store : Store) (req : Req) :
    createJob env store req = (
      let title := req.body "title"
      let company := req.body "company"
      let location := req.body "location"
      let description := req.body "description"
      let requirements := req.body "requirements"
      let salary := req.body "salary"
      let type := req.body "type"
      let hrId := req.params "hrId"
      if !title.truthy || !company.truthy || !location.truthy || !description.truthy ||
          !requirements.truthy then
        respond 400 (.message "All required fields must be filled") store []
      else
        let sanitizedData : SanitizedData :=
          { title := trimOrEmpty title,
            company := trimOrEmpty company,
            location := trimOrEmpty location,
            description := trimOrEmpty description,
            requirements := trimOrEmpty requirements,
            salary := match salary with
              | .str s => if salary.truthy then some (jsTrim s) else none
              | _ => none,
            type := match type with
              | .str s => if type.truthy then jsTrim s else "full-time"
              | _ => "full-time" }
        let hrIdNum := parseInt (ofParam hrId)
        if !Num.isInteger hrIdNum || Num.lt hrIdNum (.int 1) then
          respond 400 (.message "Invalid HR ID") store []
        else
          let data : JobData :=
            { title := sanitizedData.title,
              company := sanitizedData.company,
              location := sanitizedData.location,
              description := sanitizedData.description,
              requirements := sanitizedData.requirements,
              salary := sanitizedData.salary,
              type := sanitizedData.type,
              hrId := hrIdNum }
          match prisma.jobCreate env store data with
          | .ok (job, store2) =>
            respond 201 (.messageJob "Job created successfully" job) store2 [.jobCreate data]
          | .error e =>
            respond 500 (.message ("Server Error: " ++ e)) store [.jobCreate data]) := by
  unfold createJob
  simp only [Db.start, Db.send, prisma.job.create, Db.write, List.nil_append]
  split
  · rfl
  · split
    · rfl
    · generalize prisma.jobCreate env store _ = r
      cases r with
      | error e => rfl
      | ok p => rfl

theorem getJobs_eq (env : Env) (store : Store) (req : Req) :
    getJobs env store req = (
      match getJobsQuery req with
      | .error r => respond r.status (.message r.message) store []
      | .ok l =>
        let calls : List Call :=
          [.jobFindMany l.whereClause l.sortField l.sortDirection l.skip l.limitNum,
           .jobCount l.whereClause]
        match prisma.jobFindMany env store l.whereClause l.sortField l.sortDirection l.skip
            l.limitNum,
          prisma.jobCount env store l.whereClause with
        | .ok jobs, .ok total =>
          respond 200
            (.jobs jobs
              { page := l.pageNum, limit := l.limitNum, total := total,
                pages := Num.ceilDiv (.int total) l.limitNum }
              (some { search := req.query "search", location := req.query "location",
                      company := req.query "company", type := req.query "type",
                      skills := req.query "skills", salaryMin := req.query "salaryMin",
                      salaryMax := req.query "salaryMax", sortBy := l.sortField,
                      sortOrder := l.sortDirection }))
            store calls
        | .error _, _ => respond 500 (.message "Server Error") store calls
        | .ok _, .error _ => respond 500 (.message "Server Error") store calls) := by
  unfold getJobs
  cases getJobsQuery req with
  | error r => rfl
  | ok l =>
    simp only [Db.start, Db.send, promiseAll, prisma.job.findMany, prisma.job.count,
      prisma.application.findMany, prisma.application.count, Db.read, List.nil_append,
      List.cons_append]
    cases prisma.jobFindMany env store l.whereClause l.sortField l.sortDirection l.skip
        l.limitNum <;>
      cases prisma.jobCount env store l.whereClause <;> rfl

theorem getJobById_eq (env : Env) (store : Store) (req : Req) :
    getJobById env store req = (
      let id := req.params "id"
      let jobId := parseInt (ofParam id)
      if !Num.isInteger jobId || Num.lt jobId (.int 1) then
        respond 400 (.message "Invalid job ID") store []
      else
        match prisma.jobFindUnique env store jobId true with
        | .ok none => respond 404 (.message "Job not found") store [.jobFindUnique jobId true]
        | .ok (some job) =>
          respond 200 (.job (includeHr store job)) store [.jobFindUnique jobId true]
        | .error _ => respond 500 (.message "Server Error") store [.jobFindUnique jobId true]) := by
  unfold getJobById
  simp only [Db.start, Db.send, prisma.job.findUnique, Db.read, List.nil_append]

theorem updateJob_eq (env : Env) (store : Store) (req : Req) :
    updateJob env store req = (
      let id := req.params "id"
      let data : JobUpdate :=
        { title := req.body "title", company := req.body "company",
          location := req.body "location", description := req.body "description",
          requirements := req.body "requirements", salary := req.body "salary",
          type := req.body "type" }
      let jobId := parseInt (ofParam id)
      if !Num.isInteger jobId || Num.lt jobId (.int 1) then
        respond 400 (.message "Invalid job ID") store []
      else
        match prisma.jobUpdate env store jobId data with
        | .ok (job, store2) =>
          respond 200 (.messageJob "Job updated successfully" job) store2 [.jobUpdate jobId data]
        | .error _ => respond 500 (.message "Server Error") store [.jobUpdate jobId data]) := by
  unfold updateJob
  simp only [Db.start, Db.send, promiseAll, prisma.job.findMany, prisma.job.count,
    prisma.job.findUnique, prisma.job.create, prisma.job.update, prisma.job.delete,
    prisma.users.findUnique, prisma.application.findUniquePair,
    prisma.application.findUnique, prisma.application.create, prisma.application.findMany,
    prisma.application.count, prisma.application.update, prisma.application.delete,
    Db.read, Db.write, Db.remove, List.nil_append, List.cons_append]
  repeat' split
  all_goals (first | rfl | simp_all)

theorem deleteJob_eq (env : Env) (store : Store) (req : Req) :
    deleteJob env store req = (
      let id := req.params "id"
      let jobId := parseInt (ofParam id)
      if !Num.isInteger jobId || Num.lt jobId (.int 1) then
        respond 400 (.message "Invalid job ID") store []
      else
        match prisma.jobFindUnique env store jobId false with
        | .error _ => respond 500 (.message "Server Error") store [.jobFindUnique jobId false]
        | .ok none => respond 404 (.message "Job not found") store [.jobFindUnique jobId false]
        | .ok (some _) =>
          match prisma.jobDelete env store jobId with
          | .ok store2 =>
            respond 200 (.message "Job deleted successfully") store2
              [.jobFindUnique jobId false, .jobDelete jobId]
          | .error _ =>
            respond 500 (.message "Server Error") store
              [.jobFindUnique jobId false, .jobDelete jobId]) := by
  unfold deleteJob
  simp only [Db.start, Db.send, promiseAll, prisma.job.findMany, prisma.job.count,
    prisma.job.findUnique, prisma.job.create, prisma.job.update, prisma.job.delete,
    prisma.users.findUnique, prisma.application.findUniquePair,
    prisma.application.findUnique, prisma.application.create, prisma.application.findMany,
    prisma.application.count, prisma.application.update, prisma.application.delete,
    Db.read, Db.write, Db.remove, List.nil_append, List.cons_append]
  repeat' split
  all_goals (first | rfl | simp_all)

theorem applyForJob_eq (env : Env) (store : Store) (req : Req) :
    applyForJob env store req = (
      let jobId := req.params "jobId"
      let candidateId := req.params "candidateId"
      let jobIdNum := parseInt (ofParam jobId)
      let candidateIdNum := parseInt (ofParam candidateId)
      if !Num.isInteger jobIdNum || Num.lt jobIdNum (.int 1) then
        respond 400 (.message "Invalid job ID") store []
      else if !Num.isInteger candidateIdNum || Num.lt candidateIdNum (.int 1) then
        respond 400 (.message "Invalid candidate ID") store []
      else
        let reads : List Call := [.jobFindUnique jobIdNum false, .usersFindUnique candidateIdNum]
        match prisma.jobFindUnique env store jobIdNum false,
          prisma.usersFindUnique env store candidateIdNum with
        | .error e, .ok _ => respond 500 (.message ("Server Error: " ++ e)) store reads
        | .ok _, .error e => respond 500 (.message ("Server Error: " ++ e)) store reads
        | .error e1, .error e2 =>
          respond 500 (.message ("Server Error: " ++ if env.race store reads then e1 else e2))
            store reads
        | .ok none, .ok _ => respond 404 (.message "Job not found") store reads
        | .ok (some _), .ok none => respond 404 (.message "Candidate not found") store reads
        | .ok (some _), .ok (some _) =>
          let reads2 := reads ++ [.applicationFindUniquePair jobIdNum candidateIdNum]
          match prisma.applicationFindUniquePair env store jobIdNum candidateIdNum with
          | .error e => respond 500 (.message ("Server Error: " ++ e)) store reads2
          | .ok (some _) => respond 400 (.message "Already applied for this job") store reads2
          | .ok none =>
            let calls := reads2 ++ [.applicationCreate jobIdNum candidateIdNum "pending"]
            match prisma.applicationCreate env store jobIdNum candidateIdNum "pending" with
            | .ok (application, store2) =>
              respond 201 (.messageApplication "Application submitted successfully" application)
                store2 calls
            | .error e => respond 500 (.message ("Server Error: " ++ e)) store calls) := by
  unfold applyForJob
  simp only [Db.start, Db.send, promiseAll, prisma.job.findMany, prisma.job.count,
    prisma.job.findUnique, prisma.job.create, prisma.job.update, prisma.job.delete,
    prisma.users.findUnique, prisma.application.findUniquePair,
    prisma.application.findUnique, prisma.application.create, prisma.application.findMany,
    prisma.application.count, prisma.application.update, prisma.application.delete,
    Db.read, Db.write, Db.remove, List.nil_append, List.cons_append]
  repeat' split
  all_goals (first | rfl | simp_all)

theorem getApplications_eq (env : Env) (store : Store) (req : Req) :
    getApplications env store req = (
      match getApplicationsQuery req with
      | .error r => respond r.status (.message r.message) store []
      | .ok l =>
        let calls : List Call :=
          [.applicationFindMany l.whereClause l.sortField l.sortDirection l.skip l.limitNum,
           .applicationCount l.whereClause]
        match prisma.applicationFindMany env store l.whereClause l.sortField l.sortDirection
            l.skip l.limitNum true false,
          prisma.applicationCount env store l.whereClause with
        | .ok applications, .ok total =>
          respond 200
            (.applications applications
              { page := l.pageNum, limit := l.limitNum, total := total,
                pages := Num.ceilDiv (.int total) l.limitNum })
            store calls
        | .error _, _ => respond 500 (.message "Server Error") store calls
        | .ok _, .error _ => respond 500 (.message "Server Error") store calls) := by
  unfold getApplications
  cases getApplicationsQuery req with
  | error r => rfl
  | ok l =>
    simp only [Db.start, Db.send, promiseAll, prisma.job.findMany, prisma.job.count,
      prisma.application.findMany, prisma.application.count, Db.read, List.nil_append,
      List.cons_append]
    cases prisma.applicationFindMany env store l.whereClause l.sortField l.sortDirection l.skip
        l.limitNum true false <;>
      cases prisma.applicationCount env store l.whereClause <;> rfl

theorem getJobsByHR_eq (env : Env) (store : Store) (req : Req) :
    getJobsByHR env store req = (
      match getJobsByHRQuery req with
      | .error r => respond r.status (.message r.message) store []
      | .ok l =>
        let calls : List Call :=
          [.jobFindMany l.whereClause l.sortField l.sortDirection l.skip l.limitNum,
           .jobCount l.whereClause]
        match prisma.jobFindMany env store l.whereClause l.sortField l.sortDirection l.skip
            l.limitNum,
          prisma.jobCount env store l.whereClause with
        | .ok jobs, .ok total =>
          respond 200
            (.jobs jobs
              { page := l.pageNum, limit := l.limitNum, total := total,
                pages := Num.ceilDiv (.int total) l.limitNum }
              none)
            store calls
        | .error e, .ok _ =>
          respond 500 (.message ("Database connection error: " ++ e)) store calls
        | .ok _, .error e =>
          respond 500 (.message ("Database connection error: " ++ e)) store calls
        | .error e1, .error e2 =>
          respond 500
            (.message ("Database connection error: " ++ if env.race store calls then e1 else e2))
            store calls) := by
  unfold getJobsByHR
  cases getJobsByHRQuery req with
  | error r => rfl
  | ok l =>
    simp only [Db.start, Db.send, promiseAll, prisma.job.findMany, prisma.job.count,
      prisma.application.findMany, prisma.application.count, Db.read, List.nil_append,
      List.cons_append]
    cases prisma.jobFindMany env store l.whereClause l.sortField l.sortDirection l.skip
        l.limitNum <;>
      cases prisma.jobCount env store l.whereClause <;> rfl

theorem getApplicationsByJob_eq (env : Env) (store : Store) (req : Req) :
    getApplicationsByJob env store req = (
      match getApplicationsByJobQuery req with
      | .error r => respond r.status (.message r.message) store []
      | .ok l =>
        let calls : List Call :=
          [.applicationFindMany l.whereClause l.sortField l.sortDirection l.skip l.limitNum,
           .applicationCount l.whereClause]
        match prisma.applicationFindMany env store l.whereClause l.sortField l.sortDirection
            l.skip l.limitNum false true,
          prisma.applicationCount env store l.whereClause with
        | .ok applications, .ok total =>
          respond 200
            (.applications applications
              { page := l.pageNum, limit := l.limitNum, total := total,
                pages := Num.ceilDiv (.int total) l.limitNum })
            store calls
        | .error _, _ => respond 500 (.message "Server Error") store calls
        | .ok _, .error _ => respond 500 (.message "Server Error") store calls) := by
  unfold getApplicationsByJob
  cases getApplicationsByJobQuery req with
  | error r => rfl
  | ok l =>
    simp only [Db.start, Db.send, promiseAll, prisma.job.findMany, prisma.job.count,
      prisma.application.findMany, prisma.application.count, Db.read, List.nil_append,
      List.cons_append]
    cases prisma.applicationFindMany env store l.whereClause l.sortField l.sortDirection l.skip
        l.limitNum false true <;>
      cases prisma.applicationCount env store l.whereClause <;> rfl

theorem updateApplicationStatus_eq (env : Env) (store : Store) (req : Req) :
    updateApplicationStatus env store req = (
      let applicationId := req.params "applicationId"
      let status := req.body "status"
      let response := req.body "response"
      let appId := parseInt (ofParam applicationId)
      if !Num.isInteger appId || Num.lt appId (.int 1) then
        respond 400 (.message "Invalid application ID") store []
      else if !statusIncluded status then
        respond 400 (.message "Invalid status") store []
      else
        let calls : List Call := [.applicationUpdate appId status (orNull response)]
        match prisma.applicationUpdate env store appId status (orNull response) with
        | .ok (application, store2) =>
          respond 200 (.messageApplication "Application status updated successfully" application)
            store2 calls
        | .error e => respond 500 (.message ("Server Error: " ++ e)) store calls) := by
  unfold updateApplicationStatus
  simp only [Db.start, Db.send, promiseAll, prisma.job.findMany, prisma.job.count,
    prisma.job.findUnique, prisma.job.create, prisma.job.update, prisma.job.delete,
    prisma.users.findUnique, prisma.application.findUniquePair,
    prisma.application.findUnique, prisma.application.create, prisma.application.findMany,
    prisma.application.count, prisma.application.update, prisma.application.delete,
    Db.read, Db.write, Db.remove, List.nil_append, List.cons_append]
  repeat' split
  all_goals (first | rfl | simp_all)

theorem deleteApplication_eq (env : Env) (store : Store) (req : Req) :
    deleteApplication env store req = (
      let applicationId := req.params "applicationId"
      let candidateId := req.params "candidateId"
      let applicationIdNum := parseInt (ofParam applicationId)
      let candidateIdNum := parseInt (ofParam candidateId)
      if !Num.isInteger applicationIdNum || Num.lt applicationIdNum (.int 1) then
        respond 400 (.message "Invalid application ID") store []
      else if !Num.isInteger candidateIdNum || Num.lt candidateIdNum (.int 1) then
        respond 400 (.message "Invalid candidate ID") store []
      else
        match prisma.applicationFindUnique env store applicationIdNum with
        | .error _ =>
          respond 500 (.message "Server Error") store [.applicationFindUnique applicationIdNum]
        | .ok none =>
          respond 404 (.message "Application not found") store
            [.applicationFindUnique applicationIdNum]
        | .ok (some application) =>
          if Num.int application.candidateId != candidateIdNum then
            respond 403 (.message "Unauthorized to delete this application") store
              [.applicationFindUnique applicationIdNum]
          else
            match prisma.applicationDelete env store applicationIdNum with
            | .ok store2 =>
              respond 200 (.message "Application deleted successfully") store2
                [.applicationFindUnique applicationIdNum, .applicationDelete applicationIdNum]
            | .error _ =>
              respond 500 (.message "Server Error") store
                [.applicationFindUnique applicationIdNum, .applicationDelete applicationIdNum]) := by
  unfold deleteApplication
  simp only [Db.start, Db.send, promiseAll, prisma.job.findMany, prisma.job.count,
    prisma.job.findUnique, prisma.job.create, prisma.job.update, prisma.job.delete,
    prisma.users.findUnique, prisma.application.findUniquePair,
    prisma.application.findUnique, prisma.application.create, prisma.application.findMany,
    prisma.application.count, prisma.application.update, prisma.application.delete,
    Db.read, Db.write, Db.remove, List.nil_append, List.cons_append]
  repeat' split
  all_goals (first | rfl | simp_all)

/-! ## Handlers: auxiliary facts -/

theorem ceilDiv_isPageCount (total : Nat) (L : Int) (h1 : 1 ≤ L) (h100 : L ≤ 100) :
    IsPageCount total (.int L) (Num.ceilDiv (.int (total : Int)) (.int L)) := by
  have hL : 0 < L := by omega
  have hne : L ≠ 0 := by omega
  have hlow : (-(total : Int)) / L * L ≤ -(total : Int) := Int.ediv_mul_le _ hne
  have hhigh : -(total : Int) < ((-(total : Int)) / L + 1) * L :=
    Int.lt_ediv_add_one_mul_self _ hL
  have hle : (total : Int) ≤ -((-(total : Int)) / L) * L := by
    have : -((-(total : Int)) / L) * L = -((-(total : Int)) / L * L) := by ring
    omega
  have hlt : (-((-(total : Int)) / L) - 1) * L < (total : Int) := by
    have : (-((-(total : Int)) / L) - 1) * L = -(((-(total : Int)) / L + 1) * L) := by ring
    omega
  refine ⟨L, -((-(total : Int)) / L), rfl, ?_, h1, h100, ?_, hle, ?_, ?_⟩
  · simp only [Num.ceilDiv, hne, if_false, Int.fdiv_eq_ediv _ (le_of_lt hL)]
  · symm
    rw [Int.ceil_eq_iff]
    have hLq : (0 : ℚ) < (L : ℚ) := by exact_mod_cast hL
    constructor
    · rw [lt_div_iff₀ hLq]
      exact_mod_cast hlt
    · rw [div_le_iff₀ hLq]
      exact_mod_cast hle
  · intro q hq
    by_contra hcon
    have hq1 : q ≤ -((-(total : Int)) / L) - 1 := by omega
    have hmul : q * L ≤ (-((-(total : Int)) / L) - 1) * L :=
      Int.mul_le_mul_of_nonneg_right hq1 (le_of_lt hL)
    omega
  · intro h0
    subst h0
    simp

theorem paginate_nil {α : Type} (sk : Num) (t : Int)
    (hs : (∃ s : Int, sk = .int s ∧ 0 ≤ s) ∨ sk = .inf true) (ht : 0 ≤ t) :
    paginate sk (.int t) ([] : List α) = .ok [] := by
  have h2 : ¬ t < 0 := by omega
  rcases hs with ⟨s, rfl, hs0⟩ | rfl
  · have h : ¬ (s < 0 ∨ t < 0) := by omega
    simp [paginate, h]
  · simp [paginate, h2]

theorem validated_page (page limit : JSVal) (pn ln sk : Num)
    (h : validatePagination page limit = .ok pn ln sk) :
    ∃ p L : Int, pn = .int p ∧ ln = .int L ∧
      sk = Num.mul (Num.sub (.int p) (.int 1)) (.int L) ∧
      1 ≤ p ∧ 1 ≤ L ∧ L ≤ 100 ∧ ((∃ s : Int, sk = .int s ∧ 0 ≤ s) ∨ sk = .inf true) := by
  obtain ⟨p, L, _, _, h1, h2, h3, hpn, hln, hsk⟩ :=
    (validatePagination_ok_iff page limit pn ln sk).1 h
  refine ⟨p, L, hpn, hln, hsk, h1, h2, h3, ?_⟩
  rw [hsk]
  exact product_nonneg p L h1 h2

theorem getJobsQuery_page (req : Req) (l : Listing JobWhere) (h : getJobsQuery req = .ok l) :
    ∃ p L : Int, l.pageNum = .int p ∧ l.limitNum = .int L ∧
      l.skip = Num.mul (Num.sub (.int p) (.int 1)) (.int L) ∧
      1 ≤ p ∧ 1 ≤ L ∧ L ≤ 100 ∧
      ((∃ s : Int, l.skip = .int s ∧ 0 ≤ s) ∨ l.skip = .inf true) := by
  obtain ⟨pn, ln, sk, hv, h1, h2, h3, _⟩ := getJobsQuery_ok req l h
  rw [h1, h2, h3]
  exact validated_page _ _ _ _ _ hv

theorem getJobsByHRQuery_page (req : Req) (l : Listing JobWhere)
    (h : getJobsByHRQuery req = .ok l) :
    ∃ p L : Int, l.pageNum = .int p ∧ l.limitNum = .int L ∧
      l.skip = Num.mul (Num.sub (.int p) (.int 1)) (.int L) ∧
      1 ≤ p ∧ 1 ≤ L ∧ L ≤ 100 ∧
      ((∃ s : Int, l.skip = .int s ∧ 0 ≤ s) ∨ l.skip = .inf true) := by
  obtain ⟨c, pn, ln, sk, _, _, hv, h1, h2, h3, _⟩ := getJobsByHRQuery_ok req l h
  rw [h1, h2, h3]
  exact validated_page _ _ _ _ _ hv

theorem getApplicationsQuery_page (req : Req) (l : Listing ApplicationWhere)
    (h : getApplicationsQuery req = .ok l) :
    ∃ p L : Int, l.pageNum = .int p ∧ l.limitNum = .int L ∧
      l.skip = Num.mul (Num.sub (.int p) (.int 1)) (.int L) ∧
      1 ≤ p ∧ 1 ≤ L ∧ L ≤ 100 ∧
      ((∃ s : Int, l.skip = .int s ∧ 0 ≤ s) ∨ l.skip = .inf true) := by
  obtain ⟨c, pn, ln, sk, _, _, hv, h1, h2, h3, _⟩ := getApplicationsQuery_ok req l h
  rw [h1, h2, h3]
  exact validated_page _ _ _ _ _ hv

theorem getApplicationsByJobQuery_page (req : Req) (l : Listing ApplicationWhere)
    (h : getApplicationsByJobQuery req = .ok l) :
    ∃ p L : Int, l.pageNum = .int p ∧ l.limitNum = .int L ∧
      l.skip = Num.mul (Num.sub (.int p) (.int 1)) (.int L) ∧
      1 ≤ p ∧ 1 ≤ L ∧ L ≤ 100 ∧
      ((∃ s : Int, l.skip = .int s ∧ 0 ≤ s) ∨ l.skip = .inf true) := by
  obtain ⟨c, pn, ln, sk, _, _, hv, h1, h2, h3, _⟩ := getApplicationsByJobQuery_ok req l h
  rw [h1, h2, h3]
  exact validated_page _ _ _ _ _ hv

theorem isPageCount_of_limit (total : Nat) (limit : Num)
    (h : ∃ L : Int, limit = .int L ∧ 1 ≤ L ∧ L ≤ 100) :
    IsPageCount total limit (Num.ceilDiv (.int (total : Int)) limit) := by
  obtain ⟨L, rfl, h1, h100⟩ := h
  exact ceilDiv_isPageCount total L h1 h100

/-! ## Listing query executor: the claims -/

/-- C11: in every listing handler (`getJobs`, `getJobsByHR`, `getApplications`,
`getApplicationsByJob`), for a request that passes validation and whose two
reads succeed with `total` matching records, the response is HTTP 200 and its
`pagination.pages` is `ceil(total / limit)` for the validated limit in
`[1,100]`: the least integer `p` with `p * limit >= total`, which is 0 when
`total = 0`. A `getJobs` request whose filter matches no job, on a persistence
layer that does not fail, yields HTTP 200 with an empty `jobs` list, total 0 and
pages 0. -/
theorem listing_page_count (env : Env) (store : Store) (req : Req) :
    (∀ l jobs total, getJobsQuery req = .ok l →
      prisma.jobFindMany env store l.whereClause l.sortField l.sortDirection l.skip
        l.limitNum = .ok jobs →
      prisma.jobCount env store l.whereClause = .ok total →
      ∃ pages filters,
        (getJobs env store req).reply =
          { status := 200,
            body := .jobs jobs { page := l.pageNum, limit := l.limitNum, total := total,
                                 pages := pages } filters } ∧
        IsPageCount total l.limitNum pages) ∧
    (∀ l jobs total, getJobsByHRQuery req = .ok l →
      prisma.jobFindMany env store l.whereClause l.sortField l.sortDirection l.skip
        l.limitNum = .ok jobs →
      prisma.jobCount env store l.whereClause = .ok total →
      ∃ pages filters,
        (getJobsByHR env store req).reply =
          { status := 200,
            body := .jobs jobs { page := l.pageNum, limit := l.limitNum, total := total,
                                 pages := pages } filters } ∧
        IsPageCount total l.limitNum pages) ∧
    (∀ l applications total, getApplicationsQuery req = .ok l →
      prisma.applicationFindMany env store l.whereClause l.sortField l.sortDirection l.skip
        l.limitNum true false = .ok applications →
      prisma.applicationCount env store l.whereClause = .ok total →
      ∃ pages,
        (getApplications env store req).reply =
          { status := 200,
            body := .applications applications
              { page := l.pageNum, limit := l.limitNum, total := total, pages := pages } } ∧
        IsPageCount total l.limitNum pages) ∧
    (∀ l applications total, getApplicationsByJobQuery req = .ok l →
      prisma.applicationFindMany env store l.whereClause l.sortField l.sortDirection l.skip
        l.limitNum false true = .ok applications →
      prisma.applicationCount env store l.whereClause = .ok total →
      ∃ pages,
        (getApplicationsByJob env store req).reply =
          { status := 200,
            body := .applications applications
              { page := l.pageNum, limit := l.limitNum, total := total, pages := pages } } ∧
        IsPageCount total l.limitNum pages) ∧
    (∀ l, getJobsQuery req = .ok l → (∀ c, env.fault store c = none) →
      (∀ j ∈ store.jobs, matchesJob env l.whereClause j = false) →
      ∃ filters,
        (getJobs env store req).reply =
          { status := 200,
            body := .jobs [] { page := l.pageNum, limit := l.limitNum, total := 0,
                               pages := .int 0 } filters }) := by
  refine ⟨?_, ?_, ?_, ?_, ?_⟩
  · intro l jobs total hq h1 h2
    obtain ⟨p, L, _, hL, _, _, hL1, hL100, _⟩ := getJobsQuery_page req l hq
    refine ⟨Num.ceilDiv (.int (total : Int)) l.limitNum,
      (some { search := req.query "search", location := req.query "location",
              company := req.query "company", type := req.query "type",
              skills := req.query "skills", salaryMin := req.query "salaryMin",
              salaryMax := req.query "salaryMax", sortBy := l.sortField,
              sortOrder := l.sortDirection }), ?_,
      isPageCount_of_limit total l.limitNum ⟨L, hL, hL1, hL100⟩⟩
    simp only [getJobs, hq, Db.start, Db.send, promiseAll, prisma.job.findMany,
      prisma.job.count, Db.read, List.nil_append, List.cons_append, h1, h2,
      respond]
  · intro l jobs total hq h1 h2
    obtain ⟨p, L, _, hL, _, _, hL1, hL100, _⟩ := getJobsByHRQuery_page req l hq
    refine ⟨Num.ceilDiv (.int (total : Int)) l.limitNum, none, ?_,
      isPageCount_of_limit total l.limitNum ⟨L, hL, hL1, hL100⟩⟩
    simp only [getJobsByHR, hq, Db.start, Db.send, promiseAll, prisma.job.findMany,
      prisma.job.count, Db.read, List.nil_append, List.cons_append, h1, h2,
      respond]
  · intro l apps total hq h1 h2
    obtain ⟨p, L, _, hL, _, _, hL1, hL100, _⟩ := getApplicationsQuery_page req l hq
    refine ⟨Num.ceilDiv (.int (total : Int)) l.limitNum, ?_,
      isPageCount_of_limit total l.limitNum ⟨L, hL, hL1, hL100⟩⟩
    simp only [getApplications, hq, Db.start, Db.send, promiseAll, prisma.application.findMany,
      prisma.application.count, Db.read, List.nil_append, List.cons_append, h1, h2,
      respond]
  · intro l apps total hq h1 h2
    obtain ⟨p, L, _, hL, _, _, hL1, hL100, _⟩ := getApplicationsByJobQuery_page req l hq
    refine ⟨Num.ceilDiv (.int (total : Int)) l.limitNum, ?_,
      isPageCount_of_limit total l.limitNum ⟨L, hL, hL1, hL100⟩⟩
    simp only [getApplicationsByJob, hq, Db.start, Db.send, promiseAll, prisma.application.findMany,
      prisma.application.count, Db.read, List.nil_append, List.cons_append, h1, h2,
      respond]
  · intro l hq hfault hnone
    obtain ⟨p, L, _, hL, _, _, hL1, hL100, hs0⟩ := getJobsQuery_page req l hq
    have hfilter : store.jobs.filter (matchesJob env l.whereClause) = [] := by
      rw [List.filter_eq_nil_iff]
      intro j hj
      rw [hnone j hj]
      exact Bool.noConfusion
    have h1 : prisma.jobFindMany env store l.whereClause l.sortField l.sortDirection l.skip
        l.limitNum = .ok [] := by
      simp only [prisma.jobFindMany, hfault, hfilter, sortWith, List.foldr_nil, hL,
        paginate_nil _ _ hs0 (by omega : (0 : Int) ≤ L), List.map_nil]
    have h2 : prisma.jobCount env store l.whereClause = .ok 0 := by
      simp only [prisma.jobCount, hfault, hfilter, List.length_nil]
    refine ⟨
      (some { search := req.query "search", location := req.query "location",
              company := req.query "company", type := req.query "type",
              skills := req.query "skills", salaryMin := req.query "salaryMin",
              salaryMax := req.query "salaryMax", sortBy := l.sortField,
              sortOrder := l.sortDirection }), ?_⟩
    simp only [getJobs, hq, Db.start, Db.send, promiseAll, prisma.job.findMany,
      prisma.job.count, Db.read, List.nil_append, List.cons_append, h1, h2,
      respond]
    have hne : L ≠ 0 := by omega
    simp [hL, Num.ceilDiv, hne]

/-- Witness of C11 on the sample store: `getJobs` with `?search=zzz` matches no
job and returns an empty first page with total 0 and pages 0. -/
theorem listing_page_count_witness :
    ∃ filters,
      (getJobs Env.reference Store.sample (Req.ofLists [] [("search", "zzz")])).reply =
        { status := 200,
          body := .jobs [] { page := .int 1, limit := .int 10, total := 0, pages := .int 0 }
            filters } :=
  (listing_page_count Env.reference Store.sample (Req.ofLists [] [("search", "zzz")])).2.2.2.2
    { whereClause :=
        { AND := some
            [.OR [containsInsensitive "title" (some "zzz"),
                  containsInsensitive "description" (some "zzz"),
                  containsInsensitive "requirements" (some "zzz")]],
          hrId := none },
      sortField := "createdAt", sortDirection := "desc",
      pageNum := .int 1, limitNum := .int 10, skip := .int 0 }
    rfl (fun _ => rfl) (by decide)

theorem parsesPositive_iff (v : Option String) :
    parsesPositive v = true ↔ ∃ c : Int, parseInt (ofParam v) = .int c ∧ 1 ≤ c := by
  unfold parsesPositive
  cases parseInt (ofParam v) with
  | NaN => simp
  | int c => simp
  | inf s => simp

theorem idCheck_eq (v : Option String) :
    (!Num.isInteger (parseInt (ofParam v)) || Num.lt (parseInt (ofParam v)) (.int 1)) =
      !parsesPositive v := by
  unfold parsesPositive
  cases parseInt (ofParam v) with
  | NaN => simp [Num.isInteger]
  | int c =>
    by_cases h : c < 1
    · have h2 : ¬ 1 ≤ c := by omega
      simp [Num.isInteger, Num.lt, h, h2]
    · have h2 : 1 ≤ c := by omega
      simp [Num.isInteger, Num.lt, h, h2]
  | inf s => simp [Num.isInteger]

theorem respond_isMessage (status : Nat) (m : String) (store : Store) (calls : List Call) :
    (respond status (.message m) store calls).isMessage status :=
  ⟨rfl, m, rfl⟩

theorem respond_untouched (status : Nat) (body : Body) (store : Store) :
    (respond status body store []).untouched store :=
  ⟨rfl, rfl⟩

theorem getJobs_rejected (env : Env) (store : Store) (req : Req) (r : Response)
    (h : getJobsQuery req = .error r) :
    getJobs env store req = respond r.status (.message r.message) store [] := by
  simp only [getJobs_eq, h]

theorem getJobsByHR_rejected (env : Env) (store : Store) (req : Req) (r : Response)
    (h : getJobsByHRQuery req = .error r) :
    getJobsByHR env store req = respond r.status (.message r.message) store [] := by
  simp only [getJobsByHR_eq, h]

theorem getApplications_rejected (env : Env) (store : Store) (req : Req) (r : Response)
    (h : getApplicationsQuery req = .error r) :
    getApplications env store req = respond r.status (.message r.message) store [] := by
  simp only [getApplications_eq, h]

theorem getApplicationsByJob_rejected (env : Env) (store : Store) (req : Req) (r : Response)
    (h : getApplicationsByJobQuery req = .error r) :
    getApplicationsByJob env store req = respond r.status (.message r.message) store [] := by
  simp only [getApplicationsByJob_eq, h]

theorem getJobsQuery_rejects (req : Req)
    (h : ∃ msg, validatePagination (withDefault (req.query "page") 1)
      (withDefault (req.query "limit") 10) = .error msg) :
    ∃ m, getJobsQuery req = .error { status := 400, message := m } := by
  obtain ⟨msg, hmsg⟩ := h
  exact ⟨msg, (getJobsQuery_error req _).2 ⟨msg, hmsg, rfl⟩⟩

theorem getJobsByHRQuery_rejects (req : Req)
    (h : parsesPositive (req.params "hrId") = false ∨
      ∃ msg, validatePagination (withDefault (req.query "page") 1)
        (withDefault (req.query "limit") 10) = .error msg) :
    ∃ m, getJobsByHRQuery req = .error { status := 400, message := m } := by
  by_cases hid : parsesPositive (req.params "hrId") = true
  · rcases h with h | ⟨msg, hmsg⟩
    · rw [hid] at h
      exact Bool.noConfusion h
    · exact ⟨msg, (getJobsByHRQuery_error req _).2
        (Or.inr ⟨(parsesPositive_iff _).1 hid, msg, hmsg, rfl⟩)⟩
  · exact ⟨_, (getJobsByHRQuery_error req _).2
      (Or.inl ⟨fun hc => hid ((parsesPositive_iff _).2 hc), rfl⟩)⟩

theorem getApplicationsQuery_rejects (req : Req)
    (h : parsesPositive (req.params "candidateId") = false ∨
      ∃ msg, validatePagination (withDefault (req.query "page") 1)
        (withDefault (req.query "limit") 10) = .error msg) :
    ∃ m, getApplicationsQuery req = .error { status := 400, message := m } := by
  by_cases hid : parsesPositive (req.params "candidateId") = true
  · rcases h with h | ⟨msg, hmsg⟩
    · rw [hid] at h
      exact Bool.noConfusion h
    · exact ⟨msg, (getApplicationsQuery_error req _).2
        (Or.inr ⟨(parsesPositive_iff _).1 hid, msg, hmsg, rfl⟩)⟩
  · exact ⟨_, (getApplicationsQuery_error req _).2
      (Or.inl ⟨fun hc => hid ((parsesPositive_iff _).2 hc), rfl⟩)⟩

theorem getApplicationsByJobQuery_rejects (req : Req)
    (h : parsesPositive (req.params "jobId") = false ∨
      ∃ msg, validatePagination (withDefault (req.query "page") 1)
        (withDefault (req.query "limit") 10) = .error msg) :
    ∃ m, getApplicationsByJobQuery req = .error { status := 400, message := m } := by
  by_cases hid : parsesPositive (req.params "jobId") = true
  · rcases h with h | ⟨msg, hmsg⟩
    · rw [hid] at h
      exact Bool.noConfusion h
    · exact ⟨msg, (getApplicationsByJobQuery_error req _).2
        (Or.inr ⟨(parsesPositive_iff _).1 hid, msg, hmsg, rfl⟩)⟩
  · exact ⟨_, (getApplicationsByJobQuery_error req _).2
      (Or.inl ⟨fun hc => hid ((parsesPositive_iff _).2 hc), rfl⟩)⟩

theorem createJob_rejected (env : Env) (store : Store) (req : Req)
    (h : (req.body "title").truthy = false ∨ (req.body "company").truthy = false ∨
      (req.body "location").truthy = false ∨ (req.body "description").truthy = false ∨
      (req.body "requirements").truthy = false ∨ parsesPositive (req.params "hrId") = false) :
    ∃ m, createJob env store req = respond 400 (.message m) store [] := by
  rw [createJob_eq]
  simp only [idCheck_eq]
  by_cases hf : (!(req.body "title").truthy || !(req.body "company").truthy ||
      !(req.body "location").truthy || !(req.body "description").truthy ||
      !(req.body "requirements").truthy) = true
  · exact ⟨_, by rw [if_pos hf]⟩
  · rw [if_neg hf]
    have hid : parsesPositive (req.params "hrId") = false := by
      simp only [Bool.or_eq_true, Bool.not_eq_true', not_or, Bool.not_eq_false] at hf
      obtain ⟨⟨⟨⟨h1, h2⟩, h3⟩, h4⟩, h5⟩ := hf
      rcases h with h | h | h | h | h | h
      · rw [h1] at h; exact Bool.noConfusion h
      · rw [h2] at h; exact Bool.noConfusion h
      · rw [h3] at h; exact Bool.noConfusion h
      · rw [h4] at h; exact Bool.noConfusion h
      · rw [h5] at h; exact Bool.noConfusion h
      · exact h
    exact ⟨_, by simp only [hid, Bool.not_false, if_true]; rfl⟩

theorem getJobById_rejected (env : Env) (store : Store) (req : Req)
    (h : parsesPositive (req.params "id") = false) :
    getJobById env store req = respond 400 (.message "Invalid job ID") store [] := by
  simp only [getJobById_eq, idCheck_eq, h, Bool.not_false, if_true]

theorem updateJob_rejected (env : Env) (store : Store) (req : Req)
    (h : parsesPositive (req.params "id") = false) :
    updateJob env store req = respond 400 (.message "Invalid job ID") store [] := by
  simp only [updateJob_eq, idCheck_eq, h, Bool.not_false, if_true]

theorem deleteJob_rejected (env : Env) (store : Store) (req : Req)
    (h : parsesPositive (req.params "id") = false) :
    deleteJob env store req = respond 400 (.message "Invalid job ID") store [] := by
  simp only [deleteJob_eq, idCheck_eq, h, Bool.not_false, if_true]

theorem applyForJob_rejected (env : Env) (store : Store) (req : Req)
    (h : parsesPositive (req.params "jobId") = false ∨
      parsesPositive (req.params "candidateId") = false) :
    ∃ m, applyForJob env store req = respond 400 (.message m) store [] := by
  rw [applyForJob_eq]
  simp only [idCheck_eq]
  cases hj : parsesPositive (req.params "jobId") with
  | false => exact ⟨_, by simp only [Bool.not_false, if_true]; rfl⟩
  | true =>
    have hc : parsesPositive (req.params "candidateId") = false := by
      rcases h with h | h
      · rw [hj] at h; exact Bool.noConfusion h
      · exact h
    exact ⟨_, by simp only [hc, Bool.not_true, Bool.not_false, if_true, if_false,
      Bool.false_eq_true]; rfl⟩

theorem updateApplicationStatus_rejected (env : Env) (store : Store) (req : Req)
    (h : parsesPositive (req.params "applicationId") = false ∨
      statusIncluded (req.body "status") = false) :
    ∃ m, updateApplicationStatus env store req = respond 400 (.message m) store [] := by
  rw [updateApplicationStatus_eq]
  simp only [idCheck_eq]
  cases hj : parsesPositive (req.params "applicationId") with
  | false => exact ⟨_, by simp only [Bool.not_false, if_true]; rfl⟩
  | true =>
    have hc : statusIncluded (req.body "status") = false := by
      rcases h with h | h
      · rw [hj] at h; exact Bool.noConfusion h
      · exact h
    exact ⟨_, by simp only [hc, Bool.not_true, Bool.not_false, if_true, if_false,
      Bool.false_eq_true]; rfl⟩

theorem deleteApplication_rejected (env : Env) (store : Store) (req : Req)
    (h : parsesPositive (req.params "applicationId") = false ∨
      parsesPositive (req.params "candidateId") = false) :
    ∃ m, deleteApplication env store req = respond 400 (.message m) store [] := by
  rw [deleteApplication_eq]
  simp only [idCheck_eq]
  cases hj : parsesPositive (req.params "applicationId") with
  | false => exact ⟨_, by simp only [Bool.not_false, if_true]; rfl⟩
  | true =>
    have hc : parsesPositive (req.params "candidateId") = false := by
      rcases h with h | h
      · rw [hj] at h; exact Bool.noConfusion h
      · exact h
    exact ⟨_, by simp only [hc, Bool.not_true, Bool.not_false, if_true, if_false,
      Bool.false_eq_true]; rfl⟩

theorem rejected_props (o : Outcome) (store : Store)
    (h : ∃ m, o = respond 400 (.message m) store []) :
    o.isMessage 400 ∧ o.untouched store := by
  obtain ⟨m, rfl⟩ := h
  exact ⟨respond_isMessage 400 m store [], respond_untouched 400 _ store⟩

theorem getJobs_rejected_props (env : Env) (store : Store) (req : Req)
    (h : ∃ msg, validatePagination (withDefault (req.query "page") 1)
      (withDefault (req.query "limit") 10) = .error msg) :
    (getJobs env store req).isMessage 400 ∧ (getJobs env store req).untouched store := by
  obtain ⟨m, hm⟩ := getJobsQuery_rejects req h
  exact rejected_props _ store ⟨m, getJobs_rejected env store req _ hm⟩

theorem getJobsByHR_rejected_props (env : Env) (store : Store) (req : Req)
    (h : parsesPositive (req.params "hrId") = false ∨
      ∃ msg, validatePagination (withDefault (req.query "page") 1)
        (withDefault (req.query "limit") 10) = .error msg) :
    (getJobsByHR env store req).isMessage 400 ∧ (getJobsByHR env store req).untouched store := by
  obtain ⟨m, hm⟩ := getJobsByHRQuery_rejects req h
  exact rejected_props _ store ⟨m, getJobsByHR_rejected env store req _ hm⟩

theorem getApplications_rejected_props (env : Env) (store : Store) (req : Req)
    (h : parsesPositive (req.params "candidateId") = false ∨
      ∃ msg, validatePagination (withDefault (req.query "page") 1)
        (withDefault (req.query "limit") 10) = .error msg) :
    (getApplications env store req).isMessage 400 ∧
    (getApplications env store req).untouched store := by
  obtain ⟨m, hm⟩ := getApplicationsQuery_rejects req h
  exact rejected_props _ store ⟨m, getApplications_rejected env store req _ hm⟩

theorem getApplicationsByJob_rejected_props (env : Env) (store : Store) (req : Req)
    (h : parsesPositive (req.params "jobId") = false ∨
      ∃ msg, validatePagination (withDefault (req.query "page") 1)
        (withDefault (req.query "limit") 10) = .error msg) :
    (getApplicationsByJob env store req).isMessage 400 ∧
    (getApplicationsByJob env store req).untouched store := by
  obtain ⟨m, hm⟩ := getApplicationsByJobQuery_rejects req h
  exact rejected_props _ store ⟨m, getApplicationsByJob_rejected env store req _ hm⟩

/-! ## Validation and error responses: the claims -/

/-- C12: in every handler of the job controller that takes a path-bound
identifier, a request in which that identifier does not parse as a positive
integer gets HTTP 400 with a `message` string: `hrId` in `createJob` and
`getJobsByHR`; `id` in `getJobById`, `updateJob` and `deleteJob`; `jobId` in
`applyForJob` and `getApplicationsByJob`; `candidateId` in `applyForJob`,
`getApplications` and `deleteApplication`; `applicationId` in
`updateApplicationStatus` and `deleteApplication`. -/
theorem invalid_identifier_rejected (env : Env) (store : Store) (req : Req) :
    (parsesPositive (req.params "hrId") = false →
      (createJob env store req).isMessage 400 ∧ (getJobsByHR env store req).isMessage 400) ∧
    (parsesPositive (req.params "id") = false →
      (getJobById env store req).isMessage 400 ∧ (updateJob env store req).isMessage 400 ∧
      (deleteJob env store req).isMessage 400) ∧
    (parsesPositive (req.params "jobId") = false →
      (applyForJob env store req).isMessage 400 ∧
      (getApplicationsByJob env store req).isMessage 400) ∧
    (parsesPositive (req.params "candidateId") = false →
      (applyForJob env store req).isMessage 400 ∧ (getApplications env store req).isMessage 400 ∧
      (deleteApplication env store req).isMessage 400) ∧
    (parsesPositive (req.params "applicationId") = false →
      (updateApplicationStatus env store req).isMessage 400 ∧
      (deleteApplication env store req).isMessage 400) := by
  refine ⟨?_, ?_, ?_, ?_, ?_⟩
  · intro h
    exact ⟨(rejected_props _ store (createJob_rejected env store req
        (Or.inr (Or.inr (Or.inr (Or.inr (Or.inr h))))))).1,
      (getJobsByHR_rejected_props env store req (Or.inl h)).1⟩
  · intro h
    exact ⟨(rejected_props _ store ⟨_, getJobById_rejected env store req h⟩).1,
      (rejected_props _ store ⟨_, updateJob_rejected env store req h⟩).1,
      (rejected_props _ store ⟨_, deleteJob_rejected env store req h⟩).1⟩
  · intro h
    exact ⟨(rejected_props _ store (applyForJob_rejected env store req (Or.inl h))).1,
      (getApplicationsByJob_rejected_props env store req (Or.inl h)).1⟩
  · intro h
    exact ⟨(rejected_props _ store (applyForJob_rejected env store req (Or.inr h))).1,
      (getApplications_rejected_props env store req (Or.inl h)).1,
      (rejected_props _ store (deleteApplication_rejected env store req (Or.inr h))).1⟩
  · intro h
    exact ⟨(rejected_props _ store (updateApplicationStatus_rejected env store req (Or.inl h))).1,
      (rejected_props _ store (deleteApplication_rejected env store req (Or.inl h))).1⟩

/-- Witness of C12 at the identifier `abc` for `getJobById`, `updateJob` and
`deleteJob`. -/
theorem invalid_identifier_rejected_witness :
    (getJobById Env.reference Store.sample (Req.ofLists [("id", "abc")] [])).isMessage 400 ∧
    (updateJob Env.reference Store.sample (Req.ofLists [("id", "abc")] [])).isMessage 400 ∧
    (deleteJob Env.reference Store.sample (Req.ofLists [("id", "abc")] [])).isMessage 400 :=
  (invalid_identifier_rejected Env.reference Store.sample
    (Req.ofLists [("id", "abc")] [])).2.1 (by decide)

/-- C13: a request that fails the input validation of a handler is answered
with HTTP 400 and a `message` before any call against the persistence layer: no
call is issued and the store is left as it was. The validation failures are: a
missing required field or an invalid `hrId` in `createJob`; an invalid page or
limit in the listing handlers; an identifier that does not parse as a positive
integer in every handler that takes one; a status outside pending, accepted,
rejected in `updateApplicationStatus`. -/
theorem fail_fast (env : Env) (store : Store) (req : Req) :
    ((req.body "title").truthy = false ∨ (req.body "company").truthy = false ∨
        (req.body "location").truthy = false ∨ (req.body "description").truthy = false ∨
        (req.body "requirements").truthy = false ∨
        parsesPositive (req.params "hrId") = false →
      (createJob env store req).isMessage 400 ∧ (createJob env store req).untouched store) ∧
    ((∃ msg, validatePagination (withDefault (req.query "page") 1)
          (withDefault (req.query "limit") 10) = .error msg) →
      (getJobs env store req).isMessage 400 ∧ (getJobs env store req).untouched store) ∧
    (parsesPositive (req.params "id") = false →
      ((getJobById env store req).isMessage 400 ∧ (getJobById env store req).untouched store) ∧
      ((updateJob env store req).isMessage 400 ∧ (updateJob env store req).untouched store) ∧
      ((deleteJob env store req).isMessage 400 ∧ (deleteJob env store req).untouched store)) ∧
    (parsesPositive (req.params "jobId") = false ∨
        parsesPositive (req.params "candidateId") = false →
      (applyForJob env store req).isMessage 400 ∧ (applyForJob env store req).untouched store) ∧
    ((parsesPositive (req.params "candidateId") = false ∨
        ∃ msg, validatePagination (withDefault (req.query "page") 1)
          (withDefault (req.query "limit") 10) = .error msg) →
      (getApplications env store req).isMessage 400 ∧
      (getApplications env store req).untouched store) ∧
    ((parsesPositive (req.params "hrId") = false ∨
        ∃ msg, validatePagination (withDefault (req.query "page") 1)
          (withDefault (req.query "limit") 10) = .error msg) →
      (getJobsByHR env store req).isMessage 400 ∧ (getJobsByHR env store req).untouched store) ∧
    ((parsesPositive (req.params "jobId") = false ∨
        ∃ msg, validatePagination (withDefault (req.query "page") 1)
          (withDefault (req.query "limit") 10) = .error msg) →
      (getApplicationsByJob env store req).isMessage 400 ∧
      (getApplicationsByJob env store req).untouched store) ∧
    (parsesPositive (req.params "applicationId") = false ∨
        statusIncluded (req.body "status") = false →
      (updateApplicationStatus env store req).isMessage 400 ∧
      (updateApplicationStatus env store req).untouched store) ∧
    (parsesPositive (req.params "applicationId") = false ∨
        parsesPositive (req.params "candidateId") = false →
      (deleteApplication env store req).isMessage 400 ∧
      (deleteApplication env store req).untouched store) := by
  refine ⟨?_, ?_, ?_, ?_, ?_, ?_, ?_, ?_, ?_⟩
  · intro h
    exact rejected_props _ store (createJob_rejected env store req h)
  · intro h
    exact getJobs_rejected_props env store req h
  · intro h
    exact ⟨rejected_props _ store ⟨_, getJobById_rejected env store req h⟩,
      rejected_props _ store ⟨_, updateJob_rejected env store req h⟩,
      rejected_props _ store ⟨_, deleteJob_rejected env store req h⟩⟩
  · intro h
    exact rejected_props _ store (applyForJob_rejected env store req h)
  · intro h
    exact getApplications_rejected_props env store req h
  · intro h
    exact getJobsByHR_rejected_props env store req h
  · intro h
    exact getApplicationsByJob_rejected_props env store req h
  · intro h
    exact rejected_props _ store (updateApplicationStatus_rejected env store req h)
  · intro h
    exact rejected_props _ store (deleteApplication_rejected env store req h)

/-- Witness of C13 at `updateApplicationStatus` for application 1 with the
status `archived`: HTTP 400, no call, store unchanged. -/
theorem fail_fast_witness :
    (updateApplicationStatus Env.reference Store.sample
      (Req.ofParts [("applicationId", "1")] [] [("status", .str "archived")])).isMessage 400 ∧
    (updateApplicationStatus Env.reference Store.sample
      (Req.ofParts [("applicationId", "1")] [] [("status", .str "archived")])).untouched
      Store.sample :=
  (fail_fast Env.reference Store.sample
    (Req.ofParts [("applicationId", "1")] [] [("status", .str "archived")])).2.2.2.2.2.2.2.1
    (Or.inr (by decide))

/-- C14, as stated, fails for `getJobsByHR`: when the persistence layer fails,
its HTTP 500 body carries the text of the error, so two different errors give
two different bodies, while `getJobs` on the same failures answers the same
fixed body. -/
theorem getJobsByHR_error_not_generic :
    (getJobsByHR (Env.failing Env.reference "db down") Store.empty
        (Req.ofLists [("hrId", "1")] [])).reply =
      { status := 500, body := .message "Database connection error: db down" } ∧
    (getJobsByHR (Env.failing Env.reference "timeout") Store.empty
        (Req.ofLists [("hrId", "1")] [])).reply =
      { status := 500, body := .message "Database connection error: timeout" } ∧
    (getJobsByHR (Env.failing Env.reference "db down") Store.empty
        (Req.ofLists [("hrId", "1")] [])).reply ≠
      (getJobsByHR (Env.failing Env.reference "timeout") Store.empty
        (Req.ofLists [("hrId", "1")] [])).reply ∧
    (getJobs (Env.failing Env.reference "db down") Store.empty (Req.ofLists [] [])).reply =
      (getJobs (Env.failing Env.reference "timeout") Store.empty (Req.ofLists [] [])).reply := by
  decide

/-- C14 (what the code does): for a request that passes validation, when one of
the two reads fails with an error `e`, `getJobs`, `getApplications` and
`getApplicationsByJob` respond HTTP 500 with the fixed message `Server Error`,
whatever `e` is; `getJobsByHR` responds HTTP 500 with the message
`Database connection error: ` followed by the text of the error that the
`await` throws: the error of a read that failed, which is `e` when the other
read succeeded, and when both reads failed the error of the one whose rejection
arrived first. -/
theorem listing_storage_error (env : Env) (store : Store) (req : Req) (e : String) :
    (∀ l, getJobsQuery req = .ok l →
      (prisma.jobFindMany env store l.whereClause l.sortField l.sortDirection l.skip
          l.limitNum = .error e ∨
        prisma.jobCount env store l.whereClause = .error e) →
      (getJobs env store req).reply = { status := 500, body := .message "Server Error" }) ∧
    (∀ l, getApplicationsQuery req = .ok l →
      (prisma.applicationFindMany env store l.whereClause l.sortField l.sortDirection l.skip
          l.limitNum true false = .error e ∨
        prisma.applicationCount env store l.whereClause = .error e) →
      (getApplications env store req).reply =
        { status := 500, body := .message "Server Error" }) ∧
    (∀ l, getApplicationsByJobQuery req = .ok l →
      (prisma.applicationFindMany env store l.whereClause l.sortField l.sortDirection l.skip
          l.limitNum false true = .error e ∨
        prisma.applicationCount env store l.whereClause = .error e) →
      (getApplicationsByJob env store req).reply =
        { status := 500, body := .message "Server Error" }) ∧
    (∀ l, getJobsByHRQuery req = .ok l →
      (prisma.jobFindMany env store l.whereClause l.sortField l.sortDirection l.skip
          l.limitNum = .error e ∨
        prisma.jobCount env store l.whereClause = .error e) →
      ∃ thrown,
        (getJobsByHR env store req).reply =
          { status := 500, body := .message ("Database connection error: " ++ thrown) } ∧
        (prisma.jobFindMany env store l.whereClause l.sortField l.sortDirection l.skip
            l.limitNum = .error thrown ∨
          prisma.jobCount env store l.whereClause = .error thrown) ∧
        (((∃ jobs, prisma.jobFindMany env store l.whereClause l.sortField l.sortDirection
              l.skip l.limitNum = .ok jobs) ∨
            (∃ total, prisma.jobCount env store l.whereClause = .ok total)) →
          thrown = e) ∧
        (∀ e1 e2,
          prisma.jobFindMany env store l.whereClause l.sortField l.sortDirection l.skip
            l.limitNum = .error e1 →
          prisma.jobCount env store l.whereClause = .error e2 →
          thrown =
            if env.race store
                [.jobFindMany l.whereClause l.sortField l.sortDirection l.skip l.limitNum,
                 .jobCount l.whereClause] then e1 else e2)) := by
  refine ⟨?_, ?_, ?_, ?_⟩
  · intro l hq h
    simp only [getJobs, hq, Db.start, Db.send, promiseAll, prisma.job.findMany,
      prisma.job.count, Db.read, List.nil_append, List.cons_append]
    cases hA : prisma.jobFindMany env store l.whereClause l.sortField l.sortDirection l.skip
        l.limitNum <;>
      cases hB : prisma.jobCount env store l.whereClause <;>
      first
        | rfl
        | (rw [hA, hB] at h
           rcases h with h | h <;> cases h)
  · intro l hq h
    simp only [getApplications, hq, Db.start, Db.send, promiseAll, prisma.application.findMany,
      prisma.application.count, Db.read, List.nil_append, List.cons_append]
    cases hA : prisma.applicationFindMany env store l.whereClause l.sortField l.sortDirection l.skip
        l.limitNum true false <;>
      cases hB : prisma.applicationCount env store l.whereClause <;>
      first
        | rfl
        | (rw [hA, hB] at h
           rcases h with h | h <;> cases h)
  · intro l hq h
    simp only [getApplicationsByJob, hq, Db.start, Db.send, promiseAll, prisma.application.findMany,
      prisma.application.count, Db.read, List.nil_append, List.cons_append]
    cases hA : prisma.applicationFindMany env store l.whereClause l.sortField l.sortDirection l.skip
        l.limitNum false true <;>
      cases hB : prisma.applicationCount env store l.whereClause <;>
      first
        | rfl
        | (rw [hA, hB] at h
           rcases h with h | h <;> cases h)
  · intro l hq h
    simp only [getJobsByHR, hq, Db.start, Db.send, promiseAll, prisma.job.findMany,
      prisma.job.count, Db.read, List.nil_append, List.cons_append]
    cases hA : prisma.jobFindMany env store l.whereClause l.sortField l.sortDirection l.skip
        l.limitNum with
    | error e1 =>
      cases hB : prisma.jobCount env store l.whereClause with
      | error e2 =>
        refine ⟨_, rfl, ?_, ?_, ?_⟩
        · by_cases hr : env.race store
              [.jobFindMany l.whereClause l.sortField l.sortDirection l.skip l.limitNum,
               .jobCount l.whereClause] = true
          · rw [if_pos hr]; exact Or.inl rfl
          · rw [if_neg hr]; exact Or.inr rfl
        · rintro (⟨jobs, hj⟩ | ⟨total, ht⟩)
          · cases hj
          · cases ht
        · intro a b ha hb
          cases ha
          cases hb
          rfl
      | ok total =>
        have he : e1 = e := by
          rw [hA, hB] at h
          rcases h with h | h
          · cases h; rfl
          · cases h
        subst he
        refine ⟨e1, rfl, Or.inl rfl, fun _ => rfl, ?_⟩
        intro a b _ hb
        cases hb
    | ok jobs =>
      cases hB : prisma.jobCount env store l.whereClause with
      | error e2 =>
        have he : e2 = e := by
          rw [hA, hB] at h
          rcases h with h | h
          · cases h
          · cases h; rfl
        subst he
        refine ⟨e2, rfl, Or.inr rfl, fun _ => rfl, ?_⟩
        intro a b ha _
        cases ha
      | ok total =>
        rw [hA, hB] at h
        rcases h with h | h <;> cases h

/-- Witness of C14 at `getJobs` with default parameters and at `getJobsByHR`
for user 1, on a persistence layer whose every call fails with `db down`. -/
theorem listing_storage_error_witness :
    (getJobs (Env.failing Env.reference "db down") Store.empty (Req.ofLists [] [])).reply =
      { status := 500, body := .message "Server Error" } ∧
    (getJobsByHR (Env.failing Env.reference "db down") Store.empty
        (Req.ofLists [("hrId", "1")] [])).reply =
      { status := 500, body := .message "Database connection error: db down" } ∧
    ∃ thrown,
      (getJobsByHR (Env.failing Env.reference "db down") Store.empty
          (Req.ofLists [("hrId", "1")] [])).reply =
        { status := 500, body := .message ("Database connection error: " ++ thrown) } :=
  ⟨(listing_storage_error (Env.failing Env.reference "db down") Store.empty
      (Req.ofLists [] []) "db down").1
    { whereClause := { AND := none, hrId := none }, sortField := "createdAt",
      sortDirection := "desc", pageNum := .int 1, limitNum := .int 10, skip := .int 0 }
    rfl (Or.inl rfl),
   by decide,
   Exists.imp (fun _ h => h.1)
    ((listing_storage_error (Env.failing Env.reference "db down") Store.empty
      (Req.ofLists [("hrId", "1")] []) "db down").2.2.2
    { whereClause := { AND := none, hrId := some (.int 1) }, sortField := "createdAt",
      sortDirection := "desc", pageNum := .int 1, limitNum := .int 10, skip := .int 0 }
    rfl (Or.inl rfl))⟩

theorem idCheck_int (n : Int) (hn : 1 ≤ n) :
    (!Num.isInteger (.int n) || Num.lt (.int n) (.int 1)) = false := by
  have h : ¬ n < 1 := by omega
  simp [Num.isInteger, Num.lt, h]

theorem find_job_none (store : Store) (n : Int) (h : ∀ j ∈ store.jobs, j.id ≠ n) :
    store.jobs.find? (fun j => j.id == n) = none := by
  rw [List.find?_eq_none]
  intro j hj
  simpa using h j hj

theorem find_application_none (store : Store) (n : Int)
    (h : ∀ a ∈ store.applications, a.id ≠ n) :
    store.applications.find? (fun a => a.id == n) = none := by
  rw [List.find?_eq_none]
  intro a ha
  simpa using h a ha

theorem applicationUpdate_missing (env : Env) (store : Store) (n : Int) (status response : BodyVal)
    (h : ∀ a ∈ store.applications, a.id ≠ n) :
    ∃ e, prisma.applicationUpdate env store (.int n) status response = .error e := by
  unfold prisma.applicationUpdate
  cases env.fault store (.applicationUpdate (.int n) status response) with
  | some e => exact ⟨e, rfl⟩
  | none =>
    cases status with
    | str st =>
      cases prisma.setOptional none response with
      | error e2 => exact ⟨_, rfl⟩
      | ok resp =>
        simp only [find_application_none store n h]
        exact ⟨_, rfl⟩
    | undefined => exact ⟨_, rfl⟩
    | null => exact ⟨_, rfl⟩
    | bool b => exact ⟨_, rfl⟩
    | num k => exact ⟨_, rfl⟩
    | object => exact ⟨_, rfl⟩

/-- C15 (what the code does): on a persistence layer that does not fail of its
own, for a valid identifier `n` that no job, respectively no application, has:
`getJobById`, `deleteJob` and `deleteApplication` respond HTTP 404 with a
message, but `updateJob` responds HTTP 500 `Server Error` and
`updateApplicationStatus` responds HTTP 500, because `update` on a missing
record throws and lands in the `catch`; the store is unchanged in all five. -/
theorem missing_entity_responses (env : Env) (store : Store) (req : Req) (n : Int)
    (hn : 1 ≤ n) (hfault : ∀ c, env.fault store c = none) :
    (parseInt (ofParam (req.params "id")) = .int n → (∀ j ∈ store.jobs, j.id ≠ n) →
      ((getJobById env store req).reply = { status := 404, body := .message "Job not found" } ∧
        (getJobById env store req).store = store) ∧
      ((deleteJob env store req).reply = { status := 404, body := .message "Job not found" } ∧
        (deleteJob env store req).store = store) ∧
      ((updateJob env store req).reply = { status := 500, body := .message "Server Error" } ∧
        (updateJob env store req).store = store)) ∧
    (parseInt (ofParam (req.params "applicationId")) = .int n →
      (∀ a ∈ store.applications, a.id ≠ n) →
      (statusIncluded (req.body "status") = true →
        (updateApplicationStatus env store req).isMessage 500 ∧
        (updateApplicationStatus env store req).store = store) ∧
      (parsesPositive (req.params "candidateId") = true →
        (deleteApplication env store req).reply =
          { status := 404, body := .message "Application not found" } ∧
        (deleteApplication env store req).store = store)) := by
  refine ⟨?_, ?_⟩
  · intro hid hnone
    have hfind := find_job_none store n hnone
    refine ⟨?_, ?_, ?_⟩
    · simp only [getJobById_eq, hid, idCheck_int n hn, prisma.jobFindUnique, hfault, hfind]
      exact ⟨rfl, rfl⟩
    · simp only [deleteJob_eq, hid, idCheck_int n hn, prisma.jobFindUnique, hfault, hfind]
      exact ⟨rfl, rfl⟩
    · simp only [updateJob_eq, hid, idCheck_int n hn, prisma.jobUpdate, hfault, hfind]
      exact ⟨rfl, rfl⟩
  · intro hid hnone
    refine ⟨?_, ?_⟩
    · intro hst
      obtain ⟨e, he⟩ := applicationUpdate_missing env store n (req.body "status")
        (orNull (req.body "response")) hnone
      simp only [updateApplicationStatus_eq, hid, idCheck_int n hn, hst, he]
      exact ⟨⟨rfl, _, rfl⟩, rfl⟩
    · intro hc
      have hfind := find_application_none store n hnone
      simp only [deleteApplication_eq, hid, idCheck_int n hn, idCheck_eq, hc,
        prisma.applicationFindUnique, hfault, hfind]
      exact ⟨rfl, rfl⟩

/-- Witness of C15 at `updateJob` with id 1 on the empty store: HTTP 500, not
404. -/
theorem missing_entity_responses_witness :
    (updateJob Env.reference Store.empty (Req.ofLists [("id", "1")] [])).reply =
      { status := 500, body := .message "Server Error" } ∧
    (updateJob Env.reference Store.empty (Req.ofLists [("id", "1")] [])).store = Store.empty :=
  ((missing_entity_responses Env.reference Store.empty (Req.ofLists [("id", "1")] []) 1
      (by decide) (fun _ => rfl)).1 rfl (fun _ hj => absurd hj (List.not_mem_nil _))).2.2

/-! ## Persistence layer: effects of the writing calls -/

theorem jobCreate_ok (env : Env) (store : Store) (data : JobData) (j : Job) (s2 : Store)
    (h : prisma.jobCreate env store data = .ok (j, s2)) :
    s2.applications = store.applications ∧ s2.users = store.users := by
  unfold prisma.jobCreate at h
  split at h
  · cases h
  · split at h
    · simp only [Except.ok.injEq, Prod.mk.injEq] at h
      obtain ⟨_, rfl⟩ := h
      exact ⟨rfl, rfl⟩
    · cases h

theorem jobUpdate_ok (env : Env) (store : Store) (id : Num) (data : JobUpdate) (j : Job)
    (s2 : Store) (h : prisma.jobUpdate env store id data = .ok (j, s2)) :
    s2.applications = store.applications ∧ s2.users = store.users := by
  unfold prisma.jobUpdate at h
  split at h
  · cases h
  · split at h
    · split at h
      · cases h
      · split at h
        · simp only [Except.ok.injEq, Prod.mk.injEq] at h
          obtain ⟨_, rfl⟩ := h
          exact ⟨rfl, rfl⟩
        · cases h
    · cases h

theorem jobDelete_ok (env : Env) (store : Store) (id : Num) (s2 : Store)
    (h : prisma.jobDelete env store id = .ok s2) :
    (∀ a ∈ s2.applications, a ∈ store.applications) ∧ s2.users = store.users := by
  unfold prisma.jobDelete at h
  split at h
  · cases h
  · split at h
    · split at h
      · cases h
      · simp only [Except.ok.injEq] at h
        subst h
        refine ⟨?_, rfl⟩
        intro a ha
        simp only at ha
        split at ha
        · exact (List.mem_filter.1 ha).1
        · exact ha
    · cases h

theorem applicationCreate_ok (env : Env) (store : Store) (jn cn : Num) (status : String)
    (a : Application) (s2 : Store)
    (h : prisma.applicationCreate env store jn cn status = .ok (a, s2)) :
    ∃ j c : Int, jn = .int j ∧ cn = .int c ∧
      store.applications.any (fun x => x.jobId == j && x.candidateId == c) = false ∧
      a = { id := store.nextApplicationId, jobId := j, candidateId := c, status := status,
            response := none, createdAt := env.now, updatedAt := env.now } ∧
      s2 = { store with applications := store.applications ++ [a],
                        nextApplicationId := store.nextApplicationId + 1 } := by
  unfold prisma.applicationCreate at h
  split at h
  · cases h
  · split at h
    · rename_i j c _
      split at h
      · cases h
      · rename_i hany
        simp only [Except.ok.injEq, Prod.mk.injEq] at h
        obtain ⟨rfl, rfl⟩ := h
        refine ⟨j, c, rfl, rfl, ?_, rfl, rfl⟩
        simpa using hany
    · cases h

theorem applicationUpdate_ok (env : Env) (store : Store) (id : Num) (status response : BodyVal)
    (a : Application) (s2 : Store)
    (h : prisma.applicationUpdate env store id status response = .ok (a, s2)) :
    ∃ st : String, status = .str st ∧ a.status = st ∧
      (∀ x ∈ s2.applications, x ∈ store.applications ∨ x = a) ∧
      s2.jobs = store.jobs ∧ s2.users = store.users := by
  unfold prisma.applicationUpdate at h
  split at h
  · cases h
  · split at h
    · rename_i n st resp _ _
      split at h
      · cases h
      · simp only [Except.ok.injEq, Prod.mk.injEq] at h
        obtain ⟨rfl, rfl⟩ := h
        refine ⟨st, rfl, rfl, ?_, rfl, rfl⟩
        intro x hx
        simp only [List.mem_map] at hx
        obtain ⟨y, hy, hxy⟩ := hx
        split at hxy
        · exact Or.inr hxy.symm
        · exact Or.inl (hxy ▸ hy)
    · cases h

theorem applicationDelete_ok (env : Env) (store : Store) (id : Num) (s2 : Store)
    (h : prisma.applicationDelete env store id = .ok s2) :
    ∃ n : Int, id = .int n ∧
      s2 = { store with applications := store.applications.filter (fun a => a.id != n) } := by
  unfold prisma.applicationDelete at h
  split at h
  · cases h
  · split at h
    · rename_i n _
      split at h
      · cases h
      · simp only [Except.ok.injEq] at h
        exact ⟨n, rfl, h.symm⟩
    · cases h

/-! ## Application workflow: auxiliary facts -/

theorem applyForJob_store_cases (env : Env) (store : Store) (req : Req) :
    (applyForJob env store req).store = store ∨
    ∃ jn cn a, prisma.applicationCreate env store jn cn "pending" =
      .ok (a, (applyForJob env store req).store) := by
  rw [applyForJob_eq]
  simp only []
  split
  · exact Or.inl rfl
  · split
    · exact Or.inl rfl
    · split
      · exact Or.inl rfl
      · exact Or.inl rfl
      · exact Or.inl rfl
      · exact Or.inl rfl
      · exact Or.inl rfl
      · split
        · exact Or.inl rfl
        · exact Or.inl rfl
        · split
          · rename_i hcreate
            exact Or.inr ⟨_, _, _, hcreate⟩
          · exact Or.inl rfl

theorem find_some_of_mem {α : Type} (xs : List α) (p : α → Bool) (x : α) (hx : x ∈ xs)
    (hp : p x = true) : ∃ y, xs.find? p = some y ∧ p y = true := by
  cases hf : xs.find? p with
  | none =>
    rw [List.find?_eq_none] at hf
    exact absurd hp (hf x hx)
  | some y => exact ⟨y, rfl, List.find?_some hf⟩

theorem applyForJob_fresh (env : Env) (store : Store) (req : Req) (j c : Int)
    (hj : parseInt (ofParam (req.params "jobId")) = .int j) (hj1 : 1 ≤ j)
    (hc : parseInt (ofParam (req.params "candidateId")) = .int c) (hc1 : 1 ≤ c)
    (hfault : ∀ call, env.fault store call = none)
    (hjob : ∃ job ∈ store.jobs, job.id = j) (huser : ∃ u ∈ store.users, u.id = c)
    (hnone : ∀ a ∈ store.applications, ¬ (a.jobId = j ∧ a.candidateId = c)) :
    applyForJob env store req =
      respond 201
        (.messageApplication "Application submitted successfully"
          { id := store.nextApplicationId, jobId := j, candidateId := c, status := "pending",
            response := none, createdAt := env.now, updatedAt := env.now })
        { store with
          applications := store.applications ++
            [{ id := store.nextApplicationId, jobId := j, candidateId := c, status := "pending",
               response := none, createdAt := env.now, updatedAt := env.now }],
          nextApplicationId := store.nextApplicationId + 1 }
        [.jobFindUnique (.int j) false, .usersFindUnique (.int c),
         .applicationFindUniquePair (.int j) (.int c),
         .applicationCreate (.int j) (.int c) "pending"] := by
  obtain ⟨job, hjm, hjid⟩ := hjob
  obtain ⟨u, hum, huid⟩ := huser
  obtain ⟨job2, hfj, _⟩ := find_some_of_mem store.jobs (fun x => x.id == j) job hjm
    (by simpa using hjid)
  obtain ⟨u2, hfu, _⟩ := find_some_of_mem store.users (fun x => x.id == c) u hum
    (by simpa using huid)
  have hpair : store.applications.find? (fun a => a.jobId == j && a.candidateId == c) = none := by
    rw [List.find?_eq_none]
    intro a ha
    simpa using hnone a ha
  have hany : store.applications.any (fun a => a.jobId == j && a.candidateId == c) = false := by
    rw [List.any_eq_false]
    intro a ha
    simpa using hnone a ha
  simp only [applyForJob_eq, hj, hc, idCheck_int j hj1, idCheck_int c hc1, prisma.jobFindUnique,
    prisma.usersFindUnique, prisma.applicationFindUniquePair, prisma.applicationCreate,
    hfault, hfj, hfu, hpair, hany, if_false, Bool.false_eq_true, List.cons_append,
    List.nil_append, List.singleton_append]

theorem applyForJob_existing (env : Env) (store : Store) (req : Req) (j c : Int)
    (hj : parseInt (ofParam (req.params "jobId")) = .int j) (hj1 : 1 ≤ j)
    (hc : parseInt (ofParam (req.params "candidateId")) = .int c) (hc1 : 1 ≤ c)
    (hfault : ∀ call, env.fault store call = none)
    (hjob : ∃ job ∈ store.jobs, job.id = j) (huser : ∃ u ∈ store.users, u.id = c)
    (hsome : ∃ a ∈ store.applications, a.jobId = j ∧ a.candidateId = c) :
    applyForJob env store req =
      respond 400 (.message "Already applied for this job") store
        [.jobFindUnique (.int j) false, .usersFindUnique (.int c),
         .applicationFindUniquePair (.int j) (.int c)] := by
  obtain ⟨job, hjm, hjid⟩ := hjob
  obtain ⟨u, hum, huid⟩ := huser
  obtain ⟨a, ham, hap⟩ := hsome
  obtain ⟨job2, hfj, _⟩ := find_some_of_mem store.jobs (fun x => x.id == j) job hjm
    (by simpa using hjid)
  obtain ⟨u2, hfu, _⟩ := find_some_of_mem store.users (fun x => x.id == c) u hum
    (by simpa using huid)
  obtain ⟨a2, hfa, _⟩ := find_some_of_mem store.applications
    (fun x => x.jobId == j && x.candidateId == c) a ham (by simpa using hap)
  simp only [applyForJob_eq, hj, hc, idCheck_int j hj1, idCheck_int c hc1, prisma.jobFindUnique,
    prisma.usersFindUnique, prisma.applicationFindUniquePair,
    hfault, hfj, hfu, hfa, if_false, Bool.false_eq_true, List.cons_append,
    List.nil_append, List.singleton_append]

theorem uniquePairs_applyForJob (env : Env) (store : Store) (req : Req)
    (h : UniquePairs store) : UniquePairs (applyForJob env store req).store := by
  rcases applyForJob_store_cases env store req with hs | ⟨jn, cn, a, hcreate⟩
  · rw [hs]; exact h
  · obtain ⟨j, c, _, _, hany, ha, hs2⟩ := applicationCreate_ok env store jn cn "pending" a _ hcreate
    rw [hs2]
    unfold UniquePairs at h ⊢
    simp only [List.map_append, List.map_cons, List.map_nil]
    rw [List.nodup_append]
    refine ⟨h, List.nodup_singleton _, ?_⟩
    intro p hp hq
    rw [List.mem_singleton] at hq
    rw [List.any_eq_false] at hany
    obtain ⟨x, hx, hxp⟩ := List.mem_map.1 hp
    apply hany x hx
    rw [hq, ha] at hxp
    simp only [Prod.mk.injEq] at hxp
    simp [hxp.1, hxp.2]

/-! ## Application workflow: the claims -/

/-- C16: on a persistence layer that does not fail of its own, for a store that
holds job `j` and candidate `c` and no application for the pair, `applyForJob`
responds HTTP 201 and adds exactly one application, for `(j, c)` with status
pending; the same request again is answered with HTTP 400
`Already applied for this job` and adds nothing, so one application for the pair
remains. In general, whatever the request and the persistence layer's failures,
`applyForJob` never gives a store with two applications for one
(jobId, candidateId) pair from a store that had none. -/
theorem apply_twice (env : Env) (store : Store) (req : Req) (j c : Int)
    (hj : parseInt (ofParam (req.params "jobId")) = .int j) (hj1 : 1 ≤ j)
    (hc : parseInt (ofParam (req.params "candidateId")) = .int c) (hc1 : 1 ≤ c)
    (hfault : ∀ s call, env.fault s call = none)
    (hjob : ∃ job ∈ store.jobs, job.id = j) (huser : ∃ u ∈ store.users, u.id = c)
    (hnone : ∀ a ∈ store.applications, ¬ (a.jobId = j ∧ a.candidateId = c)) :
    (∃ a : Application, a.jobId = j ∧ a.candidateId = c ∧ a.status = "pending" ∧
      (applyForJob env store req).reply =
        { status := 201,
          body := .messageApplication "Application submitted successfully" a } ∧
      (applyForJob env store req).store.applications = store.applications ++ [a] ∧
      (applyForJob env store req).store.jobs = store.jobs ∧
      (applyForJob env store req).store.users = store.users ∧
      (applyForJob env (applyForJob env store req).store req).reply =
        { status := 400, body := .message "Already applied for this job" } ∧
      (applyForJob env (applyForJob env store req).store req).store =
        (applyForJob env store req).store ∧
      (applyForJob env (applyForJob env store req).store req).store.applications.filter
        (fun x => x.jobId == j && x.candidateId == c) = [a]) ∧
    (∀ (env2 : Env) (store2 : Store) (req2 : Req), UniquePairs store2 →
      UniquePairs (applyForJob env2 store2 req2).store) := by
  refine ⟨?_, fun env2 store2 req2 h => uniquePairs_applyForJob env2 store2 req2 h⟩
  have h1 := applyForJob_fresh env store req j c hj hj1 hc hc1 (hfault store) hjob huser hnone
  have h2 := applyForJob_existing env (applyForJob env store req).store req j c hj hj1 hc hc1
    (hfault _) (by rw [h1]; exact hjob) (by rw [h1]; exact huser)
    (by
      rw [h1]
      exact ⟨_, List.mem_append_right _ (List.mem_singleton.2 rfl), rfl, rfl⟩)
  refine ⟨{ id := store.nextApplicationId, jobId := j, candidateId := c, status := "pending",
            response := none, createdAt := env.now, updatedAt := env.now },
    rfl, rfl, rfl, ?_, ?_, ?_, ?_, ?_, ?_, ?_⟩
  · rw [h1]; rfl
  · rw [h1]; rfl
  · rw [h1]; rfl
  · rw [h1]; rfl
  · rw [h2]; rfl
  · rw [h2]; rfl
  · rw [h2]
    simp only [respond]
    rw [h1]
    simp only [respond, List.filter_append]
    have hnil : store.applications.filter (fun x => x.jobId == j && x.candidateId == c) = [] := by
      rw [List.filter_eq_nil_iff]
      intro a ha
      simpa using hnone a ha
    rw [hnil]
    simp

/-- Witness of C16 on the sample store: candidate 9 applies for job 1, twice. -/
theorem apply_twice_witness :
    (applyForJob Env.reference Store.sample
        (Req.ofLists [("jobId", "1"), ("candidateId", "9")] [])).reply.status = 201 ∧
    (applyForJob Env.reference
        (applyForJob Env.reference Store.sample
          (Req.ofLists [("jobId", "1"), ("candidateId", "9")] [])).store
        (Req.ofLists [("jobId", "1"), ("candidateId", "9")] [])).reply =
      { status := 400, body := .message "Already applied for this job" } ∧
    (∀ (env2 : Env) (store2 : Store) (req2 : Req), UniquePairs store2 →
      UniquePairs (applyForJob env2 store2 req2).store) :=
  ⟨by decide, by decide,
   (apply_twice Env.reference Store.sample
      (Req.ofLists [("jobId", "1"), ("candidateId", "9")] []) 1 9
      rfl (by decide) rfl (by decide) (fun _ _ => rfl)
      (by decide) (by decide) (by decide)).2⟩

/-- C17: on a persistence layer that does not fail of its own, for a
`deleteApplication` request with valid identifiers whose application `a` exists
(and is the only one with that id): when `a.candidateId` differs from the
request's candidate the response is HTTP 403 and the store is unchanged; when
it matches, the response is HTTP 200, the store loses exactly the application
with that id, and every other application, job and user stays as it was. -/
theorem deleteApplication_ownership (env : Env) (store : Store) (req : Req) (n c : Int)
    (a : Application)
    (hn : parseInt (ofParam (req.params "applicationId")) = .int n) (hn1 : 1 ≤ n)
    (hc : parseInt (ofParam (req.params "candidateId")) = .int c) (hc1 : 1 ≤ c)
    (hfault : ∀ call, env.fault store call = none)
    (ha : a ∈ store.applications) (hid : a.id = n)
    (huniq : ∀ x ∈ store.applications, x.id = n → x = a) :
    (a.candidateId ≠ c →
      (deleteApplication env store req).reply =
        { status := 403, body := .message "Unauthorized to delete this application" } ∧
      (deleteApplication env store req).store = store) ∧
    (a.candidateId = c →
      (deleteApplication env store req).reply =
        { status := 200, body := .message "Application deleted successfully" } ∧
      (deleteApplication env store req).store =
        { store with applications := store.applications.filter (fun x => x.id != n) } ∧
      a ∉ (deleteApplication env store req).store.applications ∧
      (∀ x ∈ store.applications, x ≠ a →
        x ∈ (deleteApplication env store req).store.applications) ∧
      (∀ x ∈ (deleteApplication env store req).store.applications,
        x ∈ store.applications)) := by
  obtain ⟨y, hfy, hpy⟩ := find_some_of_mem store.applications (fun x => x.id == n) a ha
    (by simpa using hid)
  have hya : y = a := huniq y (List.mem_of_find?_eq_some hfy) (by simpa using hpy)
  rw [hya] at hfy
  refine ⟨?_, ?_⟩
  · intro hne
    have hneq : (Num.int a.candidateId != Num.int c) = true := by
      simp [hne]
    simp only [deleteApplication_eq, hn, hc, idCheck_int n hn1, idCheck_int c hc1,
      prisma.applicationFindUnique, hfault, hfy, hneq, if_true, if_false, Bool.false_eq_true]
    exact ⟨rfl, rfl⟩
  · intro heq
    have hneq : (Num.int a.candidateId != Num.int c) = false := by
      simp [heq]
    have hout : deleteApplication env store req =
        respond 200 (.message "Application deleted successfully")
          { store with applications := store.applications.filter (fun x => x.id != n) }
          [.applicationFindUnique (.int n), .applicationDelete (.int n)] := by
      simp only [deleteApplication_eq, hn, hc, idCheck_int n hn1, idCheck_int c hc1,
        prisma.applicationFindUnique, prisma.applicationDelete, hfault, hfy, hneq, if_false,
        Bool.false_eq_true]
    rw [hout]
    refine ⟨rfl, rfl, ?_, ?_, ?_⟩
    · simp only [respond, List.mem_filter, not_and]
      intro _
      simp [hid]
    · intro x hx hxa
      simp only [respond, List.mem_filter]
      refine ⟨hx, ?_⟩
      have : x.id ≠ n := fun h => hxa (huniq x hx h)
      simpa using this
    · intro x hx
      simp only [respond, List.mem_filter] at hx
      exact hx.1

/-- Witness of C17 on the sample store: candidate 7 may not delete application
1, which belongs to candidate 9. -/
theorem deleteApplication_ownership_witness :
    (deleteApplication Env.reference Store.sample
        (Req.ofLists [("applicationId", "1"), ("candidateId", "7")] [])).reply =
      { status := 403, body := .message "Unauthorized to delete this application" } ∧
    (deleteApplication Env.reference Store.sample
        (Req.ofLists [("applicationId", "1"), ("candidateId", "7")] [])).store = Store.sample :=
  (deleteApplication_ownership Env.reference Store.sample
      (Req.ofLists [("applicationId", "1"), ("candidateId", "7")] []) 1 7
      { id := 1, jobId := 2, candidateId := 9, status := "accepted", response := none,
        createdAt := 3, updatedAt := 4 }
      rfl (by decide) rfl (by decide) (fun _ => rfl) (by decide) rfl (by decide)).1
    (by decide)

/-! ## Listing query executor: the reads -/

theorem page_request (page limit : JSVal) (pn ln sk : Num)
    (h : validatePagination page limit = .ok pn ln sk) :
    ∃ p L : Int, pn = .int p ∧ ln = .int L ∧
      sk = Num.mul (Num.sub (.int p) (.int 1)) (.int L) ∧
      ((p - 1) * L < 9007199254740992 → sk = .int ((p - 1) * L)) := by
  obtain ⟨p, L, hpn, hln, hsk, hp1, hL1, _, _⟩ := validated_page page limit pn ln sk h
  refine ⟨p, L, hpn, hln, hsk, ?_⟩
  intro hb
  rw [hsk]
  exact product_rounds_exactly p L hp1 hL1 hb

/-- C18, as stated, fails: for `?page=3002399751580332&limit=3` the page fetch
of `getJobs` is issued with the skip 9007199254740992, the double nearest to
`(page - 1) * limit`, which is 9007199254740993. -/
theorem listing_reads_skip_rounded :
    (getJobs Env.reference Store.sample
        (Req.ofLists [] [("page", "3002399751580332"), ("limit", "3")])).calls =
      [.jobFindMany { AND := none, hrId := none } "createdAt" "desc" (.int 9007199254740992)
         (.int 3),
       .jobCount { AND := none, hrId := none }] ∧
    ((3002399751580332 : Int) - 1) * 3 = 9007199254740993 ∧
    Num.int 9007199254740992 ≠ Num.int (((3002399751580332 : Int) - 1) * 3) := by
  decide

/-- C18 (amended): in every listing handler, for a request that passes
validation, the handler issues exactly two reads, the page fetch and the count,
both with the same predicate; the fetch carries the resolved sort and the `skip`
and `take` of the validated page request: `take` is the limit and `skip` is the
double-precision value of `(page - 1) * limit`, which is `(page - 1) * limit`
itself whenever that product is below `2 ^ 53`. The response is built from the
results of these two reads: when both succeed it is HTTP 200 with the fetched
records and the counted total, and when one fails it is HTTP 500. -/
theorem listing_reads (env : Env) (store : Store) (req : Req) :
    (∀ l, getJobsQuery req = .ok l →
      validatePagination (withDefault (req.query "page") 1)
        (withDefault (req.query "limit") 10) = .ok l.pageNum l.limitNum l.skip ∧
      (∃ p L : Int, l.pageNum = .int p ∧ l.limitNum = .int L ∧
        l.skip = Num.mul (Num.sub (.int p) (.int 1)) (.int L) ∧
        ((p - 1) * L < 9007199254740992 → l.skip = .int ((p - 1) * L))) ∧
      (getJobs env store req).calls =
        [.jobFindMany l.whereClause l.sortField l.sortDirection l.skip l.limitNum,
         .jobCount l.whereClause] ∧
      (∀ jobs total,
        prisma.jobFindMany env store l.whereClause l.sortField l.sortDirection l.skip
          l.limitNum = .ok jobs →
        prisma.jobCount env store l.whereClause = .ok total →
        ∃ pages filters,
          (getJobs env store req).reply =
            { status := 200,
              body := .jobs jobs { page := l.pageNum, limit := l.limitNum, total := total,
                                   pages := pages } filters }) ∧
      (∀ e,
        prisma.jobFindMany env store l.whereClause l.sortField l.sortDirection l.skip
            l.limitNum = .error e ∨
          prisma.jobCount env store l.whereClause = .error e →
        (getJobs env store req).reply.status = 500)) ∧
    (∀ l, getJobsByHRQuery req = .ok l →
      validatePagination (withDefault (req.query "page") 1)
        (withDefault (req.query "limit") 10) = .ok l.pageNum l.limitNum l.skip ∧
      (∃ p L : Int, l.pageNum = .int p ∧ l.limitNum = .int L ∧
        l.skip = Num.mul (Num.sub (.int p) (.int 1)) (.int L) ∧
        ((p - 1) * L < 9007199254740992 → l.skip = .int ((p - 1) * L))) ∧
      (getJobsByHR env store req).calls =
        [.jobFindMany l.whereClause l.sortField l.sortDirection l.skip l.limitNum,
         .jobCount l.whereClause] ∧
      (∀ jobs total,
        prisma.jobFindMany env store l.whereClause l.sortField l.sortDirection l.skip
          l.limitNum = .ok jobs →
        prisma.jobCount env store l.whereClause = .ok total →
        ∃ pages filters,
          (getJobsByHR env store req).reply =
            { status := 200,
              body := .jobs jobs { page := l.pageNum, limit := l.limitNum, total := total,
                                   pages := pages } filters }) ∧
      (∀ e,
        prisma.jobFindMany env store l.whereClause l.sortField l.sortDirection l.skip
            l.limitNum = .error e ∨
          prisma.jobCount env store l.whereClause = .error e →
        (getJobsByHR env store req).reply.status = 500)) ∧
    (∀ l, getApplicationsQuery req = .ok l →
      validatePagination (withDefault (req.query "page") 1)
        (withDefault (req.query "limit") 10) = .ok l.pageNum l.limitNum l.skip ∧
      (∃ p L : Int, l.pageNum = .int p ∧ l.limitNum = .int L ∧
        l.skip = Num.mul (Num.sub (.int p) (.int 1)) (.int L) ∧
        ((p - 1) * L < 9007199254740992 → l.skip = .int ((p - 1) * L))) ∧
      (getApplications env store req).calls =
        [.applicationFindMany l.whereClause l.sortField l.sortDirection l.skip l.limitNum,
         .applicationCount l.whereClause] ∧
      (∀ applications total,
        prisma.applicationFindMany env store l.whereClause l.sortField l.sortDirection l.skip
          l.limitNum true false = .ok applications →
        prisma.applicationCount env store l.whereClause = .ok total →
        ∃ pages,
          (getApplications env store req).reply =
            { status := 200,
              body := .applications applications
                { page := l.pageNum, limit := l.limitNum, total := total, pages := pages } }) ∧
      (∀ e,
        prisma.applicationFindMany env store l.whereClause l.sortField l.sortDirection l.skip
            l.limitNum true false = .error e ∨
          prisma.applicationCount env store l.whereClause = .error e →
        (getApplications env store req).reply.status = 500)) ∧
    (∀ l, getApplicationsByJobQuery req = .ok l →
      validatePagination (withDefault (req.query "page") 1)
        (withDefault (req.query "limit") 10) = .ok l.pageNum l.limitNum l.skip ∧
      (∃ p L : Int, l.pageNum = .int p ∧ l.limitNum = .int L ∧
        l.skip = Num.mul (Num.sub (.int p) (.int 1)) (.int L) ∧
        ((p - 1) * L < 9007199254740992 → l.skip = .int ((p - 1) * L))) ∧
      (getApplicationsByJob env store req).calls =
        [.applicationFindMany l.whereClause l.sortField l.sortDirection l.skip l.limitNum,
         .applicationCount l.whereClause] ∧
      (∀ applications total,
        prisma.applicationFindMany env store l.whereClause l.sortField l.sortDirection l.skip
          l.limitNum false true = .ok applications →
        prisma.applicationCount env store l.whereClause = .ok total →
        ∃ pages,
          (getApplicationsByJob env store req).reply =
            { status := 200,
              body := .applications applications
                { page := l.pageNum, limit := l.limitNum, total := total, pages := pages } }) ∧
      (∀ e,
        prisma.applicationFindMany env store l.whereClause l.sortField l.sortDirection l.skip
            l.limitNum false true = .error e ∨
          prisma.applicationCount env store l.whereClause = .error e →
        (getApplicationsByJob env store req).reply.status = 500)) := by
  refine ⟨?_, ?_, ?_, ?_⟩
  · intro l hq
    obtain ⟨pn, ln, sk, hv, h1, h2, h3, _⟩ := getJobsQuery_ok req l hq
    have hv2 : validatePagination (withDefault (req.query "page") 1)
        (withDefault (req.query "limit") 10) = .ok l.pageNum l.limitNum l.skip := by
      rw [h1, h2, h3]; exact hv
    refine ⟨hv2, page_request _ _ _ _ _ hv2, ?_, ?_, ?_⟩
    · simp only [getJobs, hq, Db.start, Db.send, promiseAll, prisma.job.findMany,
        prisma.job.count, Db.read, List.nil_append, List.cons_append]
      cases prisma.jobFindMany env store l.whereClause l.sortField l.sortDirection l.skip
          l.limitNum <;>
        cases prisma.jobCount env store l.whereClause <;> rfl
    · intro found total hf hc
      refine ⟨Num.ceilDiv (.int (total : Int)) l.limitNum,
        (some { search := req.query "search", location := req.query "location",
                company := req.query "company", type := req.query "type",
                skills := req.query "skills", salaryMin := req.query "salaryMin",
                salaryMax := req.query "salaryMax", sortBy := l.sortField,
                sortOrder := l.sortDirection }), ?_⟩
      simp only [getJobs, hq, Db.start, Db.send, promiseAll, prisma.job.findMany,
        prisma.job.count, Db.read, List.nil_append, List.cons_append, hf, hc, respond]
    · intro e he
      simp only [getJobs, hq, Db.start, Db.send, promiseAll, prisma.job.findMany,
        prisma.job.count, Db.read, List.nil_append, List.cons_append]
      cases hA : prisma.jobFindMany env store l.whereClause l.sortField l.sortDirection l.skip
          l.limitNum <;>
        cases hB : prisma.jobCount env store l.whereClause <;>
        first
          | rfl
          | (rw [hA, hB] at he
             rcases he with he | he <;> cases he)
  · intro l hq
    obtain ⟨c, pn, ln, sk, _, _, hv, h1, h2, h3, _⟩ := getJobsByHRQuery_ok req l hq
    have hv2 : validatePagination (withDefault (req.query "page") 1)
        (withDefault (req.query "limit") 10) = .ok l.pageNum l.limitNum l.skip := by
      rw [h1, h2, h3]; exact hv
    refine ⟨hv2, page_request _ _ _ _ _ hv2, ?_, ?_, ?_⟩
    · simp only [getJobsByHR, hq, Db.start, Db.send, promiseAll, prisma.job.findMany,
        prisma.job.count, Db.read, List.nil_append, List.cons_append]
      cases prisma.jobFindMany env store l.whereClause l.sortField l.sortDirection l.skip
          l.limitNum <;>
        cases prisma.jobCount env store l.whereClause <;> rfl
    · intro found total hf hc
      refine ⟨Num.ceilDiv (.int (total : Int)) l.limitNum, none, ?_⟩
      simp only [getJobsByHR, hq, Db.start, Db.send, promiseAll, prisma.job.findMany,
        prisma.job.count, Db.read, List.nil_append, List.cons_append, hf, hc, respond]
    · intro e he
      simp only [getJobsByHR, hq, Db.start, Db.send, promiseAll, prisma.job.findMany,
        prisma.job.count, Db.read, List.nil_append, List.cons_append]
      cases hA : prisma.jobFindMany env store l.whereClause l.sortField l.sortDirection l.skip
          l.limitNum <;>
        cases hB : prisma.jobCount env store l.whereClause <;>
        first
          | rfl
          | (rw [hA, hB] at he
             rcases he with he | he <;> cases he)
  · intro l hq
    obtain ⟨c, pn, ln, sk, _, _, hv, h1, h2, h3, _⟩ := getApplicationsQuery_ok req l hq
    have hv2 : validatePagination (withDefault (req.query "page") 1)
        (withDefault (req.query "limit") 10) = .ok l.pageNum l.limitNum l.skip := by
      rw [h1, h2, h3]; exact hv
    refine ⟨hv2, page_request _ _ _ _ _ hv2, ?_, ?_, ?_⟩
    · simp only [getApplications, hq, Db.start, Db.send, promiseAll, prisma.application.findMany,
        prisma.application.count, Db.read, List.nil_append, List.cons_append]
      cases prisma.applicationFindMany env store l.whereClause l.sortField l.sortDirection l.skip
          l.limitNum true false <;>
        cases prisma.applicationCount env store l.whereClause <;> rfl
    · intro found total hf hc
      refine ⟨Num.ceilDiv (.int (total : Int)) l.limitNum, ?_⟩
      simp only [getApplications, hq, Db.start, Db.send, promiseAll, prisma.application.findMany,
        prisma.application.count, Db.read, List.nil_append, List.cons_append, hf, hc, respond]
    · intro e he
      simp only [getApplications, hq, Db.start, Db.send, promiseAll, prisma.application.findMany,
        prisma.application.count, Db.read, List.nil_append, List.cons_append]
      cases hA : prisma.applicationFindMany env store l.whereClause l.sortField l.sortDirection l.skip
          l.limitNum true false <;>
        cases hB : prisma.applicationCount env store l.whereClause <;>
        first
          | rfl
          | (rw [hA, hB] at he
             rcases he with he | he <;> cases he)
  · intro l hq
    obtain ⟨c, pn, ln, sk, _, _, hv, h1, h2, h3, _⟩ := getApplicationsByJobQuery_ok req l hq
    have hv2 : validatePagination (withDefault (req.query "page") 1)
        (withDefault (req.query "limit") 10) = .ok l.pageNum l.limitNum l.skip := by
      rw [h1, h2, h3]; exact hv
    refine ⟨hv2, page_request _ _ _ _ _ hv2, ?_, ?_, ?_⟩
    · simp only [getApplicationsByJob, hq, Db.start, Db.send, promiseAll, prisma.application.findMany,
        prisma.application.count, Db.read, List.nil_append, List.cons_append]
      cases prisma.applicationFindMany env store l.whereClause l.sortField l.sortDirection l.skip
          l.limitNum false true <;>
        cases prisma.applicationCount env store l.whereClause <;> rfl
    · intro found total hf hc
      refine ⟨Num.ceilDiv (.int (total : Int)) l.limitNum, ?_⟩
      simp only [getApplicationsByJob, hq, Db.start, Db.send, promiseAll, prisma.application.findMany,
        prisma.application.count, Db.read, List.nil_append, List.cons_append, hf, hc, respond]
    · intro e he
      simp only [getApplicationsByJob, hq, Db.start, Db.send, promiseAll, prisma.application.findMany,
        prisma.application.count, Db.read, List.nil_append, List.cons_append]
      cases hA : prisma.applicationFindMany env store l.whereClause l.sortField l.sortDirection l.skip
          l.limitNum false true <;>
        cases hB : prisma.applicationCount env store l.whereClause <;>
        first
          | rfl
          | (rw [hA, hB] at he
             rcases he with he | he <;> cases he)

/-- Witness of C18 (amended) at `getJobsByHR` for user 7 with `?page=2&limit=1`
on the sample store: the fetch skips 1 and takes 1, both reads carry
`{ hrId: 7 }`, and the response lists job 1, the second of the two jobs of
user 7 in descending order. -/
theorem listing_reads_witness :
    (getJobsByHR Env.reference Store.sample
        (Req.ofLists [("hrId", "7")] [("page", "2"), ("limit", "1")])).calls =
      [.jobFindMany { AND := none, hrId := some (.int 7) } "createdAt" "desc" (.int 1) (.int 1),
       .jobCount { AND := none, hrId := some (.int 7) }] ∧
    (∃ p L : Int, Num.int 2 = .int p ∧ Num.int 1 = .int L ∧
      Num.int 1 = Num.mul (Num.sub (.int p) (.int 1)) (.int L) ∧
      ((p - 1) * L < 9007199254740992 → Num.int 1 = .int ((p - 1) * L))) ∧
    (getJobsByHR Env.reference Store.sample
        (Req.ofLists [("hrId", "7")] [("page", "2"), ("limit", "1")])).reply.jobIds = [1] :=
  ⟨((listing_reads Env.reference Store.sample
      (Req.ofLists [("hrId", "7")] [("page", "2"), ("limit", "1")])).2.1
      { whereClause := { AND := none, hrId := some (.int 7) }, sortField := "createdAt",
        sortDirection := "desc", pageNum := .int 2, limitNum := .int 1, skip := .int 1 }
      rfl).2.2.1,
   ((listing_reads Env.reference Store.sample
      (Req.ofLists [("hrId", "7")] [("page", "2"), ("limit", "1")])).2.1
      { whereClause := { AND := none, hrId := some (.int 7) }, sortField := "createdAt",
        sortDirection := "desc", pageNum := .int 2, limitNum := .int 1, skip := .int 1 }
      rfl).2.1,
   by decide⟩

/-! ## Status invariant -/

theorem validStatuses_of_subset (s1 s2 : Store)
    (h : ∀ a ∈ s2.applications, a ∈ s1.applications) (hv : ValidStatuses s1) :
    ValidStatuses s2 :=
  fun a ha => hv a (h a ha)

theorem validStatuses_of_eq (s1 s2 : Store) (h : s2.applications = s1.applications)
    (hv : ValidStatuses s1) : ValidStatuses s2 :=
  validStatuses_of_subset s1 s2 (fun _ ha => h ▸ ha) hv

theorem statusIncluded_str (st : String) (h : statusIncluded (.str st) = true) :
    st ∈ ["pending", "accepted", "rejected"] := by
  simpa [statusIncluded] using h

theorem getJobs_store (env : Env) (store : Store) (req : Req) :
    (getJobs env store req).store = store := by
  rw [getJobs_eq]
  split
  · rfl
  · simp only []
    split <;> rfl

theorem getJobsByHR_store (env : Env) (store : Store) (req : Req) :
    (getJobsByHR env store req).store = store := by
  rw [getJobsByHR_eq]
  split
  · rfl
  · simp only []
    split <;> rfl

theorem getApplications_store (env : Env) (store : Store) (req : Req) :
    (getApplications env store req).store = store := by
  rw [getApplications_eq]
  split
  · rfl
  · simp only []
    split <;> rfl

theorem getApplicationsByJob_store (env : Env) (store : Store) (req : Req) :
    (getApplicationsByJob env store req).store = store := by
  rw [getApplicationsByJob_eq]
  split
  · rfl
  · simp only []
    split <;> rfl

theorem getJobById_store (env : Env) (store : Store) (req : Req) :
    (getJobById env store req).store = store := by
  rw [getJobById_eq]
  simp only []
  split
  · rfl
  · split <;> rfl

theorem validStatuses_createJob (env : Env) (store : Store) (req : Req)
    (hv : ValidStatuses store) : ValidStatuses (createJob env store req).store := by
  rw [createJob_eq]
  simp only []
  split
  · exact hv
  · split
    · exact hv
    · split
      · rename_i hcreate
        exact validStatuses_of_eq store _ (jobCreate_ok env store _ _ _ hcreate).1 hv
      · exact hv

theorem validStatuses_updateJob (env : Env) (store : Store) (req : Req)
    (hv : ValidStatuses store) : ValidStatuses (updateJob env store req).store := by
  rw [updateJob_eq]
  simp only []
  split
  · exact hv
  · split
    · rename_i hupdate
      exact validStatuses_of_eq store _ (jobUpdate_ok env store _ _ _ _ hupdate).1 hv
    · exact hv

theorem validStatuses_deleteJob (env : Env) (store : Store) (req : Req)
    (hv : ValidStatuses store) : ValidStatuses (deleteJob env store req).store := by
  rw [deleteJob_eq]
  simp only []
  split
  · exact hv
  · split
    · exact hv
    · exact hv
    · split
      · rename_i hdelete
        exact validStatuses_of_subset store _ (jobDelete_ok env store _ _ hdelete).1 hv
      · exact hv

theorem validStatuses_applyForJob (env : Env) (store : Store) (req : Req)
    (hv : ValidStatuses store) : ValidStatuses (applyForJob env store req).store := by
  rcases applyForJob_store_cases env store req with hs | ⟨jn, cn, a, hcreate⟩
  · rw [hs]; exact hv
  · obtain ⟨j, c, _, _, _, ha, hs2⟩ := applicationCreate_ok env store jn cn "pending" a _ hcreate
    rw [hs2]
    intro x hx
    simp only [List.mem_append, List.mem_singleton] at hx
    rcases hx with hx | hx
    · exact hv x hx
    · rw [hx, ha]
      simp

theorem validStatuses_updateApplicationStatus (env : Env) (store : Store) (req : Req)
    (hv : ValidStatuses store) :
    ValidStatuses (updateApplicationStatus env store req).store := by
  rw [updateApplicationStatus_eq]
  simp only []
  split
  · exact hv
  · split
    · exact hv
    · rename_i hstatus
      split
      · rename_i hupdate
        obtain ⟨st, hst, hast, hmem, _⟩ := applicationUpdate_ok env store _ _ _ _ _ hupdate
        intro x hx
        rcases hmem x hx with hx | hx
        · exact hv x hx
        · rw [hx, hast]
          apply statusIncluded_str
          rw [← hst]
          simpa using hstatus
      · exact hv

theorem validStatuses_deleteApplication (env : Env) (store : Store) (req : Req)
    (hv : ValidStatuses store) : ValidStatuses (deleteApplication env store req).store := by
  rw [deleteApplication_eq]
  simp only []
  split
  · exact hv
  · split
    · exact hv
    · split
      · exact hv
      · exact hv
      · split
        · exact hv
        · split
          · rename_i hdelete
            obtain ⟨n, _, hs2⟩ := applicationDelete_ok env store _ _ hdelete
            rw [hs2]
            exact validStatuses_of_subset store _ (fun a ha => (List.mem_filter.1 ha).1) hv
          · exact hv

/-- C19, as stated, fails in its last part: with the application id `abc` and
the status `archived`, which is outside the set, `updateApplicationStatus`
responds HTTP 400 `Invalid application ID`, not `Invalid status`. -/
theorem updateApplicationStatus_identifier_first :
    statusIncluded (.str "archived") = false ∧
    (updateApplicationStatus Env.reference Store.sample
        (Req.ofParts [("applicationId", "abc")] [] [("status", .str "archived")])).reply =
      { status := 400, body := .message "Invalid application ID" } ∧
    (updateApplicationStatus Env.reference Store.sample
        (Req.ofParts [("applicationId", "abc")] [] [("status", .str "archived")])).reply ≠
      { status := 400, body := .message "Invalid status" } := by
  decide

/-- C19 (amended): if every application in the store has a status among
pending, accepted, rejected, then so has every application in the store left
by any handler of the job controller, for any request and any behaviour of the
persistence layer. `updateApplicationStatus` with a status outside the set
responds HTTP 400 with a message, issues no call and changes no application;
the message is `Invalid status` when the application id is valid, and
`Invalid application ID` otherwise. -/
theorem status_invariant (env : Env) (store : Store) (req : Req) (hv : ValidStatuses store) :
    (ValidStatuses (createJob env store req).store ∧
      ValidStatuses (getJobs env store req).store ∧
      ValidStatuses (getJobById env store req).store ∧
      ValidStatuses (updateJob env store req).store ∧
      ValidStatuses (deleteJob env store req).store ∧
      ValidStatuses (applyForJob env store req).store ∧
      ValidStatuses (getApplications env store req).store ∧
      ValidStatuses (getJobsByHR env store req).store ∧
      ValidStatuses (getApplicationsByJob env store req).store ∧
      ValidStatuses (updateApplicationStatus env store req).store ∧
      ValidStatuses (deleteApplication env store req).store) ∧
    (statusIncluded (req.body "status") = false →
      (updateApplicationStatus env store req).isMessage 400 ∧
      (updateApplicationStatus env store req).untouched store ∧
      (parsesPositive (req.params "applicationId") = true →
        (updateApplicationStatus env store req).reply =
          { status := 400, body := .message "Invalid status" }) ∧
      (parsesPositive (req.params "applicationId") = false →
        (updateApplicationStatus env store req).reply =
          { status := 400, body := .message "Invalid application ID" })) := by
  refine ⟨⟨validStatuses_createJob env store req hv, ?_, ?_,
    validStatuses_updateJob env store req hv, validStatuses_deleteJob env store req hv,
    validStatuses_applyForJob env store req hv, ?_, ?_, ?_,
    validStatuses_updateApplicationStatus env store req hv,
    validStatuses_deleteApplication env store req hv⟩, ?_⟩
  · rw [getJobs_store]; exact hv
  · rw [getJobById_store]; exact hv
  · rw [getApplications_store]; exact hv
  · rw [getJobsByHR_store]; exact hv
  · rw [getApplicationsByJob_store]; exact hv
  · intro hst
    have hrej := rejected_props _ store
      (updateApplicationStatus_rejected env store req (Or.inr hst))
    refine ⟨hrej.1, hrej.2, ?_, ?_⟩
    · intro hid
      simp only [updateApplicationStatus_eq, idCheck_eq, hid, hst, Bool.not_true, Bool.not_false,
        if_true, if_false, Bool.false_eq_true]
      rfl
    · intro hid
      simp only [updateApplicationStatus_eq, idCheck_eq, hid, Bool.not_false, if_true]
      rfl

/-- Witness of C19 (amended) on the sample store: accepting application 1
keeps every status in the set. -/
theorem status_invariant_witness :
    ValidStatuses Store.sample ∧
    ValidStatuses (updateApplicationStatus Env.reference Store.sample
      (Req.ofParts [("applicationId", "1")] [] [("status", .str "rejected")])).store ∧
    (updateApplicationStatus Env.reference Store.sample
      (Req.ofParts [("applicationId", "1")] [] [("status", .str "rejected")])).reply.status =
      200 :=
  ⟨by unfold ValidStatuses; decide,
   (status_invariant Env.reference Store.sample
      (Req.ofParts [("applicationId", "1")] [] [("status", .str "rejected")])
      (by unfold ValidStatuses; decide)).1.2.2.2.2.2.2.2.2.2.1,
   by decide⟩

end JobBazar
